import Mathlib

/-!
# hipBLAS client tests: a shallow embedding

The client test functions under `clients/include` are straight-line drivers:
they read an `Arguments` record, decide from the sizes whether to take a
quick-return path, allocate buffers, call the vendor routine, call the CPU
reference, compare, and optionally time the vendor routine.  Each test function
is embedded as the list of `Step`s it performs, grouped by source section
(`TestFn`), as a function of its `Arguments`.  `run` executes such a list against
an environment that decides the outcome of every HIP runtime call and hipBLAS
call, stopping where an `ASSERT_*` fails.

`int` values are `Int`; `wrap32` is applied where the source does `int`
arithmetic, `size_t` values are `Nat` reduced modulo `2 ^ 64`.  `double` values
(`stride_scale`) are exact rationals.  Host allocations (`host_vector`,
`std::vector`) are taken to succeed, except that in `testing_asum` the
constructor of `std::vector` throws when it is given a negative `int`; HIP
runtime calls and hipBLAS calls succeed or fail as the environment says.
-/

namespace HipblasClients

/-! ## Machine integers -/

/-- The value of an `int` expression whose mathematical value is `x`
(two's complement, 32 bits). -/
def wrap32 (x : Int) : Int := (x + 2147483648) % 4294967296 - 2147483648

/-- The value of an `int64_t` (`hipblasStride`) expression whose mathematical value is `x`. -/
def wrap64 (x : Int) : Int := (x + 9223372036854775808) % 18446744073709551616 - 9223372036854775808

/-- Conversion `size_t(x)` of a signed integer. -/
def size_t (x : Int) : Nat := (x % 18446744073709551616).toNat

/-- Product of two `size_t` values. -/
def size_t_mul (a b : Nat) : Nat := (a * b) % 18446744073709551616

/-- Conversion of a `double` to `hipblasStride`: truncation toward zero. -/
def to_hipblasStride (q : ℚ) : Int := wrap64 (if 0 ≤ q then Int.floor q else Int.ceil q)

/-- The source's `cond ? -x : x` absolute value on `int`. -/
def int_abs (x : Int) : Int := if x < 0 then wrap32 (-x) else x

/-! ## Enumerations of the hipBLAS API used by the clients -/

/-- Modelled from the spec: `hipblasStatus_t` is declared in the library header
`hipblas.h`, which is not among the client sources; the clients name
`HIPBLAS_STATUS_SUCCESS`, `HIPBLAS_STATUS_NOT_INITIALIZED`,
`HIPBLAS_STATUS_ALLOC_FAILED`, `HIPBLAS_STATUS_INVALID_VALUE` and
`HIPBLAS_STATUS_INVALID_ENUM`. -/
inductive hipblasStatus_t
  | HIPBLAS_STATUS_SUCCESS
  | HIPBLAS_STATUS_NOT_INITIALIZED
  | HIPBLAS_STATUS_ALLOC_FAILED
  | HIPBLAS_STATUS_INVALID_VALUE
  | HIPBLAS_STATUS_MAPPING_ERROR
  | HIPBLAS_STATUS_EXECUTION_FAILED
  | HIPBLAS_STATUS_INTERNAL_ERROR
  | HIPBLAS_STATUS_NOT_SUPPORTED
  | HIPBLAS_STATUS_ARCH_MISMATCH
  | HIPBLAS_STATUS_HANDLE_IS_NULLPTR
  | HIPBLAS_STATUS_INVALID_ENUM
  | HIPBLAS_STATUS_UNKNOWN
  deriving DecidableEq, Repr

inductive hipblasPointerMode_t
  | HIPBLAS_POINTER_MODE_HOST
  | HIPBLAS_POINTER_MODE_DEVICE
  deriving DecidableEq, Repr

inductive hipblasSideMode_t
  | HIPBLAS_SIDE_LEFT
  | HIPBLAS_SIDE_RIGHT
  | HIPBLAS_SIDE_BOTH
  deriving DecidableEq, Repr

inductive hipblasFillMode_t
  | HIPBLAS_FILL_MODE_UPPER
  | HIPBLAS_FILL_MODE_LOWER
  | HIPBLAS_FILL_MODE_FULL
  deriving DecidableEq, Repr

inductive hipblasOperation_t
  | HIPBLAS_OP_N
  | HIPBLAS_OP_T
  | HIPBLAS_OP_C
  deriving DecidableEq, Repr

inductive hipblasDiagType_t
  | HIPBLAS_DIAG_NON_UNIT
  | HIPBLAS_DIAG_UNIT
  deriving DecidableEq, Repr

inductive hipblas_client_api
  | C
  | FORTRAN
  deriving DecidableEq, Repr

inductive hipMemcpyKind
  | hipMemcpyHostToDevice
  | hipMemcpyDeviceToHost
  deriving DecidableEq, Repr

open hipblasStatus_t hipblasPointerMode_t hipblasSideMode_t hipblasFillMode_t
open hipblasOperation_t hipblasDiagType_t hipMemcpyKind

/-- A `hipblasDatatype_t` value, by its numeric code. -/
abbrev hipblasDatatype_t := Nat

/-- Modelled from the spec: `char2hipblas_side` is defined in the client utility
code, not among the sources; the BLAS letter convention (`L`, `R`) is used and
any other letter gives `HIPBLAS_SIDE_BOTH`. -/
def char2hipblas_side (c : Char) : hipblasSideMode_t :=
  if c = 'L' ∨ c = 'l' then HIPBLAS_SIDE_LEFT
  else if c = 'R' ∨ c = 'r' then HIPBLAS_SIDE_RIGHT
  else HIPBLAS_SIDE_BOTH

/-- Modelled from the spec: `char2hipblas_fill` is defined in the client utility
code, not among the sources; the BLAS letter convention (`U`, `L`) is used. -/
def char2hipblas_fill (c : Char) : hipblasFillMode_t :=
  if c = 'U' ∨ c = 'u' then HIPBLAS_FILL_MODE_UPPER
  else if c = 'L' ∨ c = 'l' then HIPBLAS_FILL_MODE_LOWER
  else HIPBLAS_FILL_MODE_FULL

/-- Modelled from the spec: `char2hipblas_operation` is defined in the client
utility code, not among the sources; the BLAS letter convention (`N`, `T`, `C`)
is used. -/
def char2hipblas_operation (c : Char) : hipblasOperation_t :=
  if c = 'N' ∨ c = 'n' then HIPBLAS_OP_N
  else if c = 'T' ∨ c = 't' then HIPBLAS_OP_T
  else HIPBLAS_OP_C

/-- Modelled from the spec: `char2hipblas_diagonal` is defined in the client
utility code, not among the sources; the BLAS letter convention (`U`, `N`) is
used. -/
def char2hipblas_diagonal (c : Char) : hipblasDiagType_t :=
  if c = 'U' ∨ c = 'u' then HIPBLAS_DIAG_UNIT else HIPBLAS_DIAG_NON_UNIT

/-! ## The argument record -/

/-- The fields of `Arguments` that the embedded test functions read. -/
structure Arguments where
  M : Int
  N : Int
  K : Int
  lda : Int
  ldb : Int
  ldc : Int
  incx : Int
  incy : Int
  batch_count : Int
  stride_scale : ℚ
  alpha : ℚ
  beta : ℚ
  side : Char
  uplo : Char
  transA : Char
  transB : Char
  diag : Char
  a_type : hipblasDatatype_t
  b_type : hipblasDatatype_t
  c_type : hipblasDatatype_t
  compute_type : hipblasDatatype_t
  compute_type_gemm : Nat
  flags : Nat
  with_flags : Bool
  unit_check : Bool
  norm_check : Bool
  timing : Bool
  cold_iters : Int
  iters : Int
  inplace : Bool
  fortran : Bool
  api : hipblas_client_api

/-! ## Steps of a test function -/

/-- A pointer argument of a vendor call: `nullptr`, the address of a host
object or buffer, or a device buffer. -/
inductive Ptr
  | nullptr
  | host (name : String)
  | device (name : String)
  deriving DecidableEq, Repr

/-- One argument of a vendor call, in source order. -/
inductive Arg
  | handle
  | null_handle
  | int (v : Int)
  | stride (v : Int)
  | ptr (p : Ptr)
  | side (s : hipblasSideMode_t)
  | fill (u : hipblasFillMode_t)
  | op (t : hipblasOperation_t)
  | diag (d : hipblasDiagType_t)
  | op_from_side (s : hipblasSideMode_t)
  | diag_from_side (s : hipblasSideMode_t)
  | datatype (t : hipblasDatatype_t)
  | algo_default
  | gemm_flags (f : Nat)
  deriving DecidableEq, Repr

/-- How the status of a vendor call is checked: `ASSERT_HIPBLAS_SUCCESS(call)`,
`EXPECT_HIPBLAS_STATUS2(call, expected)`, or stored in a variable. -/
inductive Expect
  | assert_success
  | expect_status (expected : hipblasStatus_t)
  /-- The status is stored (`status = call;`) and tested by the caller. -/
  | stored
  deriving DecidableEq, Repr

/-- The kinds of statement the test functions execute. -/
inductive Step
  /-- Statement `hipblasLocalHandle handle(arg);` -/
  | local_handle
  /-- Statement `host_vector<T> name(size);` -/
  | host_vector (name : String) (size : Nat)
  /-- Statement `device_vector<T> name(size);` -/
  | device_vector (name : String) (size : Nat)
  /-- Statement `host_batch_vector<T> name(n, inc, batch_count);` -/
  | host_batch_vector (name : String) (n : Int) (inc : Int) (batch_count : Int)
  /-- Statement `device_batch_vector<T> name(n, inc, batch_count);` -/
  | device_batch_vector (name : String) (n : Int) (inc : Int) (batch_count : Int)
  /-- Statement `ASSERT_HIP_SUCCESS(name.memcheck());` -/
  | memcheck (name : String)
  /-- Statement `hipblas_init_vector`, `hipblas_init_matrix`, `hipblas_init`,
  `hipblas_init_alternating_sign` on the named host buffer, with the row count,
  column count and leading dimension (or length, 1 and increment) passed. -/
  | init (name : String) (rows : Int) (cols : Int) (ld : Int)
  /-- Statement `hipblas_init_nan(name.data(), n);` -/
  | init_nan (name : String) (n : Int)
  /-- A host-side preparation routine (`banded_matrix_setup`, ...). -/
  | prepare (routine : String) (target : String)
  /-- Host copy `dst = src;` or `dst.copy_from(src);`. -/
  | assign (dst : String) (src : String)
  /-- Statement `ASSERT_HIP_SUCCESS(hipMemcpy(dst, src, sizeof(T) * count, kind));` -/
  | hipMemcpy (dst : String) (src : String) (count : Nat) (kind : hipMemcpyKind)
  /-- Statement `ASSERT_HIP_SUCCESS(dst.transfer_from(src));` -/
  | transfer_from (dst : String) (src : String)
  /-- Statement `ASSERT_HIPBLAS_SUCCESS(hipblasSetPointerMode(handle, mode));` -/
  | set_pointer_mode (mode : hipblasPointerMode_t)
  /-- Statement `ASSERT_HIPBLAS_SUCCESS(hipblasGetStream(handle, &stream));` -/
  | get_stream
  /-- A call of the vendor routine `fn` (its Fortran binding when `fortran`). -/
  | vendor (fn : String) (fortran : Bool) (args : List Arg) (e : Expect)
  /-- A call of the CPU reference routine, once per batch, writing `gold`. -/
  | cblas (fn : String) (batches : Int) (gold : String)
  /-- Statement `unit_check_general(...)` of `result` against `gold`. -/
  | unit_check (gold : String) (result : String)
  /-- Statement `near_check_general(...)` of `result` against `gold`. -/
  | near_check (gold : String) (result : String)
  /-- Statement `unit_check_error(err, tolerance)`. -/
  | unit_check_error (err : String)
  /-- Statement `err = norm_check_general(...)` (`err += ...` when `accumulate`). -/
  | norm_check (err : String) (accumulate : Bool) (gold : String) (result : String)
  /-- Statement `err = std::abs(vector_norm_1(...))`. -/
  | vector_norm_1 (err : String) (gold : String) (result : String)
  /-- Statement `gpu_time_used = get_time_us_sync(stream);` at the start of the measured
  iterations (`final = false`) or `gpu_time_used = get_time_us_sync(stream) -
  gpu_time_used;` after the loop (`final = true`). -/
  | get_time_us_sync (final : Bool)
  /-- Statement `Model{}.log_args(..., errs...)`. -/
  | log_args (errs : List String)
  /-- Statement `hipblasCreate(&handle);` -/
  | hipblasCreate
  /-- Statement `hipblasDestroy(handle);` -/
  | hipblasDestroy
  /-- Statement `srand(seed);` -/
  | srand (seed : Nat)
  /-- Statement `CHECK_HIP_ERROR(hipMalloc(&name, size * sizeof(T)));` -/
  | check_hipMalloc (name : String) (size : Nat)
  /-- Statement `CHECK_HIP_ERROR(hipMemcpy(dst, src, sizeof(T) * count, kind));` -/
  | check_hipMemcpy (dst : String) (src : String) (count : Nat) (kind : hipMemcpyKind)
  /-- Statement `CHECK_HIP_ERROR(hipFree(name));` -/
  | check_hipFree (name : String)
  deriving DecidableEq, Repr

/-- The steps of one invocation of a test function, by source section. -/
structure TestFn where
  /-- Statements executed before the size check. -/
  entry : List Step
  /-- The quick-return block, when the size check selects it. -/
  quick : Option (List Step)
  /-- Allocation, initialisation and host-to-device copies. -/
  setup : List Step
  /-- The vendor calls made for checking, the reference and the comparisons. -/
  check : List Step
  /-- The body of `if(arg.timing)`. -/
  timing : List Step
  deriving Repr

/-- All steps of the invocation in program order. -/
def TestFn.steps (t : TestFn) : List Step :=
  t.entry ++
    match t.quick with
    | some q => q
    | none => t.setup ++ t.check ++ t.timing

/-- The timing loop shared by the test functions:
`for(int iter = 0; iter < runs; iter++) { if(iter == cold_iters) gpu_time_used = get_time_us_sync(stream); call; }` -/
def timing_loop (cold_iters : Int) (runs : Int) (call : Step) : List Step :=
  (List.range runs.toNat).flatMap fun iter =>
    (if (iter : Int) = cold_iters then [Step.get_time_us_sync false] else []) ++ [call]

/-- Statement `int runs = arg.cold_iters + arg.iters;` -/
def timing_runs (arg : Arguments) : Int := wrap32 (arg.cold_iters + arg.iters)

/-! ## Running a list of steps -/

/-- The environment of a run: for the `k`-th step, whether a HIP runtime call
made there returns `hipSuccess`, and the status a hipBLAS call made there
returns. -/
structure Env where
  hip_ok : Nat → Bool
  status : Nat → hipblasStatus_t

/-- Modelled from the spec: `ASSERT_HIP_SUCCESS`, `ASSERT_HIPBLAS_SUCCESS` and
`EXPECT_HIPBLAS_STATUS2` are macros of `testing_common.hpp`, which is not among
the sources ("forwarding status codes from the vendor API and asserting
equality"): a failing `ASSERT_*` ends the test function, an `EXPECT_*` records
the comparison and lets it continue.  The result says whether the function
continues after the `k`-th step. -/
def Step.continues (env : Env) (k : Nat) : Step → Bool
  | .memcheck _ => env.hip_ok k
  | .hipMemcpy _ _ _ _ => env.hip_ok k
  | .transfer_from _ _ => env.hip_ok k
  | .set_pointer_mode _ => decide (env.status k = HIPBLAS_STATUS_SUCCESS)
  | .get_stream => decide (env.status k = HIPBLAS_STATUS_SUCCESS)
  | .vendor _ _ _ .assert_success => decide (env.status k = HIPBLAS_STATUS_SUCCESS)
  | _ => true

/-- The steps executed from position `k` on. -/
def run_from (env : Env) : Nat → List Step → List Step
  | _, [] => []
  | k, s :: rest => s :: (if s.continues env k then run_from env (k + 1) rest else [])

/-- The steps a run of the test function executes. -/
def run (env : Env) (steps : List Step) : List Step := run_from env 0 steps

/-- An environment in which every HIP runtime call and every hipBLAS call succeeds. -/
def Env.all_succeed (env : Env) : Prop :=
  ∀ k, env.hip_ok k = true ∧ env.status k = HIPBLAS_STATUS_SUCCESS

/-- The environment in which everything succeeds. -/
def Env.success : Env := ⟨fun _ => true, fun _ => HIPBLAS_STATUS_SUCCESS⟩

/-! ## Observations on a list of steps -/

/-- Whether the step is a call of the vendor routine. -/
def Step.is_vendor : Step → Bool
  | .vendor _ _ _ _ => true
  | _ => false

/-- Whether the step allocates a host or device buffer. -/
def Step.is_alloc : Step → Bool
  | .host_vector _ _ => true
  | .device_vector _ _ => true
  | .host_batch_vector _ _ _ _ => true
  | .device_batch_vector _ _ _ _ => true
  | .check_hipMalloc _ _ => true
  | _ => false

/-- Whether the step compares a result with the reference. -/
def Step.is_comparison : Step → Bool
  | .unit_check _ _ => true
  | .near_check _ _ => true
  | .unit_check_error _ => true
  | .norm_check _ _ _ _ => true
  | .vector_norm_1 _ _ _ => true
  | _ => false

/-- The number of vendor calls among the steps. -/
def vendor_calls (steps : List Step) : Nat := steps.countP Step.is_vendor

/-- The pointer mode in force at each vendor call of the list, in order; `none`
when no `hipblasSetPointerMode` precedes the call in the list (`cur` is the mode
in force on entry). -/
def pointer_modes : Option hipblasPointerMode_t → List Step → List (Option hipblasPointerMode_t)
  | _, [] => []
  | _, .set_pointer_mode m :: rest => pointer_modes (some m) rest
  | cur, .vendor _ _ _ _ :: rest => cur :: pointer_modes cur rest
  | cur, _ :: rest => pointer_modes cur rest

/-! ## blas2/testing_syr_strided_batched.hpp -/

/-- The size check of `testing_syr_strided_batched`:
`N < 0 || !incx || lda < N || lda < 1 || batch_count < 0`. -/
def syr_strided_batched_invalid_size (arg : Arguments) : Bool :=
  decide (arg.N < 0) || decide (arg.incx = 0) || decide (arg.lda < arg.N) || decide (arg.lda < 1)
    || decide (arg.batch_count < 0)

/-- The function `testing_syr_strided_batched`. -/
def testing_syr_strided_batched (arg : Arguments) : TestFn :=
  let FORTRAN := decide (arg.api = hipblas_client_api.FORTRAN)
  let uplo := char2hipblas_fill arg.uplo
  let N := arg.N
  let incx := arg.incx
  let lda := arg.lda
  let stride_scale := arg.stride_scale
  let batch_count := arg.batch_count
  let abs_incx := int_abs incx
  let strideA := to_hipblasStride ((size_t_mul (size_t lda) (size_t N) : ℚ) * stride_scale)
  let stridex := to_hipblasStride ((size_t_mul (size_t abs_incx) (size_t N) : ℚ) * stride_scale)
  let A_size := size_t (wrap64 (strideA * batch_count))
  let x_size := size_t (wrap64 (stridex * batch_count))
  let invalid_size := syr_strided_batched_invalid_size arg
  let call (alpha x A : Ptr) (e : Expect) : Step :=
    .vendor "hipblasSyrStridedBatched" FORTRAN
      [.handle, .fill uplo, .int N, .ptr alpha, .ptr x, .int incx, .stride stridex, .ptr A,
        .int lda, .stride strideA, .int batch_count] e
  { entry := [.local_handle]
    quick :=
      if invalid_size || decide (N = 0) || decide (batch_count = 0) then
        some [call .nullptr .nullptr .nullptr
          (.expect_status
            (if invalid_size then HIPBLAS_STATUS_INVALID_VALUE else HIPBLAS_STATUS_SUCCESS))]
      else none
    setup :=
      [.host_vector "hA" A_size, .host_vector "hA_cpu" A_size, .host_vector "hA_host" A_size,
        .host_vector "hA_device" A_size, .host_vector "hx" x_size,
        .device_vector "dA" A_size, .device_vector "dx" x_size, .device_vector "d_alpha" 1,
        .init "hA" N N lda, .init "hx" N 1 abs_incx, .assign "hA_cpu" "hA",
        .hipMemcpy "dA" "hA" A_size hipMemcpyHostToDevice,
        .hipMemcpy "dx" "hx" x_size hipMemcpyHostToDevice,
        .hipMemcpy "d_alpha" "h_alpha" 1 hipMemcpyHostToDevice]
    check :=
      if arg.unit_check || arg.norm_check then
        [.set_pointer_mode HIPBLAS_POINTER_MODE_HOST,
          call (.host "h_alpha") (.device "dx") (.device "dA") .assert_success,
          .hipMemcpy "hA_host" "dA" A_size hipMemcpyDeviceToHost,
          .hipMemcpy "dA" "hA" A_size hipMemcpyHostToDevice,
          .set_pointer_mode HIPBLAS_POINTER_MODE_DEVICE,
          call (.device "d_alpha") (.device "dx") (.device "dA") .assert_success,
          .hipMemcpy "hA_device" "dA" A_size hipMemcpyDeviceToHost,
          .cblas "cblas_syr" batch_count "hA_cpu"]
        ++ (if arg.unit_check then
              [.unit_check "hA_cpu" "hA_host", .unit_check "hA_cpu" "hA_device"]
            else [])
        ++ (if arg.norm_check then
              [.norm_check "hipblas_error_host" false "hA_cpu" "hA_host",
                .norm_check "hipblas_error_device" false "hA_cpu" "hA_device"]
            else [])
      else []
    timing :=
      if arg.timing then
        [.hipMemcpy "dA" "hA" A_size hipMemcpyHostToDevice, .get_stream,
          .set_pointer_mode HIPBLAS_POINTER_MODE_DEVICE]
        ++ timing_loop arg.cold_iters (timing_runs arg)
            (call (.device "d_alpha") (.device "dx") (.device "dA") .assert_success)
        ++ [.get_time_us_sync true, .log_args ["hipblas_error_host", "hipblas_error_device"]]
      else [] }

/-! ## blas2/testing_tbsv.hpp -/

/-- The size check of `testing_tbsv`: `N < 0 || K < 0 || lda < K + 1 || !incx`. -/
def tbsv_invalid_size (arg : Arguments) : Bool :=
  decide (arg.N < 0) || decide (arg.K < 0) || decide (arg.lda < wrap32 (arg.K + 1))
    || decide (arg.incx = 0)

/-- The function `testing_tbsv`. -/
def testing_tbsv (arg : Arguments) : TestFn :=
  let FORTRAN := decide (arg.api = hipblas_client_api.FORTRAN)
  let uplo := char2hipblas_fill arg.uplo
  let diag := char2hipblas_diagonal arg.diag
  let transA := char2hipblas_operation arg.transA
  let N := arg.N
  let K := arg.K
  let incx := arg.incx
  let lda := arg.lda
  let invalid_size := tbsv_invalid_size arg
  let abs_incx := int_abs incx
  let size_A := size_t_mul (size_t N) (size_t N)
  let size_AB := size_t_mul (size_t lda) (size_t N)
  let size_x := size_t_mul (size_t abs_incx) (size_t N)
  let call (A x : Ptr) (e : Expect) : Step :=
    .vendor "hipblasTbsv" FORTRAN
      [.handle, .fill uplo, .op transA, .diag diag, .int N, .int K, .ptr A, .int lda, .ptr x,
        .int incx] e
  { entry := [.local_handle]
    quick :=
      if invalid_size || decide (N = 0) then
        some [call .nullptr .nullptr
          (.expect_status
            (if invalid_size then HIPBLAS_STATUS_INVALID_VALUE else HIPBLAS_STATUS_SUCCESS))]
      else none
    setup :=
      [.host_vector "hA" size_A, .host_vector "hAB" size_AB, .host_vector "AAT" size_A,
        .host_vector "hb" size_x, .host_vector "hx" size_x, .host_vector "hx_or_b_1" size_x,
        .device_vector "dAB" size_AB, .device_vector "dx_or_b" size_x,
        .init "hA" size_A 1 1, .init "hx" N 1 abs_incx, .assign "hb" "hx",
        .prepare "banded_matrix_setup" "hA", .prepare "prepare_triangular_solve" "hA"]
      ++ (if diag = HIPBLAS_DIAG_UNIT then [.prepare "make_unit_diagonal" "hA"] else [])
      ++ [.prepare "regular_to_banded" "hAB",
          .hipMemcpy "dAB" "hAB" size_AB hipMemcpyHostToDevice,
          .cblas "cblas_tbmv" 1 "hb", .assign "hx_or_b_1" "hb",
          .hipMemcpy "dx_or_b" "hx_or_b_1" size_x hipMemcpyHostToDevice]
    check :=
      if arg.unit_check || arg.norm_check then
        [call (.device "dAB") (.device "dx_or_b") .assert_success,
          .hipMemcpy "hx_or_b_1" "dx_or_b" size_x hipMemcpyDeviceToHost,
          .vector_norm_1 "hipblas_error" "hx" "hx_or_b_1"]
        ++ (if arg.unit_check then [.unit_check_error "hipblas_error"] else [])
      else []
    timing :=
      if arg.timing then
        [.get_stream]
        ++ timing_loop arg.cold_iters (timing_runs arg)
            (call (.device "dAB") (.device "dx_or_b") .assert_success)
        ++ [.get_time_us_sync true, .log_args ["hipblas_error"]]
      else [] }

/-! ## blas3/testing_dgmm_strided_batched.hpp -/

/-- The size check of `testing_dgmm_strided_batched`:
`M < 0 || N < 0 || ldc < M || lda < M || batch_count < 0`. -/
def dgmm_strided_batched_invalid_size (arg : Arguments) : Bool :=
  decide (arg.M < 0) || decide (arg.N < 0) || decide (arg.ldc < arg.M) || decide (arg.lda < arg.M)
    || decide (arg.batch_count < 0)

/-- The function `testing_dgmm_strided_batched`. -/
def testing_dgmm_strided_batched (arg : Arguments) : TestFn :=
  let FORTRAN := arg.fortran
  let side := char2hipblas_side arg.side
  let M := arg.M
  let N := arg.N
  let lda := arg.lda
  let incx := arg.incx
  let ldc := arg.ldc
  let batch_count := arg.batch_count
  let stride_scale := arg.stride_scale
  let k := if side = HIPBLAS_SIDE_RIGHT then N else M
  let abs_incx := if incx ≥ 0 then incx else wrap32 (-incx)
  let stride_A := to_hipblasStride ((size_t_mul (size_t lda) (size_t N) : ℚ) * stride_scale)
  let stride_x0 := to_hipblasStride ((size_t_mul (size_t abs_incx) (size_t k) : ℚ) * stride_scale)
  let stride_C := to_hipblasStride ((size_t_mul (size_t ldc) (size_t N) : ℚ) * stride_scale)
  let stride_x := if stride_x0 = 0 then 1 else stride_x0
  let A_size := size_t_mul (size_t stride_A) (size_t batch_count)
  let C_size := size_t_mul (size_t stride_C) (size_t batch_count)
  let X_size := size_t_mul (size_t stride_x) (size_t batch_count)
  let invalid_size := dgmm_strided_batched_invalid_size arg
  let call (A x C : Ptr) (e : Expect) : Step :=
    .vendor "hipblasDgmmStridedBatched" FORTRAN
      [.handle, .side side, .int M, .int N, .ptr A, .int lda, .stride stride_A, .ptr x, .int incx,
        .stride stride_x, .ptr C, .int ldc, .stride stride_C, .int batch_count] e
  { entry := [.local_handle]
    quick :=
      if invalid_size || decide (N = 0) || decide (M = 0) || decide (batch_count = 0) then
        some [call .nullptr .nullptr .nullptr
          (.expect_status
            (if invalid_size then HIPBLAS_STATUS_INVALID_VALUE else HIPBLAS_STATUS_SUCCESS))]
      else none
    setup :=
      [.host_vector "hA" A_size, .host_vector "hA_copy" A_size, .host_vector "hx" X_size,
        .host_vector "hx_copy" X_size, .host_vector "hC" C_size, .host_vector "hC_1" C_size,
        .host_vector "hC_gold" C_size,
        .device_vector "dA" A_size, .device_vector "dx" X_size, .device_vector "dC" C_size,
        .init "hA" M N lda, .init "hx" k 1 abs_incx, .init "hC" M N ldc,
        .assign "hA_copy" "hA", .assign "hx_copy" "hx", .assign "hC_1" "hC",
        .assign "hC_gold" "hC",
        .hipMemcpy "dA" "hA" A_size hipMemcpyHostToDevice,
        .hipMemcpy "dx" "hx" X_size hipMemcpyHostToDevice,
        .hipMemcpy "dC" "hC" C_size hipMemcpyHostToDevice]
    check :=
      if arg.unit_check || arg.norm_check then
        [call (.device "dA") (.device "dx") (.device "dC") .assert_success,
          .hipMemcpy "hC_1" "dC" C_size hipMemcpyDeviceToHost,
          .cblas "reference dgmm loop" batch_count "hC_gold"]
        ++ (if arg.unit_check then [.unit_check "hC_gold" "hC_1"] else [])
        ++ (if arg.norm_check then [.norm_check "hipblas_error" false "hC_gold" "hC_1"] else [])
      else []
    timing :=
      if arg.timing then
        [.get_stream]
        ++ timing_loop arg.cold_iters (timing_runs arg)
            (call (.device "dA") (.device "dx") (.device "dC") .assert_success)
        ++ [.get_time_us_sync true, .log_args ["hipblas_error"]]
      else [] }

/-! ## blas1/testing_rotg.hpp -/

/-- The function `testing_rotg`; it has no size check. -/
def testing_rotg (arg : Arguments) : TestFn :=
  let FORTRAN := decide (arg.api = hipblas_client_api.FORTRAN)
  let call (a b c s : Ptr) : Step :=
    .vendor "hipblasRotg" FORTRAN [.handle, .ptr a, .ptr b, .ptr c, .ptr s] .assert_success
  { entry := [.local_handle]
    quick := none
    setup :=
      [.host_vector "ha" 1, .host_vector "hb" 1, .host_vector "hc" 1, .host_vector "hs" 1,
        .init "ha" 1 1 1, .init "hb" 1 1 1, .init "hc" 1 1 1, .init "hs" 1 1 1,
        .assign "ca" "ha", .assign "cb" "hb", .assign "cc" "hc", .assign "cs" "hs",
        .assign "ra" "ha", .assign "rb" "hb", .assign "rc" "hc", .assign "rs" "hs",
        .device_vector "da" 1, .device_vector "db" 1, .device_vector "dc" 1,
        .device_vector "ds" 1,
        .hipMemcpy "da" "ha" 1 hipMemcpyHostToDevice, .hipMemcpy "db" "hb" 1 hipMemcpyHostToDevice,
        .hipMemcpy "dc" "hc" 1 hipMemcpyHostToDevice, .hipMemcpy "ds" "hs" 1 hipMemcpyHostToDevice]
    check :=
      if arg.unit_check || arg.norm_check then
        [.set_pointer_mode HIPBLAS_POINTER_MODE_HOST,
          call (.host "ha") (.host "hb") (.host "hc") (.host "hs"),
          .set_pointer_mode HIPBLAS_POINTER_MODE_DEVICE,
          call (.device "da") (.device "db") (.device "dc") (.device "ds"),
          .hipMemcpy "ra" "da" 1 hipMemcpyDeviceToHost, .hipMemcpy "rb" "db" 1 hipMemcpyDeviceToHost,
          .hipMemcpy "rc" "dc" 1 hipMemcpyDeviceToHost, .hipMemcpy "rs" "ds" 1 hipMemcpyDeviceToHost,
          .cblas "cblas_rotg" 1 "ca"]
        ++ (if arg.unit_check then
              [.near_check "ca" "ha", .near_check "cb" "hb", .near_check "cc" "hc",
                .near_check "cs" "hs", .near_check "ca" "ra", .near_check "cb" "rb",
                .near_check "cc" "rc", .near_check "cs" "rs"]
            else [])
        ++ (if arg.norm_check then
              [.norm_check "hipblas_error_host" false "ca" "ha",
                .norm_check "hipblas_error_host" true "cb" "hb",
                .norm_check "hipblas_error_host" true "cc" "hc",
                .norm_check "hipblas_error_host" true "cs" "hs",
                .norm_check "hipblas_error_device" false "ca" "ra",
                .norm_check "hipblas_error_device" true "cb" "rb",
                .norm_check "hipblas_error_device" true "cc" "rc",
                .norm_check "hipblas_error_device" true "cs" "rs"]
            else [])
      else []
    timing :=
      if arg.timing then
        [.get_stream, .set_pointer_mode HIPBLAS_POINTER_MODE_DEVICE]
        ++ timing_loop arg.cold_iters (timing_runs arg)
            (call (.device "da") (.device "db") (.device "dc") (.device "ds"))
        ++ [.get_time_us_sync true, .log_args ["hipblas_error_host", "hipblas_error_device"]]
      else [] }

/-! ## blas1/testing_rotg_strided_batched.hpp -/

/-- The function `testing_rotg_strided_batched`; `if(batch_count <= 0) return;`
is its size check. -/
def testing_rotg_strided_batched (arg : Arguments) : TestFn :=
  let FORTRAN := decide (arg.api = hipblas_client_api.FORTRAN)
  let stride_scale := arg.stride_scale
  let stride_a := to_hipblasStride stride_scale
  let stride_b := to_hipblasStride stride_scale
  let stride_c := to_hipblasStride stride_scale
  let stride_s := to_hipblasStride stride_scale
  let batch_count := arg.batch_count
  let size_a := size_t_mul (size_t stride_a) (size_t batch_count)
  let size_b := size_t_mul (size_t stride_b) (size_t batch_count)
  let size_c := size_t_mul (size_t stride_c) (size_t batch_count)
  let size_s := size_t_mul (size_t stride_s) (size_t batch_count)
  let call (a b c s : Ptr) : Step :=
    .vendor "hipblasRotgStridedBatched" FORTRAN
      [.handle, .ptr a, .stride stride_a, .ptr b, .stride stride_b, .ptr c, .stride stride_c,
        .ptr s, .stride stride_s, .int batch_count] .assert_success
  { entry := []
    quick := if batch_count ≤ 0 then some [] else none
    setup :=
      [.local_handle,
        .host_vector "ha" size_a, .host_vector "hb" size_b, .host_vector "hc" size_c,
        .host_vector "hs" size_s,
        .init "ha" 1 1 1, .init "hb" 1 1 1, .init "hc" 1 1 1, .init "hs" 1 1 1,
        .assign "ca" "ha", .assign "cb" "hb", .assign "cc" "hc", .assign "cs" "hs",
        .assign "ra" "ha", .assign "rb" "hb", .assign "rc" "hc", .assign "rs" "hs",
        .device_vector "da" size_a, .device_vector "db" size_b, .device_vector "dc" size_c,
        .device_vector "ds" size_s,
        .hipMemcpy "da" "ha" size_a hipMemcpyHostToDevice,
        .hipMemcpy "db" "hb" size_b hipMemcpyHostToDevice,
        .hipMemcpy "dc" "hc" size_c hipMemcpyHostToDevice,
        .hipMemcpy "ds" "hs" size_s hipMemcpyHostToDevice]
    check :=
      if arg.unit_check || arg.norm_check then
        [.set_pointer_mode HIPBLAS_POINTER_MODE_HOST,
          call (.host "ha") (.host "hb") (.host "hc") (.host "hs"),
          .set_pointer_mode HIPBLAS_POINTER_MODE_DEVICE,
          call (.device "da") (.device "db") (.device "dc") (.device "ds"),
          .hipMemcpy "ra" "da" size_a hipMemcpyDeviceToHost,
          .hipMemcpy "rb" "db" size_b hipMemcpyDeviceToHost,
          .hipMemcpy "rc" "dc" size_c hipMemcpyDeviceToHost,
          .hipMemcpy "rs" "ds" size_s hipMemcpyDeviceToHost,
          .cblas "cblas_rotg" batch_count "ca"]
        ++ (if arg.unit_check then
              [.near_check "ca" "ha", .near_check "cb" "hb", .near_check "cc" "hc",
                .near_check "cs" "hs", .near_check "ca" "ra", .near_check "cb" "rb",
                .near_check "cc" "rc", .near_check "cs" "rs"]
            else [])
        ++ (if arg.norm_check then
              [.norm_check "hipblas_error_host" false "ca" "ha",
                .norm_check "hipblas_error_host" true "cb" "hb",
                .norm_check "hipblas_error_host" true "cc" "hc",
                .norm_check "hipblas_error_host" true "cs" "hs",
                .norm_check "hipblas_error_device" false "ca" "ra",
                .norm_check "hipblas_error_device" true "cb" "rb",
                .norm_check "hipblas_error_device" true "cc" "rc",
                .norm_check "hipblas_error_device" true "cs" "rs"]
            else [])
      else []
    timing :=
      if arg.timing then
        [.get_stream, .set_pointer_mode HIPBLAS_POINTER_MODE_DEVICE]
        ++ timing_loop arg.cold_iters (timing_runs arg)
            (call (.device "da") (.device "db") (.device "dc") (.device "ds"))
        ++ [.get_time_us_sync true, .log_args ["hipblas_error_host", "hipblas_error_device"]]
      else [] }

/-! ## blas3/testing_geam_batched.hpp -/

/-- The size check of `testing_geam_batched`:
`M <= 0 || N <= 0 || lda < A_row || ldb < B_row || ldc < M || batch_count < 0`,
followed by `if(batch_count == 0) return;`. -/
def geam_batched_invalid_size (arg : Arguments) : Bool :=
  let A_row := if char2hipblas_operation arg.transA = HIPBLAS_OP_N then arg.M else arg.N
  let B_row := if char2hipblas_operation arg.transB = HIPBLAS_OP_N then arg.M else arg.N
  decide (arg.M ≤ 0) || decide (arg.N ≤ 0) || decide (arg.lda < A_row) || decide (arg.ldb < B_row)
    || decide (arg.ldc < arg.M) || decide (arg.batch_count < 0)

/-- The function `testing_geam_batched`. -/
def testing_geam_batched (arg : Arguments) : TestFn :=
  let FORTRAN := arg.fortran
  let transA := char2hipblas_operation arg.transA
  let transB := char2hipblas_operation arg.transB
  let M := arg.M
  let N := arg.N
  let lda := arg.lda
  let ldb := arg.ldb
  let ldc := arg.ldc
  let batch_count := arg.batch_count
  let A_col := if transA = HIPBLAS_OP_N then N else M
  let B_col := if transB = HIPBLAS_OP_N then N else M
  let A_size := size_t_mul (size_t lda) (size_t A_col)
  let B_size := size_t_mul (size_t ldb) (size_t B_col)
  let C_size := size_t_mul (size_t ldc) (size_t N)
  let call (alpha beta : Ptr) : Step :=
    .vendor "hipblasGeamBatched" FORTRAN
      [.handle, .op transA, .op transB, .int M, .int N, .ptr alpha, .ptr (.device "dA"), .int lda,
        .ptr beta, .ptr (.device "dB"), .int ldb, .ptr (.device "dC"), .int ldc,
        .int batch_count] .assert_success
  { entry := []
    quick := if geam_batched_invalid_size arg || decide (batch_count = 0) then some [] else none
    setup :=
      [.local_handle,
        .device_batch_vector "dA" A_size 1 batch_count,
        .device_batch_vector "dB" B_size 1 batch_count,
        .device_batch_vector "dC" C_size 1 batch_count,
        .device_vector "d_alpha" 1, .device_vector "d_beta" 1,
        .memcheck "dA", .memcheck "dB", .memcheck "dC",
        .host_batch_vector "hA" A_size 1 batch_count,
        .host_batch_vector "hB" B_size 1 batch_count,
        .host_batch_vector "hC1" C_size 1 batch_count,
        .host_batch_vector "hC2" C_size 1 batch_count,
        .host_batch_vector "hC_copy" C_size 1 batch_count,
        .init "hA" A_size 1 1, .init "hB" B_size 1 1, .init "hC1" C_size 1 1,
        .assign "hC2" "hC1", .assign "hC_copy" "hC1",
        .transfer_from "dA" "hA", .transfer_from "dB" "hB", .transfer_from "dC" "hC1",
        .hipMemcpy "d_alpha" "h_alpha" 1 hipMemcpyHostToDevice,
        .hipMemcpy "d_beta" "h_beta" 1 hipMemcpyHostToDevice]
    check :=
      if arg.norm_check || arg.unit_check then
        [.set_pointer_mode HIPBLAS_POINTER_MODE_HOST,
          call (.host "h_alpha") (.host "h_beta"),
          .transfer_from "hC1" "dC",
          .transfer_from "dC" "hC2",
          .set_pointer_mode HIPBLAS_POINTER_MODE_DEVICE,
          call (.device "d_alpha") (.device "d_beta"),
          .transfer_from "hC2" "dC",
          .cblas "cblas_geam" batch_count "hC_copy"]
        ++ (if arg.unit_check then
              [.unit_check "hC_copy" "hC1", .unit_check "hC_copy" "hC2"]
            else [])
        ++ (if arg.norm_check then
              [.norm_check "hipblas_error_host" false "hC_copy" "hC1",
                .norm_check "hipblas_error_device" false "hC_copy" "hC2"]
            else [])
      else []
    timing :=
      if arg.timing then
        [.get_stream, .set_pointer_mode HIPBLAS_POINTER_MODE_DEVICE]
        ++ timing_loop arg.cold_iters (timing_runs arg)
            (call (.device "d_alpha") (.device "d_beta"))
        ++ [.get_time_us_sync true, .log_args ["hipblas_error_host", "hipblas_error_device"]]
      else [] }

/-! ## blas3/testing_symm.hpp -/

/-- The size check of `testing_symm`: `M < 0 || N < 0 || ldc < M || ldb < M || lda < K`. -/
def symm_invalid_size (arg : Arguments) : Bool :=
  let K := if char2hipblas_side arg.side = HIPBLAS_SIDE_LEFT then arg.M else arg.N
  decide (arg.M < 0) || decide (arg.N < 0) || decide (arg.ldc < arg.M) || decide (arg.ldb < arg.M)
    || decide (arg.lda < K)

/-- The function `testing_symm`. -/
def testing_symm (arg : Arguments) : TestFn :=
  let FORTRAN := arg.fortran
  let side := char2hipblas_side arg.side
  let uplo := char2hipblas_fill arg.uplo
  let M := arg.M
  let N := arg.N
  let lda := arg.lda
  let ldb := arg.ldb
  let ldc := arg.ldc
  let rows := size_t (if side = HIPBLAS_SIDE_LEFT then N else M)
  let K := if side = HIPBLAS_SIDE_LEFT then M else N
  let A_size := size_t_mul (size_t lda) (size_t K)
  let B_size := size_t_mul (size_t ldb) (size_t N)
  let C_size := size_t_mul (size_t ldc) (size_t N)
  let call (alpha beta : Ptr) : Step :=
    .vendor "hipblasSymm" FORTRAN
      [.handle, .side side, .fill uplo, .int M, .int N, .ptr alpha, .ptr (.device "dA"), .int lda,
        .ptr (.device "dB"), .int ldb, .ptr beta, .ptr (.device "dC"), .int ldc] .assert_success
  { entry := []
    quick := if symm_invalid_size arg then some [] else none
    setup :=
      [.host_vector "hA" A_size, .host_vector "hB" B_size, .host_vector "hC_host" C_size,
        .host_vector "hC_device" C_size, .host_vector "hC_gold" C_size,
        .device_vector "dA" A_size, .device_vector "dB" B_size, .device_vector "dC" C_size,
        .device_vector "d_alpha" 1, .device_vector "d_beta" 1,
        .local_handle,
        .init "hA" rows K lda, .init "hB" M N ldb, .init "hC_host" M N ldc,
        .assign "hC_gold" "hC_host", .assign "hC_device" "hC_host",
        .hipMemcpy "dA" "hA" A_size hipMemcpyHostToDevice,
        .hipMemcpy "dB" "hB" B_size hipMemcpyHostToDevice,
        .hipMemcpy "dC" "hC_host" C_size hipMemcpyHostToDevice,
        .hipMemcpy "d_alpha" "h_alpha" 1 hipMemcpyHostToDevice,
        .hipMemcpy "d_beta" "h_beta" 1 hipMemcpyHostToDevice]
    check :=
      if arg.unit_check || arg.norm_check then
        [.set_pointer_mode HIPBLAS_POINTER_MODE_HOST,
          call (.host "h_alpha") (.host "h_beta"),
          .hipMemcpy "hC_host" "dC" C_size hipMemcpyDeviceToHost,
          .hipMemcpy "dC" "hC_device" C_size hipMemcpyHostToDevice,
          .set_pointer_mode HIPBLAS_POINTER_MODE_DEVICE,
          call (.device "d_alpha") (.device "d_beta"),
          .hipMemcpy "hC_device" "dC" C_size hipMemcpyDeviceToHost,
          .cblas "cblas_symm" 1 "hC_gold"]
        ++ (if arg.unit_check then
              [.unit_check "hC_gold" "hC_host", .unit_check "hC_gold" "hC_device"]
            else [])
        ++ (if arg.norm_check then
              [.norm_check "hipblas_error_host" false "hC_gold" "hC_host",
                .norm_check "hipblas_error_device" false "hC_gold" "hC_device"]
            else [])
      else []
    timing :=
      if arg.timing then
        [.get_stream, .set_pointer_mode HIPBLAS_POINTER_MODE_DEVICE]
        ++ timing_loop arg.cold_iters (timing_runs arg)
            (call (.device "d_alpha") (.device "d_beta"))
        ++ [.get_time_us_sync true, .log_args ["hipblas_error_host", "hipblas_error_device"]]
      else [] }

/-! ## blas3/testing_trmm.hpp -/

/-- The early-return predicate of `testing_trmm`:
`M < 0 || N < 0 || lda < K || ldb < M || ldOut < M` with
`K = (side == HIPBLAS_SIDE_LEFT ? M : N)`. -/
def trmm_invalid_size (side : hipblasSideMode_t) (M N lda ldb ldOut : Int) : Bool :=
  let K := if side = HIPBLAS_SIDE_LEFT then M else N
  decide (M < 0) || decide (N < 0) || decide (lda < K) || decide (ldb < M) || decide (ldOut < M)

/-- A call `hipblasTrmmFn(h, side, uplo, transA, diag, M, N, alpha, A, lda, B, ldb, Out, ldOut)`. -/
def trmm_call (fortran : Bool) (h : Arg) (side : hipblasSideMode_t) (uplo : hipblasFillMode_t)
    (transA diag : Arg) (M N : Int) (alpha A : Ptr) (lda : Int) (B : Ptr) (ldb : Int) (Out : Ptr)
    (ldOut : Int) (e : Expect) : Step :=
  .vendor "hipblasTrmm" fortran
    [h, .side side, .fill uplo, transA, diag, .int M, .int N, .ptr alpha, .ptr A, .int lda, .ptr B,
      .int ldb, .ptr Out, .int ldOut] e

/-- The function `testing_trmm`. -/
def testing_trmm (arg : Arguments) : TestFn :=
  let FORTRAN := arg.fortran
  let inplace := arg.inplace
  let side := char2hipblas_side arg.side
  let uplo := char2hipblas_fill arg.uplo
  let transA := char2hipblas_operation arg.transA
  let diag := char2hipblas_diagonal arg.diag
  let M := arg.M
  let N := arg.N
  let lda := arg.lda
  let ldb := arg.ldb
  let ldc := arg.ldc
  let ldOut := if inplace then ldb else ldc
  let K := if side = HIPBLAS_SIDE_LEFT then M else N
  let A_size := size_t_mul (size_t lda) (size_t K)
  let B_size := size_t_mul (size_t ldb) (size_t N)
  let C_size := if inplace then 1 else size_t_mul (size_t ldc) (size_t N)
  let out_size := size_t (wrap32 (ldOut * N))
  let dOut := if inplace then "dB" else "dC"
  let call (alpha : Ptr) : Step :=
    trmm_call FORTRAN .handle side uplo (.op transA) (.diag diag) M N alpha (.device "dA") lda
      (.device "dB") ldb (.device dOut) ldOut .assert_success
  { entry := []
    quick := if trmm_invalid_size side M N lda ldb ldOut then some [] else none
    setup :=
      [.host_vector "hA" A_size, .host_vector "hB" B_size, .host_vector "hC" C_size,
        .host_vector "hOut_host" out_size, .host_vector "hOut_device" out_size,
        .host_vector "hOut_gold" out_size,
        .device_vector "dA" A_size, .device_vector "dB" B_size, .device_vector "dC" C_size,
        .device_vector "d_alpha" 1,
        .local_handle,
        .init "hA" K K lda, .init "hB" M N ldb]
      ++ (if !inplace then [.init "hC" M N ldc] else [])
      ++ [.assign "hOut_host" (if inplace then "hB" else "hC"),
          .assign "hOut_device" "hOut_host", .assign "hOut_gold" "hOut_host",
          .hipMemcpy "dA" "hA" A_size hipMemcpyHostToDevice,
          .hipMemcpy "dB" "hB" B_size hipMemcpyHostToDevice,
          .hipMemcpy "dC" "hC" C_size hipMemcpyHostToDevice,
          .hipMemcpy "d_alpha" "h_alpha" 1 hipMemcpyHostToDevice]
    check :=
      if arg.unit_check || arg.norm_check then
        [.set_pointer_mode HIPBLAS_POINTER_MODE_HOST,
          call (.host "h_alpha"),
          .hipMemcpy "hOut_host" dOut out_size hipMemcpyDeviceToHost,
          .hipMemcpy "dB" "hB" B_size hipMemcpyHostToDevice,
          .hipMemcpy "dC" "hC" C_size hipMemcpyHostToDevice,
          .set_pointer_mode HIPBLAS_POINTER_MODE_DEVICE,
          call (.device "d_alpha"),
          .hipMemcpy "hOut_device" dOut out_size hipMemcpyDeviceToHost,
          .cblas "cblas_trmm" 1 "hB",
          .prepare "copy_matrix_with_different_leading_dimensions" "hOut_gold"]
        ++ (if arg.unit_check then
              [.unit_check "hOut_gold" "hOut_host", .unit_check "hOut_gold" "hOut_device"]
            else [])
        ++ (if arg.norm_check then
              [.norm_check "hipblas_error_host" false "hOut_gold" "hOut_host",
                .norm_check "hipblas_error_device" false "hOut_gold" "hOut_device"]
            else [])
      else []
    timing :=
      if arg.timing then
        [.get_stream, .set_pointer_mode HIPBLAS_POINTER_MODE_DEVICE]
        ++ timing_loop arg.cold_iters (timing_runs arg) (call (.device "d_alpha"))
        ++ [.get_time_us_sync true, .log_args ["hipblas_error_host", "hipblas_error_device"]]
      else [] }

/-- The locals of one pass of the loop of `testing_trmm_bad_arg`. -/
structure TrmmBadArg where
  fortran : Bool
  inplace : Bool
  pointer_mode : hipblasPointerMode_t
  side : hipblasSideMode_t := HIPBLAS_SIDE_LEFT
  uplo : hipblasFillMode_t := HIPBLAS_FILL_MODE_LOWER
  transA : hipblasOperation_t := HIPBLAS_OP_N
  diag : hipblasDiagType_t := HIPBLAS_DIAG_NON_UNIT
  M : Int := 100
  N : Int := 101
  lda : Int := 102
  ldb : Int := 103
  ldc : Int := 104

namespace TrmmBadArg

/-- Local `ldOut = inplace ? ldb : ldc`. -/
def ldOut (b : TrmmBadArg) : Int := if b.inplace then b.ldb else b.ldc

/-- Local `alpha`: `&alpha_h`, replaced by `alpha_d` in device pointer mode. -/
def alpha (b : TrmmBadArg) : Ptr :=
  if b.pointer_mode = HIPBLAS_POINTER_MODE_DEVICE then .device "alpha_d" else .host "alpha_h"

/-- Local `zero`: `&zero_h`, replaced by `zero_d` in device pointer mode. -/
def zero (b : TrmmBadArg) : Ptr :=
  if b.pointer_mode = HIPBLAS_POINTER_MODE_DEVICE then .device "zero_d" else .host "zero_h"

/-- Local `dOut = inplace ? &dB : &dC`. -/
def dOut (b : TrmmBadArg) : Ptr := if b.inplace then .device "dB" else .device "dC"

/-- The calls under the comment "invalid enums"; `nvcc` stands for
`__HIP_PLATFORM_NVCC__`. -/
def invalid_enums (b : TrmmBadArg) (nvcc : Bool) : List Step :=
  let e := if nvcc then HIPBLAS_STATUS_INVALID_ENUM else HIPBLAS_STATUS_INVALID_VALUE
  [trmm_call b.fortran .handle HIPBLAS_SIDE_BOTH b.uplo (.op b.transA) (.diag b.diag) b.M b.N
      b.alpha (.device "dA") b.lda (.device "dB") b.ldb b.dOut b.ldOut (.expect_status e),
    trmm_call b.fortran .handle b.side HIPBLAS_FILL_MODE_FULL (.op b.transA) (.diag b.diag) b.M b.N
      b.alpha (.device "dA") b.lda (.device "dB") b.ldb b.dOut b.ldOut (.expect_status e),
    trmm_call b.fortran .handle b.side b.uplo (.op_from_side HIPBLAS_SIDE_BOTH) (.diag b.diag) b.M
      b.N b.alpha (.device "dA") b.lda (.device "dB") b.ldb b.dOut b.ldOut
      (.expect_status HIPBLAS_STATUS_INVALID_ENUM),
    trmm_call b.fortran .handle b.side b.uplo (.op b.transA) (.diag_from_side HIPBLAS_SIDE_BOTH) b.M
      b.N b.alpha (.device "dA") b.lda (.device "dB") b.ldb b.dOut b.ldOut
      (.expect_status HIPBLAS_STATUS_INVALID_ENUM)]

/-- The two calls under the comment "invalid sizes". -/
def invalid_sizes (b : TrmmBadArg) : List Step :=
  [trmm_call b.fortran .handle b.side b.uplo (.op b.transA) (.diag b.diag) (-1) b.N b.alpha
      (.device "dA") b.lda (.device "dB") b.ldb b.dOut b.ldOut
      (.expect_status HIPBLAS_STATUS_INVALID_VALUE),
    trmm_call b.fortran .handle b.side b.uplo (.op b.transA) (.diag b.diag) b.M (-1) b.alpha
      (.device "dA") b.lda (.device "dB") b.ldb b.dOut b.ldOut
      (.expect_status HIPBLAS_STATUS_INVALID_VALUE)]

/-- The four calls under the comment "invalid leading dims". -/
def invalid_leading_dims (b : TrmmBadArg) : List Step :=
  [trmm_call b.fortran .handle b.side b.uplo (.op b.transA) (.diag b.diag) b.M b.N b.alpha
      (.device "dA") (wrap32 (b.M - 1)) (.device "dB") b.ldb b.dOut b.ldOut
      (.expect_status HIPBLAS_STATUS_INVALID_VALUE),
    trmm_call b.fortran .handle HIPBLAS_SIDE_RIGHT b.uplo (.op b.transA) (.diag b.diag) b.M b.N
      b.alpha (.device "dA") (wrap32 (b.N - 1)) (.device "dB") b.ldb b.dOut b.ldOut
      (.expect_status HIPBLAS_STATUS_INVALID_VALUE),
    trmm_call b.fortran .handle b.side b.uplo (.op b.transA) (.diag b.diag) b.M b.N b.alpha
      (.device "dA") b.lda (.device "dB") (wrap32 (b.M - 1)) b.dOut b.ldOut
      (.expect_status HIPBLAS_STATUS_INVALID_VALUE),
    trmm_call b.fortran .handle b.side b.uplo (.op b.transA) (.diag b.diag) b.M b.N b.alpha
      (.device "dA") b.lda (.device "dB") b.ldb b.dOut (wrap32 (b.M - 1))
      (.expect_status HIPBLAS_STATUS_INVALID_VALUE)]

/-- The calls under the comment "nullptr checks"; those for `alpha`, `A`, `B`
and the `alpha == 0` quick return are compiled only without
`__HIP_PLATFORM_NVCC__`. -/
def nullptr_checks (b : TrmmBadArg) (nvcc : Bool) : List Step :=
  [trmm_call b.fortran .null_handle b.side b.uplo (.op b.transA) (.diag b.diag) b.M b.N b.alpha
      (.device "dA") b.lda (.device "dB") b.ldb b.dOut b.ldOut
      (.expect_status HIPBLAS_STATUS_NOT_INITIALIZED),
    trmm_call b.fortran .handle b.side b.uplo (.op b.transA) (.diag b.diag) b.M b.N b.alpha
      (.device "dA") b.lda (.device "dB") b.ldb .nullptr b.ldOut
      (.expect_status HIPBLAS_STATUS_INVALID_VALUE)]
  ++ (if nvcc then [] else
    [trmm_call b.fortran .handle b.side b.uplo (.op b.transA) (.diag b.diag) b.M b.N .nullptr
        (.device "dA") b.lda (.device "dB") b.ldb b.dOut b.ldOut
        (.expect_status HIPBLAS_STATUS_INVALID_VALUE),
      trmm_call b.fortran .handle b.side b.uplo (.op b.transA) (.diag b.diag) b.M b.N b.alpha
        .nullptr b.lda (.device "dB") b.ldb b.dOut b.ldOut
        (.expect_status HIPBLAS_STATUS_INVALID_VALUE),
      trmm_call b.fortran .handle b.side b.uplo (.op b.transA) (.diag b.diag) b.M b.N b.alpha
        (.device "dA") b.lda .nullptr b.ldb b.dOut b.ldOut
        (.expect_status HIPBLAS_STATUS_INVALID_VALUE),
      trmm_call b.fortran .handle b.side b.uplo (.op b.transA) (.diag b.diag) b.M b.N b.zero
        .nullptr b.lda .nullptr b.ldb b.dOut b.ldOut
        (.expect_status HIPBLAS_STATUS_SUCCESS)])

/-- The two quick-return calls with `M == 0` and `N == 0`. -/
def quick_returns (b : TrmmBadArg) : List Step :=
  [trmm_call b.fortran .handle b.side b.uplo (.op b.transA) (.diag b.diag) 0 b.N .nullptr
      .nullptr b.lda .nullptr b.ldb .nullptr b.ldOut (.expect_status HIPBLAS_STATUS_SUCCESS),
    trmm_call b.fortran .handle b.side b.uplo (.op b.transA) (.diag b.diag) b.M 0 .nullptr
      .nullptr b.lda .nullptr b.ldb .nullptr b.ldOut (.expect_status HIPBLAS_STATUS_SUCCESS)]

/-- The call under the comment "in-place only checks". -/
def inplace_only (b : TrmmBadArg) : List Step :=
  if b.inplace then
    [trmm_call b.fortran .handle b.side b.uplo (.op b.transA) (.diag b.diag) b.M b.N b.alpha
      (.device "dA") b.lda (.device "dB") b.ldb b.dOut (wrap32 (b.ldb + 1))
      (.expect_status HIPBLAS_STATUS_INVALID_VALUE)]
  else []

/-- One pass of the loop body of `testing_trmm_bad_arg`. -/
def body (b : TrmmBadArg) (nvcc : Bool) : List Step :=
  let K := b.M
  let A_size := size_t_mul (size_t b.lda) (size_t K)
  let B_size := size_t_mul (size_t b.ldb) (size_t b.N)
  let C_size := if b.inplace then 1 else size_t_mul (size_t b.ldc) (size_t b.N)
  [.device_vector "alpha_d" 1, .device_vector "zero_d" 1, .local_handle,
    .set_pointer_mode b.pointer_mode]
  ++ (if b.pointer_mode = HIPBLAS_POINTER_MODE_DEVICE then
        [.hipMemcpy "alpha_d" "alpha_h" 1 hipMemcpyHostToDevice,
          .hipMemcpy "zero_d" "zero_h" 1 hipMemcpyHostToDevice]
      else [])
  ++ [.device_vector "dA" A_size, .device_vector "dB" B_size, .device_vector "dC" C_size]
  ++ b.invalid_enums nvcc ++ b.invalid_sizes ++ b.invalid_leading_dims ++ b.nullptr_checks nvcc
  ++ b.quick_returns ++ b.inplace_only

end TrmmBadArg

/-- The function `testing_trmm_bad_arg`:
`for(auto pointer_mode : {HIPBLAS_POINTER_MODE_DEVICE, HIPBLAS_POINTER_MODE_HOST})`. -/
def testing_trmm_bad_arg (arg : Arguments) (nvcc : Bool) : List Step :=
  [HIPBLAS_POINTER_MODE_DEVICE, HIPBLAS_POINTER_MODE_HOST].flatMap fun pointer_mode =>
    TrmmBadArg.body { fortran := arg.fortran, inplace := arg.inplace, pointer_mode := pointer_mode }
      nvcc

/-- The size arguments `(side, M, N, lda, ldb, ldOut)` of a `hipblasTrmm` call. -/
def trmm_size_args : Step → Option (hipblasSideMode_t × Int × Int × Int × Int × Int)
  | .vendor _ _ [_, .side s, _, _, _, .int M, .int N, _, _, .int lda, _, .int ldb, _, .int ldOut] _ =>
    some (s, M, N, lda, ldb, ldOut)
  | _ => none

/-- The status an `EXPECT_HIPBLAS_STATUS2` step expects. -/
def expected_status : Step → Option hipblasStatus_t
  | .vendor _ _ _ (.expect_status s) => some s
  | _ => none

/-! ## blas_ex/testing_axpy_ex.hpp -/

/-- The function `testing_axpy_ex`; `if(N <= 0)` is its size check.  The two
vendor calls made for checking are issued before `if(arg.unit_check ||
arg.norm_check)`. -/
def testing_axpy_ex (arg : Arguments) : TestFn :=
  let FORTRAN := arg.fortran
  let N := arg.N
  let incx := arg.incx
  let incy := arg.incy
  let alphaType := arg.a_type
  let xType := arg.b_type
  let yType := arg.c_type
  let executionType := arg.compute_type
  let abs_incx := int_abs incx
  let abs_incy := int_abs incy
  let sizeX0 := size_t_mul (size_t N) (size_t abs_incx)
  let sizeY0 := size_t_mul (size_t N) (size_t abs_incy)
  let sizeX := if sizeX0 = 0 then 1 else sizeX0
  let sizeY := if sizeY0 = 0 then 1 else sizeY0
  let call (alpha x y : Ptr) : Step :=
    .vendor "hipblasAxpyEx" FORTRAN
      [.handle, .int N, .ptr alpha, .datatype alphaType, .ptr x, .datatype xType, .int incx,
        .ptr y, .datatype yType, .int incy, .datatype executionType] .assert_success
  { entry := [.local_handle]
    quick := if N ≤ 0 then some [call .nullptr .nullptr .nullptr] else none
    setup :=
      [.host_vector "hx" sizeX, .host_vector "hy_host" sizeY, .host_vector "hy_device" sizeY,
        .host_vector "hy_cpu" sizeY,
        .device_vector "dx" sizeX, .device_vector "dy" sizeY, .device_vector "d_alpha" 1,
        .init "hx" N 1 abs_incx, .init "hy_host" N 1 abs_incy,
        .assign "hy_device" "hy_host", .assign "hy_cpu" "hy_host",
        .hipMemcpy "dx" "hx" sizeX hipMemcpyHostToDevice,
        .hipMemcpy "dy" "hy_host" sizeY hipMemcpyHostToDevice,
        .hipMemcpy "d_alpha" "h_alpha" 1 hipMemcpyHostToDevice]
    check :=
      [.set_pointer_mode HIPBLAS_POINTER_MODE_HOST,
        call (.host "h_alpha") (.device "dx") (.device "dy"),
        .hipMemcpy "hy_host" "dy" sizeY hipMemcpyDeviceToHost,
        .hipMemcpy "dy" "hy_device" sizeY hipMemcpyHostToDevice,
        .set_pointer_mode HIPBLAS_POINTER_MODE_DEVICE,
        call (.device "d_alpha") (.device "dx") (.device "dy"),
        .hipMemcpy "hy_device" "dy" sizeY hipMemcpyDeviceToHost]
      ++ (if arg.unit_check || arg.norm_check then
            [.cblas "cblas_axpy" 1 "hy_cpu"]
            ++ (if arg.unit_check then
                  [.unit_check "hy_cpu" "hy_host", .unit_check "hy_cpu" "hy_device"]
                else [])
            ++ (if arg.norm_check then
                  [.norm_check "hipblas_error_host" false "hy_cpu" "hy_host",
                    .norm_check "hipblas_error_device" false "hy_cpu" "hy_device"]
                else [])
          else [])
    timing :=
      if arg.timing then
        [.get_stream, .set_pointer_mode HIPBLAS_POINTER_MODE_DEVICE]
        ++ timing_loop arg.cold_iters (timing_runs arg)
            (call (.device "d_alpha") (.device "dx") (.device "dy"))
        ++ [.get_time_us_sync true, .log_args ["hipblas_error_host", "hipblas_error_device"]]
      else [] }

/-! ## blas_ex/testing_axpy_batched_ex.hpp -/

/-- The function `testing_axpy_batched_ex`; `if(N <= 0 || batch_count <= 0)` is
its size check. -/
def testing_axpy_batched_ex (arg : Arguments) : TestFn :=
  let FORTRAN := arg.fortran
  let N := arg.N
  let incx := arg.incx
  let incy := arg.incy
  let batch_count := arg.batch_count
  let alphaType := arg.a_type
  let xType := arg.b_type
  let yType := arg.c_type
  let executionType := arg.compute_type
  let call (alpha x y : Ptr) : Step :=
    .vendor "hipblasAxpyBatchedEx" FORTRAN
      [.handle, .int N, .ptr alpha, .datatype alphaType, .ptr x, .datatype xType, .int incx,
        .ptr y, .datatype yType, .int incy, .int batch_count, .datatype executionType]
      .assert_success
  { entry := [.local_handle]
    quick :=
      if decide (N ≤ 0) || decide (batch_count ≤ 0) then some [call .nullptr .nullptr .nullptr]
      else none
    setup :=
      [.host_batch_vector "hx" N incx batch_count,
        .host_batch_vector "hy_host" N incy batch_count,
        .host_batch_vector "hy_device" N incy batch_count,
        .host_batch_vector "hy_cpu" N incy batch_count,
        .device_batch_vector "dx" N incx batch_count,
        .device_batch_vector "dy" N incy batch_count,
        .device_vector "d_alpha" 1,
        .memcheck "dx", .memcheck "dy",
        .init "hx" N 1 incx, .init "hy_host" N 1 incy,
        .assign "hy_device" "hy_host", .assign "hy_cpu" "hy_host",
        .transfer_from "dx" "hx", .transfer_from "dy" "hy_host",
        .hipMemcpy "d_alpha" "h_alpha" 1 hipMemcpyHostToDevice]
    check :=
      [.set_pointer_mode HIPBLAS_POINTER_MODE_HOST,
        call (.host "h_alpha") (.device "dx") (.device "dy"),
        .transfer_from "hy_host" "dy",
        .transfer_from "dy" "hy_device",
        .set_pointer_mode HIPBLAS_POINTER_MODE_DEVICE,
        call (.device "d_alpha") (.device "dx") (.device "dy"),
        .transfer_from "hy_device" "dy"]
      ++ (if arg.unit_check || arg.norm_check then
            [.cblas "cblas_axpy" batch_count "hy_cpu"]
            ++ (if arg.unit_check then
                  [.unit_check "hy_cpu" "hy_host", .unit_check "hy_cpu" "hy_device"]
                else [])
            ++ (if arg.norm_check then
                  [.norm_check "hipblas_error_host" false "hy_cpu" "hy_host",
                    .norm_check "hipblas_error_device" false "hy_cpu" "hy_device"]
                else [])
          else [])
    timing :=
      if arg.timing then
        [.get_stream, .set_pointer_mode HIPBLAS_POINTER_MODE_DEVICE]
        ++ timing_loop arg.cold_iters (timing_runs arg)
            (call (.device "d_alpha") (.device "dx") (.device "dy"))
        ++ [.get_time_us_sync true, .log_args ["hipblas_error_host", "hipblas_error_device"]]
      else [] }

/-! ## blas_ex/testing_rot_ex.hpp -/

/-- The function `testing_rot_ex`; `if(N <= 0)` is its size check. -/
def testing_rot_ex (arg : Arguments) : TestFn :=
  let FORTRAN := arg.fortran
  let N := arg.N
  let incx := arg.incx
  let incy := arg.incy
  let xType := arg.a_type
  let yType := arg.b_type
  let csType := arg.c_type
  let executionType := arg.compute_type
  let abs_incx := if incx ≥ 0 then incx else wrap32 (-incx)
  let abs_incy := if incy ≥ 0 then incy else wrap32 (-incy)
  let size_x0 := size_t_mul (size_t N) (size_t abs_incx)
  let size_y0 := size_t_mul (size_t N) (size_t abs_incy)
  let size_x := if size_x0 = 0 then 1 else size_x0
  let size_y := if size_y0 = 0 then 1 else size_y0
  let call (x y c s : Ptr) : Step :=
    .vendor "hipblasRotEx" FORTRAN
      [.handle, .int N, .ptr x, .datatype xType, .int incx, .ptr y, .datatype yType, .int incy,
        .ptr c, .ptr s, .datatype csType, .datatype executionType] .assert_success
  { entry := [.local_handle]
    quick := if N ≤ 0 then some [call .nullptr .nullptr .nullptr .nullptr] else none
    setup :=
      [.device_vector "dx" size_x, .device_vector "dy" size_y, .device_vector "dc" 1,
        .device_vector "ds" 1,
        .host_vector "hx_host" size_x, .host_vector "hy_host" size_y,
        .host_vector "hx_device" size_x, .host_vector "hy_device" size_y,
        .host_vector "hx_cpu" size_x, .host_vector "hy_cpu" size_y,
        .host_vector "hc" 1, .host_vector "hs" 1, .host_vector "alpha" 1,
        .init "hx_host" N 1 abs_incx, .init "hy_host" N 1 abs_incy, .init "alpha" 1 1 1,
        .init "hc" 1 1 1, .init "hs" 1 1 1,
        .assign "hx_device" "hx_host", .assign "hx_cpu" "hx_device",
        .assign "hy_device" "hy_host", .assign "hy_cpu" "hy_device",
        .hipMemcpy "dx" "hx_host" size_x hipMemcpyHostToDevice,
        .hipMemcpy "dy" "hy_host" size_y hipMemcpyHostToDevice,
        .hipMemcpy "dc" "hc" 1 hipMemcpyHostToDevice,
        .hipMemcpy "ds" "hs" 1 hipMemcpyHostToDevice]
    check :=
      if arg.unit_check || arg.norm_check then
        [.set_pointer_mode HIPBLAS_POINTER_MODE_HOST,
          call (.device "dx") (.device "dy") (.host "hc") (.host "hs"),
          .hipMemcpy "hx_host" "dx" size_x hipMemcpyDeviceToHost,
          .hipMemcpy "hy_host" "dy" size_y hipMemcpyDeviceToHost,
          .hipMemcpy "dx" "hx_device" size_x hipMemcpyHostToDevice,
          .hipMemcpy "dy" "hy_device" size_y hipMemcpyHostToDevice,
          .set_pointer_mode HIPBLAS_POINTER_MODE_DEVICE,
          call (.device "dx") (.device "dy") (.device "dc") (.device "ds"),
          .hipMemcpy "hx_device" "dx" size_x hipMemcpyDeviceToHost,
          .hipMemcpy "hy_device" "dy" size_y hipMemcpyDeviceToHost,
          .cblas "cblas_rot" 1 "hx_cpu"]
        ++ (if arg.unit_check then
              [.unit_check "hx_cpu" "hx_host", .unit_check "hy_cpu" "hy_host",
                .unit_check "hx_cpu" "hx_device", .unit_check "hy_cpu" "hy_device"]
            else [])
        ++ (if arg.norm_check then
              [.norm_check "hipblas_error_host" false "hx_cpu" "hx_host",
                .norm_check "hipblas_error_host" true "hy_cpu" "hy_host",
                .norm_check "hipblas_error_device" false "hx_cpu" "hx_device",
                .norm_check "hipblas_error_device" true "hy_cpu" "hy_device"]
            else [])
      else []
    timing :=
      if arg.timing then
        [.get_stream, .set_pointer_mode HIPBLAS_POINTER_MODE_DEVICE]
        ++ timing_loop arg.cold_iters (timing_runs arg)
            (call (.device "dx") (.device "dy") (.device "dc") (.device "ds"))
        ++ [.get_time_us_sync true, .log_args ["hipblas_error_host", "hipblas_error_device"]]
      else [] }

/-! ## blas_ex/testing_dot_batched_ex.hpp -/

/-- The function `testing_dot_batched_ex`; `if(N <= 0 || batch_count <= 0)` is its
size check.  `CONJ` is the template parameter, `Tr_is_half` stands for
`std::is_same<Tr, hipblasHalf>`. -/
def testing_dot_batched_ex (CONJ : Bool) (Tr_is_half : Bool) (arg : Arguments) : TestFn :=
  let FORTRAN := arg.fortran
  let fn := if CONJ then "hipblasDotcBatchedEx" else "hipblasDotBatchedEx"
  let N := arg.N
  let incx := arg.incx
  let incy := arg.incy
  let batch_count := arg.batch_count
  let xType := arg.a_type
  let yType := arg.b_type
  let resultType := arg.c_type
  let executionType := arg.compute_type
  let call (x y result : Ptr) : Step :=
    .vendor fn FORTRAN
      [.handle, .int N, .ptr x, .datatype xType, .int incx, .ptr y, .datatype yType, .int incy,
        .int batch_count, .ptr result, .datatype resultType, .datatype executionType]
      .assert_success
  { entry := [.local_handle]
    quick :=
      if decide (N ≤ 0) || decide (batch_count ≤ 0) then
        some
          ([.device_vector "d_hipblas_result_0" (size_t (max batch_count 1)),
            .host_vector "h_hipblas_result_0" (size_t (max 1 batch_count)),
            .init_nan "h_hipblas_result_0" (max 1 batch_count),
            .hipMemcpy "d_hipblas_result_0" "h_hipblas_result_0" (size_t (max 1 batch_count))
              hipMemcpyHostToDevice,
            .set_pointer_mode HIPBLAS_POINTER_MODE_DEVICE,
            call .nullptr .nullptr (.device "d_hipblas_result_0")]
          ++ (if batch_count > 0 then
                [.host_vector "cpu_0" (size_t batch_count),
                  .host_vector "gpu_0" (size_t batch_count),
                  .hipMemcpy "gpu_0" "d_hipblas_result_0" (size_t batch_count)
                    hipMemcpyDeviceToHost,
                  .unit_check "cpu_0" "gpu_0"]
              else []))
      else none
    setup :=
      [.host_batch_vector "hx" N incx batch_count,
        .host_batch_vector "hy" N incy batch_count,
        .host_vector "h_cpu_result" (size_t batch_count),
        .host_vector "h_hipblas_result_host" (size_t batch_count),
        .host_vector "h_hipblas_result_device" (size_t batch_count),
        .device_batch_vector "dx" N incx batch_count,
        .device_batch_vector "dy" N incy batch_count,
        .device_vector "d_hipblas_result" (size_t batch_count),
        .memcheck "dx", .memcheck "dy",
        .init "hy" N 1 incy, .init "hx" N 1 incx,
        .transfer_from "dx" "hx", .transfer_from "dy" "hy"]
    check :=
      if arg.unit_check || arg.norm_check then
        [.set_pointer_mode HIPBLAS_POINTER_MODE_HOST,
          call (.device "dx") (.device "dy") (.host "h_hipblas_result_host"),
          .set_pointer_mode HIPBLAS_POINTER_MODE_DEVICE,
          call (.device "dx") (.device "dy") (.device "d_hipblas_result"),
          .hipMemcpy "h_hipblas_result_device" "d_hipblas_result" (size_t batch_count)
            hipMemcpyDeviceToHost,
          .cblas (if CONJ then "cblas_dotc" else "cblas_dot") batch_count "h_cpu_result"]
        ++ (if arg.unit_check then
              (if Tr_is_half then
                [.near_check "h_cpu_result" "h_hipblas_result_host",
                  .near_check "h_cpu_result" "h_hipblas_result_device"]
              else
                [.unit_check "h_cpu_result" "h_hipblas_result_host",
                  .unit_check "h_cpu_result" "h_hipblas_result_device"])
            else [])
        ++ (if arg.norm_check then
              [.norm_check "hipblas_error_host" false "h_cpu_result" "h_hipblas_result_host",
                .norm_check "hipblas_error_device" false "h_cpu_result" "h_hipblas_result_device"]
            else [])
      else []
    timing :=
      if arg.timing then
        [.get_stream, .set_pointer_mode HIPBLAS_POINTER_MODE_DEVICE]
        ++ timing_loop arg.cold_iters (timing_runs arg)
            (call (.device "dx") (.device "dy") (.device "d_hipblas_result"))
        ++ [.get_time_us_sync true, .log_args ["hipblas_error_host", "hipblas_error_device"]]
      else [] }

/-! ## blas_ex/testing_gemm_batched_ex.hpp -/

/-- The size check of `testing_gemm_batched_ex`:
`M < 0 || N < 0 || K < 0 || lda < A_row || ldb < B_row || ldc < M || batch_count < 0`. -/
def gemm_batched_ex_invalid_size (arg : Arguments) : Bool :=
  let A_row := if char2hipblas_operation arg.transA = HIPBLAS_OP_N then arg.M else arg.K
  let B_row := if char2hipblas_operation arg.transB = HIPBLAS_OP_N then arg.K else arg.N
  decide (arg.M < 0) || decide (arg.N < 0) || decide (arg.K < 0) || decide (arg.lda < A_row)
    || decide (arg.ldb < B_row) || decide (arg.ldc < arg.M) || decide (arg.batch_count < 0)

/-- The function `testing_gemm_batched_ex`.  `HIPBLAS_V2` is the preprocessor
symbol; `gfx11_low_precision` stands for the condition
`getArchMajor() == 11 && (...)` on the template types that selects the
tolerance comparison. -/
def testing_gemm_batched_ex (HIPBLAS_V2 : Bool) (gfx11_low_precision : Bool) (arg : Arguments) :
    TestFn :=
  let FORTRAN := arg.fortran
  let transA := char2hipblas_operation arg.transA
  let transB := char2hipblas_operation arg.transB
  let M := arg.M
  let N := arg.N
  let K := arg.K
  let lda := arg.lda
  let ldb := arg.ldb
  let ldc := arg.ldc
  let batch_count := arg.batch_count
  let a_type := arg.a_type
  let b_type := arg.b_type
  let c_type := arg.c_type
  let compute_type := arg.compute_type
  let compute_type_gemm := arg.compute_type_gemm
  let flags := arg.flags
  let norm_check := arg.norm_check
  let unit_check := arg.unit_check
  let timing := arg.timing
  let A_col := if transA = HIPBLAS_OP_N then K else M
  let B_col := if transB = HIPBLAS_OP_N then N else K
  let size_A := size_t_mul (size_t lda) (size_t A_col)
  let size_B := size_t_mul (size_t ldb) (size_t B_col)
  let size_C := size_t_mul (size_t ldc) (size_t N)
  let common (alpha beta : Ptr) : List Arg :=
    [.handle, .op transA, .op transB, .int M, .int N, .int K, .ptr alpha, .ptr (.device "dA"),
      .datatype a_type, .int lda, .ptr (.device "dB"), .datatype b_type, .int ldb, .ptr beta,
      .ptr (.device "dC"), .datatype c_type, .int ldc, .int batch_count,
      .datatype (if HIPBLAS_V2 then compute_type_gemm else compute_type), .algo_default]
  let call (alpha beta : Ptr) : Step :=
    if !arg.with_flags then
      .vendor "hipblasGemmBatchedEx" FORTRAN (common alpha beta) .assert_success
    else
      .vendor "hipblasGemmBatchedExWithFlags" FORTRAN (common alpha beta ++ [.gemm_flags flags])
        .assert_success
  { entry := []
    quick := if gemm_batched_ex_invalid_size arg then some [] else none
    setup :=
      [.device_batch_vector "dA" size_A 1 batch_count,
        .device_batch_vector "dB" size_B 1 batch_count,
        .device_batch_vector "dC" size_C 1 batch_count,
        .device_vector "d_alpha" 1, .device_vector "d_beta" 1,
        .memcheck "dA", .memcheck "dB", .memcheck "dC",
        .host_batch_vector "hA" size_A 1 batch_count,
        .host_batch_vector "hB" size_B 1 batch_count,
        .host_batch_vector "hC_host" size_C 1 batch_count,
        .host_batch_vector "hC_device" size_C 1 batch_count,
        .host_batch_vector "hC_gold" size_C 1 batch_count,
        .local_handle,
        .init "hA" size_A 1 1, .init "hB" size_B 1 1, .init "hC_host" size_C 1 1,
        .assign "hC_device" "hC_host", .assign "hC_gold" "hC_host", .srand 1]
      ++ ((List.range batch_count.toNat).flatMap fun _ =>
            [Step.transfer_from "dA" "hA", Step.transfer_from "dB" "hB"])
      ++ [.transfer_from "dC" "hC_host",
          .hipMemcpy "d_alpha" "h_alpha_Tex" 1 hipMemcpyHostToDevice,
          .hipMemcpy "d_beta" "h_beta_Tex" 1 hipMemcpyHostToDevice]
    check :=
      if unit_check || norm_check then
        [.set_pointer_mode HIPBLAS_POINTER_MODE_HOST,
          call (.host "h_alpha_Tex") (.host "h_beta_Tex"),
          .transfer_from "hC_host" "dC",
          .transfer_from "dC" "hC_device",
          .set_pointer_mode HIPBLAS_POINTER_MODE_DEVICE,
          call (.device "d_alpha") (.device "d_beta"),
          .transfer_from "hC_device" "dC",
          .cblas "cblas_gemm" batch_count "hC_gold"]
        ++ (if unit_check then
              (if gfx11_low_precision then
                [.near_check "hC_gold" "hC_host", .near_check "hC_gold" "hC_device"]
              else
                [.unit_check "hC_gold" "hC_host", .unit_check "hC_gold" "hC_device"])
            else [])
        ++ (if norm_check then
              [.norm_check "hipblas_error_host" false "hC_gold" "hC_host",
                .norm_check "hipblas_error_device" false "hC_gold" "hC_device"]
            else [])
      else []
    timing :=
      if timing then
        [.get_stream, .set_pointer_mode HIPBLAS_POINTER_MODE_HOST]
        ++ timing_loop arg.cold_iters (timing_runs arg)
            (call (.host "h_alpha_Tex") (.host "h_beta_Tex"))
        ++ [.get_time_us_sync true, .log_args ["hipblas_error_host", "hipblas_error_device"]]
      else [] }

/-! ## The test functions by routine -/

/-- The per-routine test functions of the client sources. -/
inductive Routine
  | rotg
  | rotg_strided_batched
  | syr_strided_batched
  | tbsv
  | dgmm_strided_batched
  | geam_batched
  | symm
  | trmm
  | axpy_ex
  | axpy_batched_ex
  | dot_batched_ex
  | gemm_batched_ex
  | rot_ex
  deriving DecidableEq, Repr

/-- What a test function depends on besides its `Arguments`: template
parameters, preprocessor symbols and the device architecture. -/
structure Build where
  CONJ : Bool
  Tr_is_half : Bool
  HIPBLAS_V2 : Bool
  gfx11_low_precision : Bool

/-- The test function of a routine. -/
def testing (bld : Build) : Routine → Arguments → TestFn
  | .rotg => testing_rotg
  | .rotg_strided_batched => testing_rotg_strided_batched
  | .syr_strided_batched => testing_syr_strided_batched
  | .tbsv => testing_tbsv
  | .dgmm_strided_batched => testing_dgmm_strided_batched
  | .geam_batched => testing_geam_batched
  | .symm => testing_symm
  | .trmm => testing_trmm
  | .axpy_ex => testing_axpy_ex
  | .axpy_batched_ex => testing_axpy_batched_ex
  | .dot_batched_ex => testing_dot_batched_ex bld.CONJ bld.Tr_is_half
  | .gemm_batched_ex => testing_gemm_batched_ex bld.HIPBLAS_V2 bld.gfx11_low_precision
  | .rot_ex => testing_rot_ex

/-! ## testing_asum.hpp -/

/-- The outcomes of the HIP runtime calls and of the vendor call in one run of
`testing_asum`. -/
structure AsumEnv where
  hipMalloc_dx : Bool
  hipMalloc_result : Bool
  hipMemcpy_dx : Bool
  /-- The status returned by `hipblasAsum`. -/
  status : hipblasStatus_t
  hipMemcpy_result : Bool
  hipFree_dx : Bool
  hipFree_result : Bool

/-- How a run of `testing_asum` ends. -/
inductive AsumResult
  /-- The function returns the status. -/
  | returned (status : hipblasStatus_t)
  /-- A `CHECK_HIP_ERROR` met a HIP error. -/
  | hip_error
  /-- The constructor of `hx` threw `std::length_error`; nothing is returned. -/
  | length_error
  deriving DecidableEq, Repr

/-- The function `testing_asum`: the steps executed and how the run ends.

Modelled from the spec: `CHECK_HIP_ERROR` is a macro of `utility.h`, which is not
among the sources; on a HIP error it is taken to end the run without a returned
status.

`int sizeX = N * incx;` is computed in `int`.  `vector<T1> hx(sizeX);` is the
standard library's `std::vector` (`using namespace std;`): its constructor
converts `sizeX` to `size_t` and throws `std::length_error` when the count
exceeds `max_size()`, which is at most `PTRDIFF_MAX`; a negative `sizeX` converts
to a count of at least `2 ^ 64 - 2 ^ 31`, so the constructor throws and the run
ends before the handle is created. -/
def testing_asum (argus : Arguments) (env : AsumEnv) : List Step × AsumResult :=
  let N := argus.N
  let incx := argus.incx
  if N < 0 ∨ incx < 0 then
    ([], .returned HIPBLAS_STATUS_INVALID_VALUE)
  else
    let sizeX := wrap32 (N * incx)
    let device_pointer := true
    if sizeX < 0 then ([], .length_error)
    else
      let t1 : List Step :=
        [.host_vector "hx" (size_t sizeX), .hipblasCreate, .check_hipMalloc "dx" (size_t sizeX)]
      if !env.hipMalloc_dx then (t1, .hip_error)
      else
        let t2 := t1 ++ [.check_hipMalloc "d_rocblas_result" 1]
        if !env.hipMalloc_result then (t2, .hip_error)
        else
          let t3 := t2 ++
            [.srand 1, .init "hx" 1 N incx,
              .check_hipMemcpy "dx" "hx" (size_t_mul (size_t N) (size_t incx)) hipMemcpyHostToDevice]
          if !env.hipMemcpy_dx then (t3, .hip_error)
          else
            let t4 := t3 ++
              [.vendor "hipblasAsum" false
                [.handle, .int N, .ptr (.device "dx"), .int incx,
                  .ptr (if device_pointer then .device "d_rocblas_result" else .host "rocblas_result")]
                .stored]
            let status := env.status
            if status ≠ HIPBLAS_STATUS_SUCCESS then
              let t5 := t4 ++ [.check_hipFree "dx"]
              if !env.hipFree_dx then (t5, .hip_error)
              else
                let t6 := t5 ++ [.check_hipFree "d_rocblas_result"]
                if !env.hipFree_result then (t6, .hip_error)
                else (t6 ++ [.hipblasDestroy], .returned status)
            else
              let t5 := t4 ++
                (if device_pointer then
                  [.check_hipMemcpy "rocblas_result" "d_rocblas_result" 1 hipMemcpyDeviceToHost]
                else [])
              if device_pointer && !env.hipMemcpy_result then (t5, .hip_error)
              else
                let t6 := t5 ++
                  (if argus.unit_check then
                    [.cblas "cblas_asum" 1 "cpu_result"]
                    ++ (if argus.unit_check then [.unit_check "cpu_result" "rocblas_result"] else [])
                  else [])
                let t7 := t6 ++ [.check_hipFree "dx"]
                if !env.hipFree_dx then (t7, .hip_error)
                else
                  let t8 := t7 ++ [.check_hipFree "d_rocblas_result"]
                  if !env.hipFree_result then (t8, .hip_error)
                  else (t8 ++ [.hipblasDestroy], .returned HIPBLAS_STATUS_SUCCESS)

/-- Every HIP runtime call of the run returns `hipSuccess`. -/
def AsumEnv.hip_succeeds (env : AsumEnv) : Prop :=
  env.hipMalloc_dx = true ∧ env.hipMalloc_result = true ∧ env.hipMemcpy_dx = true
    ∧ env.hipMemcpy_result = true ∧ env.hipFree_dx = true ∧ env.hipFree_result = true

/-! ## The quick-return block of `testing_dot_batched_ex` on data -/

section DotQuick

variable {α : Type} [DecidableEq α]

/-- Modelled from the spec: `hipblas_init_nan(ptr, n)` (not among the sources)
sets the first `n` elements to NaN ("optional NaN injection"). -/
def hipblas_init_nan (nan : α) (v : List α) (n : Nat) : List α :=
  List.replicate (min n v.length) nan ++ v.drop n

/-- The effect of `hipMemcpy(dst, src, sizeof(T) * count, kind)` on `dst`. -/
def hipMemcpy_data (dst src : List α) (count : Nat) : List α :=
  src.take count ++ dst.drop count

end DotQuick

/-! ## Sample inputs -/

/-- An argument set that passes every size check, with checking and timing on. -/
def sample_arguments : Arguments :=
  { M := 2, N := 2, K := 1, lda := 3, ldb := 3, ldc := 3, incx := 1, incy := 1, batch_count := 2,
    stride_scale := 1, alpha := 1, beta := 0, side := 'L', uplo := 'U', transA := 'N',
    transB := 'N', diag := 'N', a_type := 0, b_type := 0, c_type := 0, compute_type := 0,
    compute_type_gemm := 0, flags := 0, with_flags := false, unit_check := true,
    norm_check := true, timing := true, cold_iters := 2, iters := 10, inplace := false,
    fortran := false, api := hipblas_client_api.C }

/-- A build of the clients. -/
def sample_build : Build :=
  { CONJ := false, Tr_is_half := false, HIPBLAS_V2 := false, gfx11_low_precision := false }

/-- A run of `testing_asum` in which every HIP call succeeds and `hipblasAsum`
returns `HIPBLAS_STATUS_INVALID_VALUE`. -/
def asum_env_invalid_value : AsumEnv :=
  { hipMalloc_dx := true, hipMalloc_result := true, hipMemcpy_dx := true,
    status := HIPBLAS_STATUS_INVALID_VALUE, hipMemcpy_result := true, hipFree_dx := true,
    hipFree_result := true }

/-- Modelled from the spec: `hipblasStatusToString` is defined in the library
sources, which are not among the client sources; only its test
`TEST(hipblas_auxiliary, statusToString)` is.  It maps every `hipblasStatus_t`
enumerator to the string spelling of that enumerator's name. -/
def hipblasStatusToString : hipblasStatus_t → String
  | .HIPBLAS_STATUS_SUCCESS => "HIPBLAS_STATUS_SUCCESS"
  | .HIPBLAS_STATUS_NOT_INITIALIZED => "HIPBLAS_STATUS_NOT_INITIALIZED"
  | .HIPBLAS_STATUS_ALLOC_FAILED => "HIPBLAS_STATUS_ALLOC_FAILED"
  | .HIPBLAS_STATUS_INVALID_VALUE => "HIPBLAS_STATUS_INVALID_VALUE"
  | .HIPBLAS_STATUS_MAPPING_ERROR => "HIPBLAS_STATUS_MAPPING_ERROR"
  | .HIPBLAS_STATUS_EXECUTION_FAILED => "HIPBLAS_STATUS_EXECUTION_FAILED"
  | .HIPBLAS_STATUS_INTERNAL_ERROR => "HIPBLAS_STATUS_INTERNAL_ERROR"
  | .HIPBLAS_STATUS_NOT_SUPPORTED => "HIPBLAS_STATUS_NOT_SUPPORTED"
  | .HIPBLAS_STATUS_ARCH_MISMATCH => "HIPBLAS_STATUS_ARCH_MISMATCH"
  | .HIPBLAS_STATUS_HANDLE_IS_NULLPTR => "HIPBLAS_STATUS_HANDLE_IS_NULLPTR"
  | .HIPBLAS_STATUS_INVALID_ENUM => "HIPBLAS_STATUS_INVALID_ENUM"
  | .HIPBLAS_STATUS_UNKNOWN => "HIPBLAS_STATUS_UNKNOWN"

/-- The enumerators of `hipblasStatus_t` in declaration order, each with the
spelling of its name. -/
def hipblasStatus_enumerators : List (hipblasStatus_t × String) :=
  [(HIPBLAS_STATUS_SUCCESS, "HIPBLAS_STATUS_SUCCESS"),
    (HIPBLAS_STATUS_NOT_INITIALIZED, "HIPBLAS_STATUS_NOT_INITIALIZED"),
    (HIPBLAS_STATUS_ALLOC_FAILED, "HIPBLAS_STATUS_ALLOC_FAILED"),
    (HIPBLAS_STATUS_INVALID_VALUE, "HIPBLAS_STATUS_INVALID_VALUE"),
    (HIPBLAS_STATUS_MAPPING_ERROR, "HIPBLAS_STATUS_MAPPING_ERROR"),
    (HIPBLAS_STATUS_EXECUTION_FAILED, "HIPBLAS_STATUS_EXECUTION_FAILED"),
    (HIPBLAS_STATUS_INTERNAL_ERROR, "HIPBLAS_STATUS_INTERNAL_ERROR"),
    (HIPBLAS_STATUS_NOT_SUPPORTED, "HIPBLAS_STATUS_NOT_SUPPORTED"),
    (HIPBLAS_STATUS_ARCH_MISMATCH, "HIPBLAS_STATUS_ARCH_MISMATCH"),
    (HIPBLAS_STATUS_HANDLE_IS_NULLPTR, "HIPBLAS_STATUS_HANDLE_IS_NULLPTR"),
    (HIPBLAS_STATUS_INVALID_ENUM, "HIPBLAS_STATUS_INVALID_ENUM"),
    (HIPBLAS_STATUS_UNKNOWN, "HIPBLAS_STATUS_UNKNOWN")]

/-- The C library `strcmp` as the test uses it: 0 exactly when the strings are
equal, otherwise negative or positive by their order. -/
def strcmp (a b : String) : Int := if a = b then 0 else if a < b then -1 else 1

/-- The body of `TEST(hipblas_auxiliary, statusToString)`:
`EXPECT_EQ(0, strcmp("HIPBLAS_STATUS_ALLOC_FAILED", hipblasStatusToString(HIPBLAS_STATUS_ALLOC_FAILED)))`. -/
def test_statusToString : Bool :=
  decide (0 = strcmp "HIPBLAS_STATUS_ALLOC_FAILED"
    (hipblasStatusToString HIPBLAS_STATUS_ALLOC_FAILED))

/-! ## Order of the comparisons -/

/-- Whether the step is a unit check: `unit_check_general` or `near_check_general`. -/
def Step.is_unit_check : Step → Bool
  | .unit_check _ _ => true
  | .near_check _ _ => true
  | _ => false

/-- Whether the step is a norm check: `norm_check_general`. -/
def Step.is_norm_check : Step → Bool
  | .norm_check _ _ _ _ => true
  | _ => false

/-- The `(gold, result)` buffers read by the unit checks of the list, in order. -/
def unit_check_pairs : List Step → List (String × String)
  | [] => []
  | .unit_check gold result :: rest => (gold, result) :: unit_check_pairs rest
  | .near_check gold result :: rest => (gold, result) :: unit_check_pairs rest
  | _ :: rest => unit_check_pairs rest

/-- The `(gold, result)` buffers given to the norm checks of the list, in order. -/
def norm_check_pairs : List Step → List (String × String)
  | [] => []
  | .norm_check _ _ gold result :: rest => (gold, result) :: norm_check_pairs rest
  | _ :: rest => norm_check_pairs rest

/-- What is left of the list after skipping the steps before the first unit or
norm check, then the unit checks standing there, then the norm checks standing
there. -/
def after_unit_then_norm_checks (steps : List Step) : List Step :=
  ((steps.dropWhile fun s => !(s.is_unit_check || s.is_norm_check)).dropWhile
    Step.is_unit_check).dropWhile Step.is_norm_check

/-! ## Sizes passed to allocation, initialisation and copies -/

/-- The size of the first `host_vector` of that name among the steps. -/
def host_vector_size (name : String) : List Step → Option Nat
  | [] => none
  | .host_vector n size :: rest => if n = name then some size else host_vector_size name rest
  | _ :: rest => host_vector_size name rest

/-- The `(rows, cols, ld)` passed to the first initialisation of the buffer of
that name among the steps. -/
def init_args (name : String) : List Step → Option (Int × Int × Int)
  | [] => none
  | .init n rows cols ld :: rest =>
    if n = name then some (rows, cols, ld) else init_args name rest
  | _ :: rest => init_args name rest

/-- The element counts of the `hipMemcpy` calls into the buffer of that name,
in order. -/
def hipMemcpy_counts (dst : String) : List Step → List Nat
  | [] => []
  | .hipMemcpy d _ count _ :: rest =>
    if d = dst then count :: hipMemcpy_counts dst rest else hipMemcpy_counts dst rest
  | _ :: rest => hipMemcpy_counts dst rest

/-- Modelled from the spec: `hipblas_init_matrix(h, arg, rows, cols, ld, ...)` is
defined in the client utility code, not among the sources; it "initializes" the
`rows`-by-`cols` column-major matrix with leading dimension `ld`, that is the
elements `h[i + j * ld]` for `i < rows` and `j < cols`.  This is the list of
those indices. -/
def init_matrix_indices (rows cols ld : Int) : List Int :=
  (List.range cols.toNat).flatMap fun j => (List.range rows.toNat).map fun i => (i : Int) + j * ld

/-- An argument set for `testing_trmm`, in place, whose `ldOut * N` is `2 ^ 31`:
`M = 1`, `N = 32768`, `lda = 1`, `ldb = 65536`. -/
def trmm_overflow_arguments : Arguments :=
  { sample_arguments with M := 1, N := 32768, lda := 1, ldb := 65536, ldc := 1, inplace := true }

/-- An argument set for `testing_symm` with side left that passes the size
check with `N` larger than `lda`: `M = 2`, `N = 5`, `lda = ldb = ldc = 2`. -/
def symm_wide_arguments : Arguments :=
  { sample_arguments with M := 2, N := 5, lda := 2, ldb := 2, ldc := 2, side := 'L' }

/-! ## Strides and offsets of testing_rotg_strided_batched -/

/-- Locals `stride_a`, `stride_b`, `stride_c`, `stride_s` of
`testing_rotg_strided_batched`: `hipblasStride stride_a = stride_scale;`. -/
def rotg_strided_batched_stride (arg : Arguments) : Int := to_hipblasStride arg.stride_scale

/-- Locals `size_a`, ..., `size_s`: `size_t(stride_a) * size_t(batch_count)`. -/
def rotg_strided_batched_size (arg : Arguments) : Nat :=
  size_t_mul (size_t (rotg_strided_batched_stride arg)) (size_t arg.batch_count)

/-- The offset `b * stride_a` of batch `b` in the reference loop
`for(int b = 0; b < batch_count; b++) cblas_rotg(ca.data() + b * stride_a, ...)`. -/
def rotg_strided_batched_offset (arg : Arguments) (b : Int) : Int :=
  wrap64 (b * rotg_strided_batched_stride arg)
/-! ## The reference loop of testing_dgmm_strided_batched on data -/

/-- Local `shift_x` of the reference calculation:
`ptrdiff_t shift_x = incx < 0 ? -ptrdiff_t(incx) * (N - 1) : 0;`. -/
def dgmm_shift_x (N incx : Int) : Int :=
  if incx < 0 then wrap64 (-incx * wrap32 (N - 1)) else 0

/-- The index used to read `hx_copyb` for the `size_t` loop variables `i1`, `i2`:
`shift_x + i2 * incx` when the side is right, `shift_x + i1 * incx` otherwise,
computed in `size_t`. -/
def dgmm_x_index (side : hipblasSideMode_t) (N incx : Int) (i1 i2 : Nat) : Nat :=
  (size_t (dgmm_shift_x N incx)
    + size_t_mul (if HIPBLAS_SIDE_RIGHT = side then i2 else i1) (size_t incx))
    % 18446744073709551616

/-- The index `i1 + i2 * ld` used for `hA_copyb` and `hC_goldb`, computed in `size_t`. -/
def dgmm_matrix_index (ld : Int) (i1 i2 : Nat) : Nat :=
  (i1 + size_t_mul i2 (size_t ld)) % 18446744073709551616

/-- The element offset reached by `p[idx]` for a pointer `p` and a `size_t` index:
address arithmetic is modulo `2 ^ 64`, so an index of `2 ^ 63` or more reaches an
element before `p`. -/
def ptr_offset (idx : Nat) : Int := wrap64 idx

section DgmmReference

variable {α : Type} [Mul α]

/-- The body of the batch loop of the reference calculation, for one batch:
`for(size_t i1 = 0; i1 < M; i1++) for(size_t i2 = 0; i2 < N; i2++)
hC_goldb[i1 + i2 * ldc] = hA_copyb[i1 + i2 * lda] * hx_copyb[...]`.
The buffers are functions of the element offset from the batch pointers
`hA_copyb`, `hx_copyb` and `hC_goldb`; the result is the final `hC_goldb`. -/
def dgmm_reference (side : hipblasSideMode_t) (M N lda incx ldc : Int)
    (hA_copyb hx_copyb hC_goldb : Int → α) : Int → α :=
  (List.range M.toNat).foldl
    (fun C (i1 : Nat) =>
      (List.range N.toNat).foldl
        (fun C (i2 : Nat) =>
          fun t =>
            if t = ptr_offset (dgmm_matrix_index ldc i1 i2) then
              hA_copyb (ptr_offset (dgmm_matrix_index lda i1 i2))
                * hx_copyb (ptr_offset (dgmm_x_index side N incx i1 i2))
            else C t)
        C)
    hC_goldb

end DgmmReference

/-- The offset of the `t`-th logical element of a vector of length `k` under the
BLAS increment convention: `t * incx` when `incx >= 0` and `(k - 1 - t) * |incx|`
when `incx < 0`. -/
def blas_vector_offset (k incx : Int) (t : Nat) : Int :=
  if 0 ≤ incx then t * incx else (k - 1 - t) * |incx|

/-- An argument set for `testing_dgmm_strided_batched` with side left,
`M = 3`, `N = 2`, `lda = ldc = 3`, `incx = -1`, one batch. -/
def dgmm_left_negative_incx_arguments : Arguments :=
  { sample_arguments with
    M := 3, N := 2, lda := 3, ldc := 3, incx := -1, batch_count := 1, side := 'L' }

/-! ## Running the steps on data -/

section Data

variable {α : Type}

/-- The contents of every named object: host and device buffers, and the host
scalars (`h_alpha`, `h_beta`), which hold one element. -/
abbrev Mem (α : Type) := String → List α

/-- The memory after the named object is given new contents. -/
def mem_set (m : Mem α) (name : String) (v : List α) : Mem α :=
  fun n => if n = name then v else m n

/-- The value of one argument of a vendor call: a non-pointer argument, or the
contents of the object a pointer argument points to (`none` for `nullptr`). -/
inductive VArg (α : Type)
  | value (a : Arg)
  | data (contents : Option (List α))

/-- The value of an argument in a memory. -/
def Arg.value_in (m : Mem α) : Arg → VArg α
  | .ptr .nullptr => .data none
  | .ptr (.host name) => .data (some (m name))
  | .ptr (.device name) => .data (some (m name))
  | a => .value a

/-- What the data of a run depends on besides the steps: the value of each
host scalar, the contents of newly constructed buffers, the values the
initialisation routines store, and the vendor and host routines as functions of
their inputs. -/
structure DataEnv (α : Type) where
  /-- The value of a host scalar. -/
  scalar : String → α
  /-- Element `i` of the named buffer when it is constructed. -/
  fresh : String → Nat → α
  /-- Element `i` of the named buffer after its initialisation, from its value before. -/
  init_value : String → Nat → α → α
  /-- The NaN stored by `hipblas_init_nan`. -/
  nan : α
  /-- Element `j` of the operand at argument position `i` after a call of the
  vendor routine `fn`: a function of the routine and of the values of its
  arguments. -/
  vendor : String → Bool → List (VArg α) → Nat → Nat → α
  /-- Element `j` of the named buffer after a call of the CPU reference routine,
  from the memory before the call. -/
  cblas : String → Mem α → String → Nat → α
  /-- Element `j` of the target of a host-side preparation routine, from the
  memory before the call. -/
  prepare : String → Mem α → Nat → α

/-- The memory on entry of a test function: every name holds one element, the
value of the scalar of that name. -/
def initial_memory (env : DataEnv α) : Mem α := fun name => [env.scalar name]

/-- Modelled from the spec: the prototypes of the vendor routines are in the
library header `hipblas.h`, which is not among the client sources.  The argument
positions of the operands a routine writes, that is those not declared `const`:
`A` of `hipblasSyrStridedBatched`, `C` of `hipblasSymm`, the output matrix of
`hipblasTrmm`, `x` and `y` of `hipblasRotEx`; these are the operands the tests
copy back from the device.  For the other routines every argument position is
listed. -/
def vendor_outputs (fn : String) (args : List Arg) : List Nat :=
  if fn = "hipblasSyrStridedBatched" then [7]
  else if fn = "hipblasSymm" then [11]
  else if fn = "hipblasTrmm" then [12]
  else if fn = "hipblasRotEx" then [2, 5]
  else List.range args.length

/-- The buffers a call of the CPU reference writes: `cblas_rot` is passed
`hx_cpu.data()` and `hy_cpu.data()`; the other references write the buffer
named in the step. -/
def cblas_outputs (fn : String) (gold : String) : List String :=
  if fn = "cblas_rot" then ["hx_cpu", "hy_cpu"] else [gold]

/-- The memory after a call of the vendor routine `fn` with arguments `args`:
each written operand gets new contents of the same length, a function of the
values of the arguments before the call. -/
def exec_vendor (env : DataEnv α) (m : Mem α) (fn : String) (fortran : Bool) (args : List Arg) :
    Mem α :=
  (vendor_outputs fn args).foldl
    (fun m' i =>
      match args.get? i with
      | some (Arg.ptr (Ptr.device name)) =>
        mem_set m' name
          ((List.range (m name).length).map
            (env.vendor fn fortran (args.map (Arg.value_in m)) i))
      | some (Arg.ptr (Ptr.host name)) =>
        mem_set m' name
          ((List.range (m name).length).map
            (env.vendor fn fortran (args.map (Arg.value_in m)) i))
      | _ => m')
    m

/-- The memory after one step, when every call of the step succeeds.  Batched
containers, `transfer_from`, the `CHECK_HIP_ERROR` statements and the
comparisons other than `unit_check_general` (the source notes that the norm
check is invasive) are not interpreted: the result is `none`. -/
def exec (env : DataEnv α) (m : Mem α) : Step → Option (Mem α)
  | .host_vector name size => some (mem_set m name ((List.range size).map (env.fresh name)))
  | .device_vector name size => some (mem_set m name ((List.range size).map (env.fresh name)))
  | .init name _ _ _ =>
    some (mem_set m name
      (List.zipWith (env.init_value name) (List.range (m name).length) (m name)))
  | .init_nan name n => some (mem_set m name (hipblas_init_nan env.nan (m name) n.toNat))
  | .prepare routine target =>
    some (mem_set m target ((List.range (m target).length).map (env.prepare routine m)))
  | .assign dst src => some (mem_set m dst (m src))
  | .hipMemcpy dst src count _ => some (mem_set m dst (hipMemcpy_data (m dst) (m src) count))
  | .vendor fn fortran args _ => some (exec_vendor env m fn fortran args)
  | .cblas fn _ gold =>
    some ((cblas_outputs fn gold).foldl
      (fun m' name => mem_set m' name ((List.range (m name).length).map (env.cblas fn m name)))
      m)
  | .local_handle => some m
  | .set_pointer_mode _ => some m
  | .get_stream => some m
  | .unit_check _ _ => some m
  | .unit_check_error _ => some m
  | .get_time_us_sync _ => some m
  | .log_args _ => some m
  | .hipblasCreate => some m
  | .hipblasDestroy => some m
  | .srand _ => some m
  | _ => none

/-- The memory after a list of steps. -/
def exec_all (env : DataEnv α) : Mem α → List Step → Option (Mem α)
  | m, [] => some m
  | m, s :: rest =>
    match exec env m s with
    | some m' => exec_all env m' rest
    | none => none

/-- The pointer mode in force after a step. -/
def next_mode (mode : Option hipblasPointerMode_t) : Step → Option hipblasPointerMode_t
  | .set_pointer_mode md => some md
  | _ => mode

/-- The memory just before the first step of the list that satisfies `p`, with
that step; `p` is given the pointer mode in force. -/
def state_before (env : DataEnv α) (p : Option hipblasPointerMode_t → Step → Bool) :
    Option hipblasPointerMode_t → Mem α → List Step → Option (Mem α × Step)
  | _, _, [] => none
  | mode, m, s :: rest =>
    if p mode s then some (m, s)
    else
      match exec env m s with
      | some m' => state_before env p (next_mode mode s) m' rest
      | none => none

/-- The values of the arguments of a vendor call in a memory. -/
def vendor_inputs (m : Mem α) : Step → Option (String × Bool × List (VArg α))
  | .vendor fn fortran args _ => some (fn, fortran, args.map (Arg.value_in m))
  | _ => none

end Data

/-- Statement `p mode s` of `state_before` for a vendor call made while the
pointer mode is `md`. -/
def vendor_call_in (md : hipblasPointerMode_t) (mode : Option hipblasPointerMode_t) (s : Step) :
    Bool :=
  s.is_vendor && decide (mode = some md)

/-- Whether the step is a call of the CPU reference. -/
def Step.is_cblas : Step → Bool
  | .cblas _ _ _ => true
  | _ => false

/-- The in/out operands of the checking section of a test function that restores
them between the two vendor calls: the device buffer, the host buffer that holds
its initial data at the end of the set-up, and the buffer the CPU reference
works on. -/
def inout_operands : Routine → Arguments → List (String × String × String)
  | .syr_strided_batched, _ => [("dA", "hA", "hA_cpu")]
  | .symm, _ => [("dC", "hC_host", "hC_gold")]
  | .trmm, arg =>
    [("dB", "hB", "hB"),
      (if arg.inplace then "dB" else "dC", if arg.inplace then "hB" else "hC", "hOut_gold")]
  | .rot_ex, _ => [("dx", "hx_host", "hx_cpu"), ("dy", "hy_host", "hy_cpu")]
  | _, _ => []

/-- The host buffers that receive the result of the host-mode call and of the
device-mode call. -/
def result_buffers : Routine → List (String × String)
  | .syr_strided_batched => [("hA_host", "hA_device")]
  | .symm => [("hC_host", "hC_device")]
  | .trmm => [("hOut_host", "hOut_device")]
  | .rot_ex => [("hx_host", "hx_device"), ("hy_host", "hy_device")]
  | _ => []

/-- Statement that, on the data of a run of the test function `t` in which every
call succeeds, each in/out operand of `ops` holds the same data before the
host-mode vendor call (`mH`) and before the device-mode vendor call (`mD`),
namely the data its host buffer holds at the end of the set-up (`mS`), which is
also what the buffer of the CPU reference holds when the reference is called
(`mC`); that the two vendor calls are given the same argument values; and that
before the first comparison (`mE`) the two result buffers of each pair of `res`
hold the same data. -/
def operands_restored {α : Type} (env : DataEnv α) (t : TestFn)
    (ops : List (String × String × String)) (res : List (String × String)) : Prop :=
  ∃ mS mH mD mC mE callH callD sC sE,
    exec_all env (initial_memory env) (t.entry ++ t.setup) = some mS ∧
    state_before env (vendor_call_in HIPBLAS_POINTER_MODE_HOST) none (initial_memory env) t.steps
      = some (mH, callH) ∧
    state_before env (vendor_call_in HIPBLAS_POINTER_MODE_DEVICE) none (initial_memory env) t.steps
      = some (mD, callD) ∧
    state_before env (fun _ s => s.is_cblas) none (initial_memory env) t.steps = some (mC, sC) ∧
    state_before env (fun _ s => s.is_comparison) none (initial_memory env) t.steps
      = some (mE, sE) ∧
    (∀ op ∈ ops, mH op.1 = mS op.2.1 ∧ mD op.1 = mS op.2.1 ∧ mC op.2.2 = mS op.2.1) ∧
    (vendor_inputs mH callH).isSome = true ∧
    vendor_inputs mH callH = vendor_inputs mD callD ∧
    (∀ p ∈ res, mE p.1 = mE p.2)

/-- A data environment over the integers: scalars are 2, new buffers hold zeros,
initialisation stores `i + 1` at index `i`, and the vendor routine stores at
index `j` of the operand at position `i` the number of its arguments plus
`i + j`. -/
def sample_data_env : DataEnv Int :=
  { scalar := fun _ => 2
    fresh := fun _ _ => 0
    init_value := fun _ i _ => i + 1
    nan := -1
    vendor := fun _ _ args i j => args.length + i + j
    cblas := fun _ _ _ j => j
    prepare := fun _ _ j => j }

/-! ## Dimensions of the operands of testing_gemm_batched_ex -/

/-- Local `A_row` of `testing_gemm_batched_ex`: `transA == HIPBLAS_OP_N ? M : K`. -/
def gemm_batched_ex_A_row (arg : Arguments) : Int :=
  if char2hipblas_operation arg.transA = HIPBLAS_OP_N then arg.M else arg.K

/-- Local `A_col` of `testing_gemm_batched_ex`: `transA == HIPBLAS_OP_N ? K : M`. -/
def gemm_batched_ex_A_col (arg : Arguments) : Int :=
  if char2hipblas_operation arg.transA = HIPBLAS_OP_N then arg.K else arg.M

/-- Local `B_row` of `testing_gemm_batched_ex`: `transB == HIPBLAS_OP_N ? K : N`. -/
def gemm_batched_ex_B_row (arg : Arguments) : Int :=
  if char2hipblas_operation arg.transB = HIPBLAS_OP_N then arg.K else arg.N

/-- Local `B_col` of `testing_gemm_batched_ex`: `transB == HIPBLAS_OP_N ? N : K`. -/
def gemm_batched_ex_B_col (arg : Arguments) : Int :=
  if char2hipblas_operation arg.transB = HIPBLAS_OP_N then arg.N else arg.K

/-- The dimensions of `op(X)` for a stored matrix `X` of `rows` rows and `cols`
columns: those of `X` when the operation is no-transpose, swapped otherwise. -/
def op_dims (trans : hipblasOperation_t) (rows cols : Int) : Int × Int :=
  if trans = HIPBLAS_OP_N then (rows, cols) else (cols, rows)

/-- The element count `n` per batch of the named `host_batch_vector` or
`device_batch_vector`, from its declaration among the steps. -/
def batch_vector_n (name : String) : List Step → Option Int
  | [] => none
  | .host_batch_vector nm n _ _ :: rest =>
    if nm = name then some n else batch_vector_n name rest
  | .device_batch_vector nm n _ _ :: rest =>
    if nm = name then some n else batch_vector_n name rest
  | _ :: rest => batch_vector_n name rest
/-! ## Timestamps of the timing section -/

/-- Whether the step reads the clock (`get_time_us_sync`). -/
def Step.is_timestamp : Step → Bool
  | .get_time_us_sync _ => true
  | _ => false
/-! ## Error values assigned and logged -/

/-- The error variables assigned by the steps, in order: `err = norm_check_general(...)`
and `err = std::abs(vector_norm_1(...))` assign `err`; `err += ...` reads `err`
and assigns nothing new. -/
def assigned_errors : List Step → List String
  | [] => []
  | .norm_check err accumulate _ _ :: rest =>
    if accumulate then assigned_errors rest else err :: assigned_errors rest
  | .vector_norm_1 err _ _ :: rest => err :: assigned_errors rest
  | _ :: rest => assigned_errors rest

/-- The error variables passed to `log_args` by the steps, in order. -/
def logged_errors : List Step → List String
  | [] => []
  | .log_args errs :: rest => errs ++ logged_errors rest
  | _ :: rest => logged_errors rest
/-! ## The size checks in the words of the specification -/

/-- The conditions under which the specification says the size check fails:
geam_batched `M <= 0 or N <= 0 or lda < A_row or ldb < B_row or ldc < M or
batch_count <= 0`; symm `M < 0 or N < 0 or ldc < M or ldb < M or lda < K`; trmm
`M < 0 or N < 0 or lda < K or ldb < M or ldOut < M`; gemm_batched_ex `M < 0 or
N < 0 or K < 0 or lda < A_row or ldb < B_row or ldc < M or batch_count < 0`.
`A_row`, `B_row`, `K` and `ldOut` are the locals of the respective function.
For the other routines the value is `false`. -/
def spec_size_check_fails : Routine → Arguments → Bool
  | .geam_batched, arg =>
    let A_row := if char2hipblas_operation arg.transA = HIPBLAS_OP_N then arg.M else arg.N
    let B_row := if char2hipblas_operation arg.transB = HIPBLAS_OP_N then arg.M else arg.N
    decide (arg.M ≤ 0 ∨ arg.N ≤ 0 ∨ arg.lda < A_row ∨ arg.ldb < B_row ∨ arg.ldc < arg.M
      ∨ arg.batch_count ≤ 0)
  | .symm, arg =>
    let K := if char2hipblas_side arg.side = HIPBLAS_SIDE_LEFT then arg.M else arg.N
    decide (arg.M < 0 ∨ arg.N < 0 ∨ arg.ldc < arg.M ∨ arg.ldb < arg.M ∨ arg.lda < K)
  | .trmm, arg =>
    let K := if char2hipblas_side arg.side = HIPBLAS_SIDE_LEFT then arg.M else arg.N
    let ldOut := if arg.inplace then arg.ldb else arg.ldc
    decide (arg.M < 0 ∨ arg.N < 0 ∨ arg.lda < K ∨ arg.ldb < arg.M ∨ ldOut < arg.M)
  | .gemm_batched_ex, arg =>
    let A_row := if char2hipblas_operation arg.transA = HIPBLAS_OP_N then arg.M else arg.K
    let B_row := if char2hipblas_operation arg.transB = HIPBLAS_OP_N then arg.K else arg.N
    decide (arg.M < 0 ∨ arg.N < 0 ∨ arg.K < 0 ∨ arg.lda < A_row ∨ arg.ldb < B_row
      ∨ arg.ldc < arg.M ∨ arg.batch_count < 0)
  | _, _ => false

/-! ## The parameters named in hipblasTrmmModel -/

/-- Agreement of two argument sets on the parameters named in
`hipblasTrmmModel = ArgumentModel<e_a_type, e_side, e_uplo, e_transA, e_diag,
e_M, e_N, e_alpha, e_lda, e_ldb>` and on the api and check flags that
`testing_trmm` reads (`fortran`, `api`, `unit_check`, `norm_check`, `timing`). -/
def trmm_model_agree (a b : Arguments) : Bool :=
  decide (a.a_type = b.a_type) && decide (a.side = b.side) && decide (a.uplo = b.uplo)
    && decide (a.transA = b.transA) && decide (a.diag = b.diag) && decide (a.M = b.M)
    && decide (a.N = b.N) && decide (a.alpha = b.alpha) && decide (a.lda = b.lda)
    && decide (a.ldb = b.ldb) && decide (a.fortran = b.fortran) && decide (a.api = b.api)
    && decide (a.unit_check = b.unit_check) && decide (a.norm_check = b.norm_check)
    && decide (a.timing = b.timing)

/-- The size arguments of the vendor calls among the steps, in order. -/
def trmm_calls_size_args :
    List Step → List (hipblasSideMode_t × Int × Int × Int × Int × Int)
  | [] => []
  | s :: rest =>
    match trmm_size_args s with
    | some t => t :: trmm_calls_size_args rest
    | none => trmm_calls_size_args rest

/-- The output operand (the pointer argument before the output leading
dimension) of a `hipblasTrmm` call. -/
def trmm_output_operand : Step → Option Ptr
  | .vendor _ _ [_, _, _, _, _, _, _, _, _, _, _, _, .ptr out, _] _ => some out
  | _ => none

/-- The output operands of the vendor calls among the steps, in order. -/
def trmm_calls_output_operands : List Step → List Ptr
  | [] => []
  | s :: rest =>
    match trmm_output_operand s with
    | some p => p :: trmm_calls_output_operands rest
    | none => trmm_calls_output_operands rest

/-! ## Lemmas on runs and observations -/

theorem run_from_of_all_succeed (env : Env) (h : env.all_succeed) (k : Nat) (steps : List Step) :
    run_from env k steps = steps := by
  induction steps generalizing k with
  | nil => rfl
  | cons s rest ih =>
    have hs : s.continues env k = true := by
      cases s <;> simp [Step.continues, (h k).1, (h k).2]
      case vendor fn f args e => cases e <;> simp [Step.continues, (h k).2]
    simp [run_from, hs, ih]

theorem run_of_all_succeed (env : Env) (h : env.all_succeed) (steps : List Step) :
    run env steps = steps :=
  run_from_of_all_succeed env h 0 steps

theorem steps_of_quick_none (t : TestFn) (h : t.quick = none) :
    t.steps = t.entry ++ (t.setup ++ t.check ++ t.timing) := by
  simp [TestFn.steps, h]

theorem steps_of_quick_some (t : TestFn) (q : List Step) (h : t.quick = some q) :
    t.steps = t.entry ++ q := by
  simp [TestFn.steps, h]

theorem countP_is_vendor_timing_loop (cold_iters runs : Int) (fn : String) (f : Bool)
    (args : List Arg) (e : Expect) :
    List.countP Step.is_vendor (timing_loop cold_iters runs (.vendor fn f args e)) = runs.toNat := by
  unfold timing_loop
  generalize runs.toNat = n
  induction n with
  | zero => simp
  | succ n ih =>
    rw [List.range_succ, List.flatMap_append, List.countP_append, ih]
    by_cases h : (n : Int) = cold_iters <;> simp [h, Step.is_vendor, List.countP_cons]

theorem run_handle_then_call (env : Env) (fn : String) (f : Bool) (args : List Arg) (e : Expect) :
    run env [.local_handle, .vendor fn f args e] = [.local_handle, .vendor fn f args e] := by
  cases e <;> simp [run, run_from, Step.continues]

theorem success_all_succeed : Env.success.all_succeed := fun _ => ⟨rfl, rfl⟩

theorem vendor_calls_append (a b : List Step) :
    vendor_calls (a ++ b) = vendor_calls a + vendor_calls b := by
  simp [vendor_calls]

theorem size_t_of_nonneg (x : Int) (h0 : 0 ≤ x) (h1 : x ≤ 2147483647) : size_t x = x.toNat := by
  unfold size_t
  rw [Int.emod_eq_of_lt h0 (by omega)]

theorem hipMemcpy_data_whole {α : Type} (dst src : List α) (n : Nat) (hd : dst.length = n)
    (hs : src.length = n) : hipMemcpy_data dst src n = src := by
  unfold hipMemcpy_data
  rw [List.drop_eq_nil_of_le (by omega), List.take_of_length_le (by omega), List.append_nil]

/-! ## Host and device pointer-mode calls in the checking section -/

/-- C1, counterexample: `testing_tbsv`, on an argument set that passes its size
check with `unit_check` and `norm_check` set, makes a single vendor call in its
checking section, and no `hipblasSetPointerMode` precedes it: the pointer modes
at its calls are not HOST followed by DEVICE. -/
theorem tbsv_check_is_not_host_then_device :
    (testing sample_build .tbsv sample_arguments).quick = none ∧
    sample_arguments.unit_check = true ∧
    vendor_calls (testing sample_build .tbsv sample_arguments).check = 1 ∧
    pointer_modes none
        ((testing sample_build .tbsv sample_arguments).entry
          ++ (testing sample_build .tbsv sample_arguments).setup
          ++ (testing sample_build .tbsv sample_arguments).check) = [none] ∧
    pointer_modes none (testing sample_build .tbsv sample_arguments).check
      ≠ [some HIPBLAS_POINTER_MODE_HOST, some HIPBLAS_POINTER_MODE_DEVICE] := by
  decide

/-- C1, amended: for every test function other than those of tbsv and
dgmm_strided_batched, and every argument set that passes the size check with
`unit_check` or `norm_check` set, a run in which every call succeeds executes
the whole function, and its checking section calls the vendor routine exactly
twice, first in pointer mode HOST and then in pointer mode DEVICE; the checking
sections of tbsv and dgmm_strided_batched, whose routines take no scalar, call
the vendor routine exactly once without setting a pointer mode. -/
theorem check_section_pointer_modes (bld : Build) (r : Routine) (arg : Arguments) (env : Env)
    (hq : (testing bld r arg).quick = none)
    (hc : arg.unit_check = true ∨ arg.norm_check = true)
    (henv : env.all_succeed) :
    run env (testing bld r arg).steps
        = (testing bld r arg).entry
          ++ ((testing bld r arg).setup ++ (testing bld r arg).check ++ (testing bld r arg).timing) ∧
    ((r ≠ .tbsv ∧ r ≠ .dgmm_strided_batched) →
      pointer_modes none (testing bld r arg).check
        = [some HIPBLAS_POINTER_MODE_HOST, some HIPBLAS_POINTER_MODE_DEVICE]) ∧
    ((r = .tbsv ∨ r = .dgmm_strided_batched) →
      pointer_modes none (testing bld r arg).check = [none]) := by
  refine ⟨?_, ?_, ?_⟩
  · rw [run_of_all_succeed env henv, steps_of_quick_none _ hq]
  · intro hr
    rcases Bool.eq_false_or_eq_true arg.unit_check with hu | hu <;>
    rcases Bool.eq_false_or_eq_true arg.norm_check with hn | hn <;>
    simp [hu, hn] at hc <;>
    cases r <;> simp at hr <;>
    simp [testing, testing_rotg, testing_rotg_strided_batched, testing_syr_strided_batched,
      testing_geam_batched, testing_symm, testing_trmm, testing_axpy_ex, testing_axpy_batched_ex,
      testing_dot_batched_ex, testing_gemm_batched_ex, testing_rot_ex, trmm_call, hu, hn,
      pointer_modes] <;>
    split_ifs <;> simp [pointer_modes]
  · intro hr
    rcases Bool.eq_false_or_eq_true arg.unit_check with hu | hu <;>
    rcases Bool.eq_false_or_eq_true arg.norm_check with hn | hn <;>
    simp [hu, hn] at hc <;>
    rcases hr with rfl | rfl <;>
    simp [testing, testing_tbsv, testing_dgmm_strided_batched, hu, hn, pointer_modes]

/-- C1, witness: `testing_symm` on the sample arguments in the all-success
environment. -/
theorem check_section_pointer_modes_witness :
    ((testing sample_build .symm sample_arguments).quick = none ∧
      (sample_arguments.unit_check = true ∨ sample_arguments.norm_check = true) ∧
      Env.success.all_succeed) ∧
    (run Env.success (testing sample_build .symm sample_arguments).steps
        = (testing sample_build .symm sample_arguments).entry
          ++ ((testing sample_build .symm sample_arguments).setup
            ++ (testing sample_build .symm sample_arguments).check
            ++ (testing sample_build .symm sample_arguments).timing) ∧
      ((Routine.symm ≠ .tbsv ∧ Routine.symm ≠ .dgmm_strided_batched) →
        pointer_modes none (testing sample_build .symm sample_arguments).check
          = [some HIPBLAS_POINTER_MODE_HOST, some HIPBLAS_POINTER_MODE_DEVICE]) ∧
      ((Routine.symm = .tbsv ∨ Routine.symm = .dgmm_strided_batched) →
        pointer_modes none (testing sample_build .symm sample_arguments).check = [none])) :=
  ⟨⟨by decide, Or.inl rfl, success_all_succeed⟩,
    check_section_pointer_modes sample_build .symm sample_arguments Env.success (by decide)
      (Or.inl rfl) success_all_succeed⟩

/-! ## The timing loop -/

/-- C2: when `timing` is set and the size check passes, a run in which every
call succeeds executes the whole function, and the timing section issues
exactly `cold_iters + iters` vendor calls when both counts are non-negative,
and none when `cold_iters + iters <= 0`; the sum `cold_iters + iters` is taken
to be representable in `int`. -/
theorem timing_section_vendor_calls (bld : Build) (r : Routine) (arg : Arguments) (env : Env)
    (hq : (testing bld r arg).quick = none)
    (ht : arg.timing = true)
    (henv : env.all_succeed)
    (hlo : -2147483648 ≤ arg.cold_iters + arg.iters)
    (hhi : arg.cold_iters + arg.iters ≤ 2147483647) :
    run env (testing bld r arg).steps
        = (testing bld r arg).entry
          ++ ((testing bld r arg).setup ++ (testing bld r arg).check ++ (testing bld r arg).timing) ∧
    (0 ≤ arg.cold_iters → 0 ≤ arg.iters →
      (vendor_calls (testing bld r arg).timing : Int) = arg.cold_iters + arg.iters) ∧
    (arg.cold_iters + arg.iters ≤ 0 → vendor_calls (testing bld r arg).timing = 0) := by
  have hw : timing_runs arg = arg.cold_iters + arg.iters := by
    unfold timing_runs wrap32
    omega
  have key : vendor_calls (testing bld r arg).timing = (arg.cold_iters + arg.iters).toNat := by
    cases r <;>
    simp [testing, testing_rotg, testing_rotg_strided_batched, testing_syr_strided_batched,
      testing_tbsv, testing_dgmm_strided_batched, testing_geam_batched, testing_symm,
      testing_trmm, testing_axpy_ex, testing_axpy_batched_ex, testing_dot_batched_ex,
      testing_gemm_batched_ex, testing_rot_ex, trmm_call, ht, hw, vendor_calls_append] <;>
    (try split_ifs) <;>
    simp [vendor_calls, Step.is_vendor, countP_is_vendor_timing_loop, List.countP_cons]
  refine ⟨?_, ?_, ?_⟩
  · rw [run_of_all_succeed env henv, steps_of_quick_none _ hq]
  · intro h1 h2
    rw [key]
    omega
  · intro h
    rw [key]
    omega

/-- C2, witness: `testing_rotg` on the sample arguments (2 cold and 10 measured
iterations) in the all-success environment. -/
theorem timing_section_vendor_calls_witness :
    ((testing sample_build .rotg sample_arguments).quick = none ∧
      sample_arguments.timing = true ∧ Env.success.all_succeed ∧
      -2147483648 ≤ sample_arguments.cold_iters + sample_arguments.iters ∧
      sample_arguments.cold_iters + sample_arguments.iters ≤ 2147483647) ∧
    (run Env.success (testing sample_build .rotg sample_arguments).steps
        = (testing sample_build .rotg sample_arguments).entry
          ++ ((testing sample_build .rotg sample_arguments).setup
            ++ (testing sample_build .rotg sample_arguments).check
            ++ (testing sample_build .rotg sample_arguments).timing) ∧
      (0 ≤ sample_arguments.cold_iters → 0 ≤ sample_arguments.iters →
        (vendor_calls (testing sample_build .rotg sample_arguments).timing : Int)
          = sample_arguments.cold_iters + sample_arguments.iters) ∧
      (sample_arguments.cold_iters + sample_arguments.iters ≤ 0 →
        vendor_calls (testing sample_build .rotg sample_arguments).timing = 0)) :=
  ⟨⟨by decide, rfl, success_all_succeed, by decide, by decide⟩,
    timing_section_vendor_calls sample_build .rotg sample_arguments Env.success (by decide) rfl
      success_all_succeed (by decide) (by decide)⟩

/-! ## Quick-return paths with an expected status -/

/-- C3: `testing_syr_strided_batched` takes its quick-return path exactly when
`N < 0` or `incx = 0` or `lda < N` or `lda < 1` or `batch_count < 0` or `N = 0` or
`batch_count = 0`; on that path every run executes the handle construction and
one vendor call with null alpha, x and A pointers, allocates no buffer and makes
no comparison, and the status expected of the call is
`HIPBLAS_STATUS_INVALID_VALUE` exactly when `N < 0` or `incx = 0` or `lda < N` or
`lda < 1` or `batch_count < 0`, and `HIPBLAS_STATUS_SUCCESS` otherwise. -/
theorem syr_strided_batched_quick_return (arg : Arguments) (env : Env) :
    ((testing_syr_strided_batched arg).quick.isSome = true ↔
      (arg.N < 0 ∨ arg.incx = 0 ∨ arg.lda < arg.N ∨ arg.lda < 1 ∨ arg.batch_count < 0
        ∨ arg.N = 0 ∨ arg.batch_count = 0)) ∧
    (∀ q, (testing_syr_strided_batched arg).quick = some q →
      ∃ fortran uplo stridex strideA expected,
        q = [Step.vendor "hipblasSyrStridedBatched" fortran
              [.handle, .fill uplo, .int arg.N, .ptr .nullptr, .ptr .nullptr, .int arg.incx,
                .stride stridex, .ptr .nullptr, .int arg.lda, .stride strideA,
                .int arg.batch_count]
              (.expect_status expected)] ∧
        (expected = HIPBLAS_STATUS_INVALID_VALUE ↔
          (arg.N < 0 ∨ arg.incx = 0 ∨ arg.lda < arg.N ∨ arg.lda < 1 ∨ arg.batch_count < 0)) ∧
        (expected = HIPBLAS_STATUS_SUCCESS ↔
          ¬ (arg.N < 0 ∨ arg.incx = 0 ∨ arg.lda < arg.N ∨ arg.lda < 1 ∨ arg.batch_count < 0)) ∧
        run env (testing_syr_strided_batched arg).steps = Step.local_handle :: q ∧
        vendor_calls (Step.local_handle :: q) = 1 ∧
        (Step.local_handle :: q).all (fun s => !s.is_alloc && !s.is_comparison) = true) := by
  have hinv : syr_strided_batched_invalid_size arg = true ↔
      (arg.N < 0 ∨ arg.incx = 0 ∨ arg.lda < arg.N ∨ arg.lda < 1 ∨ arg.batch_count < 0) := by
    simp [syr_strided_batched_invalid_size, or_assoc]
  by_cases hI : syr_strided_batched_invalid_size arg = true
  · have hP := hinv.mp hI
    refine ⟨?_, ?_⟩
    · simp only [testing_syr_strided_batched, hI, Bool.true_or, if_true, Option.isSome_some,
        true_iff]
      tauto
    · intro q hq
      have hsteps := steps_of_quick_some _ q hq
      simp only [testing_syr_strided_batched, hI, Bool.true_or, if_true, Option.some.injEq] at hq
      subst hq
      refine ⟨_, _, _, _, _, rfl, ⟨fun _ => hP, fun _ => rfl⟩,
        ⟨fun h => (by cases h), fun h => absurd hP h⟩, ?_, ?_, ?_⟩
      · rw [hsteps]
        simp [testing_syr_strided_batched, run_handle_then_call]
      · simp [vendor_calls, Step.is_vendor]
      · simp [Step.is_alloc, Step.is_comparison]
  · have hP := fun h => hI (hinv.mpr h)
    simp only [Bool.not_eq_true] at hI
    by_cases hz : arg.N = 0 ∨ arg.batch_count = 0
    · have hz2 : (decide (arg.N = 0) || decide (arg.batch_count = 0)) = true := by simpa using hz
      refine ⟨?_, ?_⟩
      · simp only [testing_syr_strided_batched, hI, Bool.false_or, Bool.or_assoc, hz2, if_true,
          Option.isSome_some, true_iff]
        tauto
      · intro q hq
        have hsteps := steps_of_quick_some _ q hq
        simp only [testing_syr_strided_batched, hI, Bool.false_or, Bool.or_assoc, hz2, if_true,
          Bool.false_eq_true, if_false, Option.some.injEq] at hq
        subst hq
        refine ⟨_, _, _, _, _, rfl, ⟨fun h => (by cases h), fun h => absurd h hP⟩,
          ⟨fun _ => hP, fun _ => rfl⟩, ?_, ?_, ?_⟩
        · rw [hsteps]
          simp [testing_syr_strided_batched, run_handle_then_call]
        · simp [vendor_calls, Step.is_vendor]
        · simp [Step.is_alloc, Step.is_comparison]
    · have hz2 : (decide (arg.N = 0) || decide (arg.batch_count = 0)) = false := by simpa using hz
      refine ⟨?_, ?_⟩
      · simp only [testing_syr_strided_batched, hI, Bool.false_or, Bool.or_assoc, hz2,
          Bool.false_eq_true, if_false, Option.isSome_none, false_iff]
        tauto
      · intro q hq
        simp [testing_syr_strided_batched, hI, Bool.or_assoc, hz2] at hq

/-- C3, witness: the sample arguments with `N = 0` take the quick-return path. -/
theorem syr_strided_batched_quick_return_witness :
    (({ sample_arguments with N := 0 } : Arguments).N < 0
      ∨ ({ sample_arguments with N := 0 } : Arguments).incx = 0
      ∨ ({ sample_arguments with N := 0 } : Arguments).lda
          < ({ sample_arguments with N := 0 } : Arguments).N
      ∨ ({ sample_arguments with N := 0 } : Arguments).lda < 1
      ∨ ({ sample_arguments with N := 0 } : Arguments).batch_count < 0
      ∨ ({ sample_arguments with N := 0 } : Arguments).N = 0
      ∨ ({ sample_arguments with N := 0 } : Arguments).batch_count = 0) ∧
    (testing_syr_strided_batched { sample_arguments with N := 0 }).quick.isSome = true :=
  ⟨by decide,
    (syr_strided_batched_quick_return { sample_arguments with N := 0 } Env.success).1.mpr
      (by decide)⟩

/-- C4: `testing_tbsv` takes its quick-return path exactly when `N < 0` or
`K < 0` or `lda < K + 1` or `incx = 0` or `N = 0`; on that path every run executes
the handle construction and one vendor call with null A and x pointers,
allocates no buffer and makes no comparison, and the status expected of the
call is `HIPBLAS_STATUS_INVALID_VALUE` exactly when `N < 0` or `K < 0` or
`lda < K + 1` or `incx = 0`, and `HIPBLAS_STATUS_SUCCESS` otherwise; `K + 1` is
taken to be representable in `int`. -/
theorem tbsv_quick_return (arg : Arguments) (env : Env)
    (hK : -2147483648 ≤ arg.K + 1 ∧ arg.K + 1 ≤ 2147483647) :
    ((testing_tbsv arg).quick.isSome = true ↔
      (arg.N < 0 ∨ arg.K < 0 ∨ arg.lda < arg.K + 1 ∨ arg.incx = 0 ∨ arg.N = 0)) ∧
    (∀ q, (testing_tbsv arg).quick = some q →
      ∃ fortran uplo transA diag expected,
        q = [Step.vendor "hipblasTbsv" fortran
              [.handle, .fill uplo, .op transA, .diag diag, .int arg.N, .int arg.K, .ptr .nullptr,
                .int arg.lda, .ptr .nullptr, .int arg.incx]
              (.expect_status expected)] ∧
        (expected = HIPBLAS_STATUS_INVALID_VALUE ↔
          (arg.N < 0 ∨ arg.K < 0 ∨ arg.lda < arg.K + 1 ∨ arg.incx = 0)) ∧
        (expected = HIPBLAS_STATUS_SUCCESS ↔
          ¬ (arg.N < 0 ∨ arg.K < 0 ∨ arg.lda < arg.K + 1 ∨ arg.incx = 0)) ∧
        run env (testing_tbsv arg).steps = Step.local_handle :: q ∧
        vendor_calls (Step.local_handle :: q) = 1 ∧
        (Step.local_handle :: q).all (fun s => !s.is_alloc && !s.is_comparison) = true) := by
  have hw : wrap32 (arg.K + 1) = arg.K + 1 := by
    unfold wrap32
    omega
  have hinv : tbsv_invalid_size arg = true ↔
      (arg.N < 0 ∨ arg.K < 0 ∨ arg.lda < arg.K + 1 ∨ arg.incx = 0) := by
    simp [tbsv_invalid_size, or_assoc, hw]
  by_cases hI : tbsv_invalid_size arg = true
  · have hP := hinv.mp hI
    refine ⟨?_, ?_⟩
    · simp only [testing_tbsv, hI, Bool.true_or, if_true, Option.isSome_some, true_iff]
      tauto
    · intro q hq
      have hsteps := steps_of_quick_some _ q hq
      simp only [testing_tbsv, hI, Bool.true_or, if_true, Option.some.injEq] at hq
      subst hq
      refine ⟨_, _, _, _, _, rfl, ⟨fun _ => hP, fun _ => rfl⟩,
        ⟨fun h => (by cases h), fun h => absurd hP h⟩, ?_, ?_, ?_⟩
      · rw [hsteps]
        simp [testing_tbsv, run_handle_then_call]
      · simp [vendor_calls, Step.is_vendor]
      · simp [Step.is_alloc, Step.is_comparison]
  · have hP := fun h => hI (hinv.mpr h)
    simp only [Bool.not_eq_true] at hI
    by_cases hz : arg.N = 0
    · have hz2 : decide (arg.N = 0) = true := by simpa using hz
      refine ⟨?_, ?_⟩
      · simp only [testing_tbsv, hI, Bool.false_or, hz2, if_true, Option.isSome_some, true_iff]
        tauto
      · intro q hq
        have hsteps := steps_of_quick_some _ q hq
        simp only [testing_tbsv, hI, Bool.false_or, hz2, if_true, Bool.false_eq_true, if_false,
          Option.some.injEq] at hq
        subst hq
        refine ⟨_, _, _, _, _, rfl, ⟨fun h => (by cases h), fun h => absurd h hP⟩,
          ⟨fun _ => hP, fun _ => rfl⟩, ?_, ?_, ?_⟩
        · rw [hsteps]
          simp [testing_tbsv, run_handle_then_call]
        · simp [vendor_calls, Step.is_vendor]
        · simp [Step.is_alloc, Step.is_comparison]
    · have hz2 : decide (arg.N = 0) = false := by simpa using hz
      refine ⟨?_, ?_⟩
      · simp only [testing_tbsv, hI, Bool.false_or, hz2, Bool.false_eq_true, if_false,
          Option.isSome_none, false_iff]
        tauto
      · intro q hq
        simp [testing_tbsv, hI, hz2] at hq

/-- C4, witness: the sample arguments with `N = 0`, in the all-success
environment. -/
theorem tbsv_quick_return_witness :
    (-2147483648 ≤ ({ sample_arguments with N := 0 } : Arguments).K + 1 ∧
      ({ sample_arguments with N := 0 } : Arguments).K + 1 ≤ 2147483647) ∧
    (((testing_tbsv { sample_arguments with N := 0 }).quick.isSome = true ↔
      (({ sample_arguments with N := 0 } : Arguments).N < 0
        ∨ ({ sample_arguments with N := 0 } : Arguments).K < 0
        ∨ ({ sample_arguments with N := 0 } : Arguments).lda
            < ({ sample_arguments with N := 0 } : Arguments).K + 1
        ∨ ({ sample_arguments with N := 0 } : Arguments).incx = 0
        ∨ ({ sample_arguments with N := 0 } : Arguments).N = 0)) ∧
      (testing_tbsv { sample_arguments with N := 0 }).quick.isSome = true) :=
  ⟨by decide,
    (tbsv_quick_return { sample_arguments with N := 0 } Env.success (by decide)).1, by decide⟩

/-- C5: `testing_dgmm_strided_batched` takes its quick-return path exactly when
`M < 0` or `N < 0` or `ldc < M` or `lda < M` or `batch_count < 0` or `M = 0` or
`N = 0` or `batch_count = 0`; on that path every run executes the handle
construction and one vendor call with null A, x and C pointers, allocates no
buffer and makes no comparison, and the status expected of the call is
`HIPBLAS_STATUS_INVALID_VALUE` exactly when `M < 0` or `N < 0` or `ldc < M` or
`lda < M` or `batch_count < 0`, and `HIPBLAS_STATUS_SUCCESS` otherwise; replacing
`incx` by any value, 0 included, changes neither the validity of the arguments
nor whether the quick-return path is taken. -/
theorem dgmm_strided_batched_quick_return (arg : Arguments) (env : Env) :
    ((testing_dgmm_strided_batched arg).quick.isSome = true ↔
      (arg.M < 0 ∨ arg.N < 0 ∨ arg.ldc < arg.M ∨ arg.lda < arg.M ∨ arg.batch_count < 0
        ∨ arg.M = 0 ∨ arg.N = 0 ∨ arg.batch_count = 0)) ∧
    (∀ q, (testing_dgmm_strided_batched arg).quick = some q →
      ∃ fortran side stride_A stride_x stride_C expected,
        q = [Step.vendor "hipblasDgmmStridedBatched" fortran
              [.handle, .side side, .int arg.M, .int arg.N, .ptr .nullptr, .int arg.lda,
                .stride stride_A, .ptr .nullptr, .int arg.incx, .stride stride_x, .ptr .nullptr,
                .int arg.ldc, .stride stride_C, .int arg.batch_count]
              (.expect_status expected)] ∧
        (expected = HIPBLAS_STATUS_INVALID_VALUE ↔
          (arg.M < 0 ∨ arg.N < 0 ∨ arg.ldc < arg.M ∨ arg.lda < arg.M ∨ arg.batch_count < 0)) ∧
        (expected = HIPBLAS_STATUS_SUCCESS ↔
          ¬ (arg.M < 0 ∨ arg.N < 0 ∨ arg.ldc < arg.M ∨ arg.lda < arg.M ∨ arg.batch_count < 0)) ∧
        run env (testing_dgmm_strided_batched arg).steps = Step.local_handle :: q ∧
        vendor_calls (Step.local_handle :: q) = 1 ∧
        (Step.local_handle :: q).all (fun s => !s.is_alloc && !s.is_comparison) = true) ∧
    (∀ incx : Int,
      dgmm_strided_batched_invalid_size { arg with incx := incx }
        = dgmm_strided_batched_invalid_size arg ∧
      (testing_dgmm_strided_batched { arg with incx := incx }).quick.isSome
        = (testing_dgmm_strided_batched arg).quick.isSome) := by
  have hinv : dgmm_strided_batched_invalid_size arg = true ↔
      (arg.M < 0 ∨ arg.N < 0 ∨ arg.ldc < arg.M ∨ arg.lda < arg.M ∨ arg.batch_count < 0) := by
    simp [dgmm_strided_batched_invalid_size, or_assoc]
  have hincx : ∀ incx : Int,
      dgmm_strided_batched_invalid_size { arg with incx := incx }
        = dgmm_strided_batched_invalid_size arg ∧
      (testing_dgmm_strided_batched { arg with incx := incx }).quick.isSome
        = (testing_dgmm_strided_batched arg).quick.isSome := by
    intro incx
    have h1 : dgmm_strided_batched_invalid_size { arg with incx := incx }
        = dgmm_strided_batched_invalid_size arg := rfl
    refine ⟨h1, ?_⟩
    simp only [testing_dgmm_strided_batched, h1]
    split_ifs <;> rfl
  by_cases hI : dgmm_strided_batched_invalid_size arg = true
  · have hP := hinv.mp hI
    refine ⟨?_, ?_, hincx⟩
    · simp only [testing_dgmm_strided_batched, hI, Bool.true_or, if_true, Option.isSome_some,
        true_iff]
      tauto
    · intro q hq
      have hsteps := steps_of_quick_some _ q hq
      simp only [testing_dgmm_strided_batched, hI, Bool.true_or, if_true, Option.some.injEq] at hq
      subst hq
      refine ⟨_, _, _, _, _, _, rfl, ⟨fun _ => hP, fun _ => rfl⟩,
        ⟨fun h => (by cases h), fun h => absurd hP h⟩, ?_, ?_, ?_⟩
      · rw [hsteps]
        simp [testing_dgmm_strided_batched, run_handle_then_call]
      · simp [vendor_calls, Step.is_vendor]
      · simp [Step.is_alloc, Step.is_comparison]
  · have hP := fun h => hI (hinv.mpr h)
    simp only [Bool.not_eq_true] at hI
    by_cases hz : arg.N = 0 ∨ arg.M = 0 ∨ arg.batch_count = 0
    · have hz2 : (decide (arg.N = 0) || (decide (arg.M = 0) || decide (arg.batch_count = 0)))
          = true := by simpa using hz
      refine ⟨?_, ?_, hincx⟩
      · simp only [testing_dgmm_strided_batched, hI, Bool.false_or, Bool.or_assoc, hz2, if_true,
          Option.isSome_some, true_iff]
        tauto
      · intro q hq
        have hsteps := steps_of_quick_some _ q hq
        simp only [testing_dgmm_strided_batched, hI, Bool.false_or, Bool.or_assoc, hz2, if_true,
          Bool.false_eq_true, if_false, Option.some.injEq] at hq
        subst hq
        refine ⟨_, _, _, _, _, _, rfl, ⟨fun h => (by cases h), fun h => absurd h hP⟩,
          ⟨fun _ => hP, fun _ => rfl⟩, ?_, ?_, ?_⟩
        · rw [hsteps]
          simp [testing_dgmm_strided_batched, run_handle_then_call]
        · simp [vendor_calls, Step.is_vendor]
        · simp [Step.is_alloc, Step.is_comparison]
    · have hz2 : (decide (arg.N = 0) || (decide (arg.M = 0) || decide (arg.batch_count = 0)))
          = false := by simpa using hz
      refine ⟨?_, ?_, hincx⟩
      · simp only [testing_dgmm_strided_batched, hI, Bool.false_or, Bool.or_assoc, hz2,
          Bool.false_eq_true, if_false, Option.isSome_none, false_iff]
        tauto
      · intro q hq
        simp [testing_dgmm_strided_batched, hI, Bool.or_assoc, hz2] at hq

/-- C5, witness: the sample arguments with `incx = 0` do not take the
quick-return path, those with `M = 0` do. -/
theorem dgmm_strided_batched_quick_return_witness :
    (testing_dgmm_strided_batched { sample_arguments with incx := 0 }).quick.isSome
      = (testing_dgmm_strided_batched sample_arguments).quick.isSome ∧
    (testing_dgmm_strided_batched sample_arguments).quick.isSome = false ∧
    (testing_dgmm_strided_batched { sample_arguments with M := 0 }).quick.isSome = true :=
  ⟨((dgmm_strided_batched_quick_return sample_arguments Env.success).2.2 0).2, by decide,
    (dgmm_strided_batched_quick_return { sample_arguments with M := 0 } Env.success).1.mpr
      (by decide)⟩

/-! ## testing_asum: returned status -/

/-- C6, counterexample: with `N = 2` and `incx = 1`, which pass the initial
check, `testing_asum` returns `HIPBLAS_STATUS_INVALID_VALUE` when `hipblasAsum`
returns that status: the vendor call is made and its status forwarded. -/
theorem asum_invalid_value_without_initial_check :
    ¬ (sample_arguments.N < 0 ∨ sample_arguments.incx < 0) ∧
    (testing_asum sample_arguments asum_env_invalid_value).2
      = .returned HIPBLAS_STATUS_INVALID_VALUE ∧
    vendor_calls (testing_asum sample_arguments asum_env_invalid_value).1 = 1 ∧
    ¬ ((testing_asum sample_arguments asum_env_invalid_value).2
          = .returned HIPBLAS_STATUS_INVALID_VALUE ↔
        (sample_arguments.N < 0 ∨ sample_arguments.incx < 0)) := by
  decide

theorem asum_sizeX_nonneg (argus : Arguments) (hN : 0 ≤ argus.N) (hincx : 0 ≤ argus.incx)
    (hsize : argus.N * argus.incx ≤ 2147483647) : ¬ wrap32 (argus.N * argus.incx) < 0 := by
  have h0 : 0 ≤ argus.N * argus.incx := mul_nonneg hN hincx
  unfold wrap32
  omega

theorem asum_length_error_on_overflow :
    ¬ (({ sample_arguments with N := 65536, incx := 32768 } : Arguments).N < 0
      ∨ ({ sample_arguments with N := 65536, incx := 32768 } : Arguments).incx < 0) ∧
    testing_asum { sample_arguments with N := 65536, incx := 32768 } asum_env_invalid_value
      = ([], .length_error) := by
  decide

/-- C6, amended: when `N < 0` or `incx < 0`, `testing_asum` returns
`HIPBLAS_STATUS_INVALID_VALUE` having executed nothing (no handle, no buffer, no
vendor call); otherwise, the product `N * incx` being representable in `int`, it
returns `HIPBLAS_STATUS_INVALID_VALUE` exactly when the vendor call is reached,
returns that status, and the buffers are freed. -/
theorem asum_returns_invalid_value (argus : Arguments) (env : AsumEnv)
    (hsize : argus.N < 0 ∨ argus.incx < 0 ∨ argus.N * argus.incx ≤ 2147483647) :
    ((argus.N < 0 ∨ argus.incx < 0) →
      testing_asum argus env = ([], .returned HIPBLAS_STATUS_INVALID_VALUE)) ∧
    ((testing_asum argus env).2 = .returned HIPBLAS_STATUS_INVALID_VALUE ↔
      ((argus.N < 0 ∨ argus.incx < 0) ∨
        (env.hipMalloc_dx = true ∧ env.hipMalloc_result = true ∧ env.hipMemcpy_dx = true
          ∧ env.status = HIPBLAS_STATUS_INVALID_VALUE ∧ env.hipFree_dx = true
          ∧ env.hipFree_result = true))) := by
  constructor
  · intro h
    simp [testing_asum, h]
  · by_cases h : argus.N < 0 ∨ argus.incx < 0
    · simp [testing_asum, h]
    · have hs : ¬ wrap32 (argus.N * argus.incx) < 0 :=
        asum_sizeX_nonneg argus (by omega) (by omega) (by omega)
      rcases env with ⟨m1, m2, c1, st, c2, f1, f2⟩
      simp only [testing_asum, h, hs, if_false, false_or]
      cases m1 <;> cases m2 <;> cases c1 <;> cases c2 <;> cases f1 <;> cases f2 <;>
        cases st <;> simp

/-- C6, witness: the initial check at `N = -1`. -/
theorem asum_returns_invalid_value_witness :
    (({ sample_arguments with N := -1 } : Arguments).N < 0
      ∨ ({ sample_arguments with N := -1 } : Arguments).incx < 0
      ∨ ({ sample_arguments with N := -1 } : Arguments).N
          * ({ sample_arguments with N := -1 } : Arguments).incx ≤ 2147483647) ∧
    (({ sample_arguments with N := -1 } : Arguments).N < 0
      ∨ ({ sample_arguments with N := -1 } : Arguments).incx < 0) ∧
    testing_asum { sample_arguments with N := -1 } asum_env_invalid_value
      = ([], .returned HIPBLAS_STATUS_INVALID_VALUE) :=
  ⟨by decide, by decide,
    (asum_returns_invalid_value { sample_arguments with N := -1 } asum_env_invalid_value
      (by decide)).1 (by decide)⟩

/-- C7: for `N >= 0` and `incx >= 0` whose product `N * incx` is representable in
`int`, when every HIP runtime call succeeds `testing_asum` makes exactly one
vendor call and returns the status `s` of that call when `s` is not
`HIPBLAS_STATUS_SUCCESS`, and `HIPBLAS_STATUS_SUCCESS` when the call returns
`HIPBLAS_STATUS_SUCCESS`; whatever the HIP runtime does, a status it returns is
the status of the vendor call. -/
theorem asum_forwards_vendor_status (argus : Arguments) (env : AsumEnv)
    (hN : 0 ≤ argus.N) (hincx : 0 ≤ argus.incx)
    (hsize : argus.N * argus.incx ≤ 2147483647) :
    (env.hip_succeeds →
      vendor_calls (testing_asum argus env).1 = 1 ∧
      (env.status ≠ HIPBLAS_STATUS_SUCCESS → (testing_asum argus env).2 = .returned env.status) ∧
      (env.status = HIPBLAS_STATUS_SUCCESS →
        (testing_asum argus env).2 = .returned HIPBLAS_STATUS_SUCCESS)) ∧
    (∀ s, (testing_asum argus env).2 = .returned s → s = env.status) := by
  have h : ¬ (argus.N < 0 ∨ argus.incx < 0) := by omega
  have hs : ¬ wrap32 (argus.N * argus.incx) < 0 := asum_sizeX_nonneg argus hN hincx hsize
  rcases env with ⟨m1, m2, c1, st, c2, f1, f2⟩
  constructor
  · rintro ⟨h1, h2, h3, h4, h5, h6⟩
    simp only at h1 h2 h3 h4 h5 h6
    subst h1 h2 h3 h4 h5 h6
    simp only [testing_asum, h, hs, if_false]
    cases st <;> cases hu : argus.unit_check <;>
      simp [vendor_calls, Step.is_vendor, List.countP_cons]
  · intro s
    simp only [testing_asum, h, hs, if_false]
    cases m1 <;> cases m2 <;> cases c1 <;> cases c2 <;> cases f1 <;> cases f2 <;>
      cases st <;> simp <;> intro hs2 <;> exact hs2.symm

/-- C7, witness: the sample arguments with a vendor call that returns
`HIPBLAS_STATUS_INVALID_VALUE`. -/
theorem asum_forwards_vendor_status_witness :
    (0 ≤ sample_arguments.N ∧ 0 ≤ sample_arguments.incx ∧
      sample_arguments.N * sample_arguments.incx ≤ 2147483647 ∧
      asum_env_invalid_value.hip_succeeds) ∧
    (testing_asum sample_arguments asum_env_invalid_value).2
      = .returned asum_env_invalid_value.status :=
  ⟨⟨by decide, by decide, by decide, ⟨rfl, rfl, rfl, rfl, rfl, rfl⟩⟩,
    ((asum_forwards_vendor_status sample_arguments asum_env_invalid_value (by decide)
      (by decide) (by decide)).1 ⟨rfl, rfl, rfl, rfl, rfl, rfl⟩).2.1 (by decide)⟩

/-! ## testing_trmm_bad_arg against the size check of testing_trmm -/

/-- C8: in each pass of `testing_trmm_bad_arg` (either pointer mode, in place or
not), the calls under "invalid sizes" and "invalid leading dims" are the
baseline `M = 100`, `N = 101`, `lda = 102`, `ldb = 103`, `ldOut` with `M = -1`;
`N = -1`; `lda = M - 1`; side right and `lda = N - 1`; `ldb = M - 1`;
`ldOut = M - 1`; each expects `HIPBLAS_STATUS_INVALID_VALUE` and its sizes are
classified invalid by the early-return predicate of `testing_trmm`, which
classifies the baseline as valid; the predicate is the one that decides the
quick return of `testing_trmm`. -/
theorem trmm_bad_arg_sizes_classified_invalid (fortran inplace : Bool)
    (pointer_mode : hipblasPointerMode_t) (nvcc : Bool) (arg : Arguments) :
    ((TrmmBadArg.invalid_sizes ⟨fortran, inplace, pointer_mode, HIPBLAS_SIDE_LEFT,
          HIPBLAS_FILL_MODE_LOWER, HIPBLAS_OP_N, HIPBLAS_DIAG_NON_UNIT, 100, 101, 102, 103, 104⟩
        ++ TrmmBadArg.invalid_leading_dims ⟨fortran, inplace, pointer_mode, HIPBLAS_SIDE_LEFT,
          HIPBLAS_FILL_MODE_LOWER, HIPBLAS_OP_N, HIPBLAS_DIAG_NON_UNIT, 100, 101, 102, 103,
          104⟩).map
        (fun s => (trmm_size_args s, expected_status s))
      = [(some (HIPBLAS_SIDE_LEFT, -1, 101, 102, 103, if inplace then 103 else 104),
            some HIPBLAS_STATUS_INVALID_VALUE),
          (some (HIPBLAS_SIDE_LEFT, 100, -1, 102, 103, if inplace then 103 else 104),
            some HIPBLAS_STATUS_INVALID_VALUE),
          (some (HIPBLAS_SIDE_LEFT, 100, 101, 99, 103, if inplace then 103 else 104),
            some HIPBLAS_STATUS_INVALID_VALUE),
          (some (HIPBLAS_SIDE_RIGHT, 100, 101, 100, 103, if inplace then 103 else 104),
            some HIPBLAS_STATUS_INVALID_VALUE),
          (some (HIPBLAS_SIDE_LEFT, 100, 101, 102, 99, if inplace then 103 else 104),
            some HIPBLAS_STATUS_INVALID_VALUE),
          (some (HIPBLAS_SIDE_LEFT, 100, 101, 102, 103, 99),
            some HIPBLAS_STATUS_INVALID_VALUE)]) ∧
    trmm_invalid_size HIPBLAS_SIDE_LEFT (-1) 101 102 103 (if inplace then 103 else 104) = true ∧
    trmm_invalid_size HIPBLAS_SIDE_LEFT 100 (-1) 102 103 (if inplace then 103 else 104) = true ∧
    trmm_invalid_size HIPBLAS_SIDE_LEFT 100 101 99 103 (if inplace then 103 else 104) = true ∧
    trmm_invalid_size HIPBLAS_SIDE_RIGHT 100 101 100 103 (if inplace then 103 else 104) = true ∧
    trmm_invalid_size HIPBLAS_SIDE_LEFT 100 101 102 99 (if inplace then 103 else 104) = true ∧
    trmm_invalid_size HIPBLAS_SIDE_LEFT 100 101 102 103 99 = true ∧
    trmm_invalid_size HIPBLAS_SIDE_LEFT 100 101 102 103 (if inplace then 103 else 104) = false ∧
    (∀ s, s ∈ TrmmBadArg.invalid_sizes ⟨arg.fortran, arg.inplace, pointer_mode,
            HIPBLAS_SIDE_LEFT, HIPBLAS_FILL_MODE_LOWER, HIPBLAS_OP_N, HIPBLAS_DIAG_NON_UNIT, 100,
            101, 102, 103, 104⟩
          ++ TrmmBadArg.invalid_leading_dims ⟨arg.fortran, arg.inplace, pointer_mode,
            HIPBLAS_SIDE_LEFT, HIPBLAS_FILL_MODE_LOWER, HIPBLAS_OP_N, HIPBLAS_DIAG_NON_UNIT, 100,
            101, 102, 103, 104⟩ →
      s ∈ testing_trmm_bad_arg arg nvcc) ∧
    ((testing_trmm arg).quick.isSome
      = trmm_invalid_size (char2hipblas_side arg.side) arg.M arg.N arg.lda arg.ldb
          (if arg.inplace then arg.ldb else arg.ldc)) := by
  refine ⟨?_, ?_, ?_, ?_, ?_, ?_, ?_, ?_, ?_, ?_⟩
  · cases inplace <;>
      simp [TrmmBadArg.invalid_sizes, TrmmBadArg.invalid_leading_dims, trmm_call, trmm_size_args,
        expected_status, TrmmBadArg.ldOut, wrap32]
  · cases inplace <;> decide
  · cases inplace <;> decide
  · cases inplace <;> decide
  · cases inplace <;> decide
  · cases inplace <;> decide
  · decide
  · cases inplace <;> decide
  · intro s hs
    simp only [testing_trmm_bad_arg, List.mem_flatMap]
    refine ⟨pointer_mode, by cases pointer_mode <;> simp, ?_⟩
    simp only [TrmmBadArg.body, List.mem_append] at hs ⊢
    tauto
  · simp only [testing_trmm]
    split_ifs <;> simp_all

/-! ## Quick-return paths of the `_ex` tests -/

/-- C9: when `N <= 0`, every run of `testing_axpy_ex` and of `testing_rot_ex`
consists of the handle construction and one vendor call under
`ASSERT_HIPBLAS_SUCCESS`, with `N`, the increments and the data types of the
argument set and `nullptr` for every operand; the same holds of
`testing_axpy_batched_ex` when `N <= 0` or `batch_count <= 0`, with `batch_count`
passed unchanged too; no buffer is allocated and no comparison made. -/
theorem ex_tests_quick_return (arg : Arguments) (env : Env) :
    (arg.N ≤ 0 →
      run env (testing_axpy_ex arg).steps
        = [.local_handle,
            .vendor "hipblasAxpyEx" arg.fortran
              [.handle, .int arg.N, .ptr .nullptr, .datatype arg.a_type, .ptr .nullptr,
                .datatype arg.b_type, .int arg.incx, .ptr .nullptr, .datatype arg.c_type,
                .int arg.incy, .datatype arg.compute_type] .assert_success] ∧
      vendor_calls (run env (testing_axpy_ex arg).steps) = 1 ∧
      (run env (testing_axpy_ex arg).steps).all (fun s => !s.is_alloc && !s.is_comparison)
        = true) ∧
    ((arg.N ≤ 0 ∨ arg.batch_count ≤ 0) →
      run env (testing_axpy_batched_ex arg).steps
        = [.local_handle,
            .vendor "hipblasAxpyBatchedEx" arg.fortran
              [.handle, .int arg.N, .ptr .nullptr, .datatype arg.a_type, .ptr .nullptr,
                .datatype arg.b_type, .int arg.incx, .ptr .nullptr, .datatype arg.c_type,
                .int arg.incy, .int arg.batch_count, .datatype arg.compute_type]
              .assert_success] ∧
      vendor_calls (run env (testing_axpy_batched_ex arg).steps) = 1 ∧
      (run env (testing_axpy_batched_ex arg).steps).all
          (fun s => !s.is_alloc && !s.is_comparison) = true) ∧
    (arg.N ≤ 0 →
      run env (testing_rot_ex arg).steps
        = [.local_handle,
            .vendor "hipblasRotEx" arg.fortran
              [.handle, .int arg.N, .ptr .nullptr, .datatype arg.a_type, .int arg.incx,
                .ptr .nullptr, .datatype arg.b_type, .int arg.incy, .ptr .nullptr, .ptr .nullptr,
                .datatype arg.c_type, .datatype arg.compute_type] .assert_success] ∧
      vendor_calls (run env (testing_rot_ex arg).steps) = 1 ∧
      (run env (testing_rot_ex arg).steps).all (fun s => !s.is_alloc && !s.is_comparison)
        = true) := by
  refine ⟨?_, ?_, ?_⟩
  · intro h
    have hs : (testing_axpy_ex arg).steps
        = [.local_handle,
            .vendor "hipblasAxpyEx" arg.fortran
              [.handle, .int arg.N, .ptr .nullptr, .datatype arg.a_type, .ptr .nullptr,
                .datatype arg.b_type, .int arg.incx, .ptr .nullptr, .datatype arg.c_type,
                .int arg.incy, .datatype arg.compute_type] .assert_success] := by
      simp [TestFn.steps, testing_axpy_ex, h]
    rw [hs, run_handle_then_call]
    simp [vendor_calls, Step.is_vendor, Step.is_alloc, Step.is_comparison]
  · intro h
    have h2 : (decide (arg.N ≤ 0) || decide (arg.batch_count ≤ 0)) = true := by simpa using h
    have hs : (testing_axpy_batched_ex arg).steps
        = [.local_handle,
            .vendor "hipblasAxpyBatchedEx" arg.fortran
              [.handle, .int arg.N, .ptr .nullptr, .datatype arg.a_type, .ptr .nullptr,
                .datatype arg.b_type, .int arg.incx, .ptr .nullptr, .datatype arg.c_type,
                .int arg.incy, .int arg.batch_count, .datatype arg.compute_type]
              .assert_success] := by
      simp only [TestFn.steps, testing_axpy_batched_ex, h2, if_true]
      rfl
    rw [hs, run_handle_then_call]
    simp [vendor_calls, Step.is_vendor, Step.is_alloc, Step.is_comparison]
  · intro h
    have hs : (testing_rot_ex arg).steps
        = [.local_handle,
            .vendor "hipblasRotEx" arg.fortran
              [.handle, .int arg.N, .ptr .nullptr, .datatype arg.a_type, .int arg.incx,
                .ptr .nullptr, .datatype arg.b_type, .int arg.incy, .ptr .nullptr, .ptr .nullptr,
                .datatype arg.c_type, .datatype arg.compute_type] .assert_success] := by
      simp [TestFn.steps, testing_rot_ex, h]
    rw [hs, run_handle_then_call]
    simp [vendor_calls, Step.is_vendor, Step.is_alloc, Step.is_comparison]

/-- C9, witness: the sample arguments with `N = 0`, in the all-success environment. -/
theorem ex_tests_quick_return_witness :
    ({ sample_arguments with N := 0 } : Arguments).N ≤ 0 ∧
    vendor_calls (run Env.success (testing_axpy_ex { sample_arguments with N := 0 }).steps) = 1 ∧
    vendor_calls (run Env.success (testing_axpy_batched_ex { sample_arguments with N := 0 }).steps)
      = 1 ∧
    vendor_calls (run Env.success (testing_rot_ex { sample_arguments with N := 0 }).steps) = 1 :=
  ⟨by decide,
    ((ex_tests_quick_return { sample_arguments with N := 0 } Env.success).1 (by decide)).2.1,
    ((ex_tests_quick_return { sample_arguments with N := 0 } Env.success).2.1
      (Or.inl (by decide))).2.1,
    ((ex_tests_quick_return { sample_arguments with N := 0 } Env.success).2.2 (by decide)).2.1⟩
/-! ## The result buffer in the quick-return block of testing_dot_batched_ex -/

/-- C13: `hipblasStatusToString` maps every `hipblasStatus_t` enumerator to the
spelling of that enumerator's name (so different enumerators have different
strings), `hipblasStatusToString(HIPBLAS_STATUS_ALLOC_FAILED)` is exactly
`"HIPBLAS_STATUS_ALLOC_FAILED"`, and the test `statusToString` passes. -/
theorem hipblasStatusToString_spells_name :
    (∀ s : hipblasStatus_t, (s, hipblasStatusToString s) ∈ hipblasStatus_enumerators) ∧
    (∀ p ∈ hipblasStatus_enumerators, hipblasStatusToString p.1 = p.2) ∧
    (∀ s t : hipblasStatus_t, hipblasStatusToString s = hipblasStatusToString t → s = t) ∧
    hipblasStatusToString HIPBLAS_STATUS_ALLOC_FAILED = "HIPBLAS_STATUS_ALLOC_FAILED" ∧
    test_statusToString = true := by
  refine ⟨?_, ?_, ?_, rfl, by decide⟩
  · intro s
    cases s <;> decide
  · decide
  · intro s t
    cases s <;> cases t <;> decide

/-! ## Unit checks before norm checks -/

theorem timing_loop_no_check (cold_iters runs : Int) (fn : String) (f : Bool) (args : List Arg)
    (e : Expect) :
    (timing_loop cold_iters runs (.vendor fn f args e)).all
      (fun s => !(s.is_unit_check || s.is_norm_check)) = true := by
  unfold timing_loop
  simp only [List.all_eq_true, List.mem_flatMap, List.mem_range]
  rintro s ⟨iter, -, hs⟩
  split_ifs at hs <;> simp at hs <;> rcases hs with rfl | rfl <;> rfl

theorem unit_check_pairs_append (a b : List Step) :
    unit_check_pairs (a ++ b) = unit_check_pairs a ++ unit_check_pairs b := by
  induction a with
  | nil => rfl
  | cons s rest ih => cases s <;> simp [unit_check_pairs, ih]

theorem norm_check_pairs_append (a b : List Step) :
    norm_check_pairs (a ++ b) = norm_check_pairs a ++ norm_check_pairs b := by
  induction a with
  | nil => rfl
  | cons s rest ih => cases s <;> simp [norm_check_pairs, ih]

theorem check_pairs_of_no_check (l : List Step)
    (h : l.all (fun s => !(s.is_unit_check || s.is_norm_check)) = true) :
    unit_check_pairs l = [] ∧ norm_check_pairs l = [] := by
  induction l with
  | nil => exact ⟨rfl, rfl⟩
  | cons s rest ih =>
    simp only [List.all_cons, Bool.and_eq_true] at h
    have ih2 := ih h.2
    have h1 := h.1
    cases s <;>
      first
      | (simp only [unit_check_pairs, norm_check_pairs]; exact ih2)
      | (simp [Step.is_unit_check, Step.is_norm_check] at h1)

theorem timing_section_no_check (bld : Build) (r : Routine) (arg : Arguments) :
    unit_check_pairs (testing bld r arg).timing = [] ∧
    norm_check_pairs (testing bld r arg).timing = [] := by
  have hloop := fun (c r : Int) (fn : String) (f : Bool) (args : List Arg) (e : Expect) =>
    check_pairs_of_no_check _ (timing_loop_no_check c r fn f args e)
  cases ht : arg.timing
  · cases r <;> simp [testing, testing_rotg, testing_rotg_strided_batched,
      testing_syr_strided_batched, testing_tbsv, testing_dgmm_strided_batched,
      testing_geam_batched, testing_symm, testing_trmm, testing_axpy_ex, testing_axpy_batched_ex,
      testing_dot_batched_ex, testing_gemm_batched_ex, testing_rot_ex, ht, unit_check_pairs,
      norm_check_pairs]
  · cases r
    case gemm_batched_ex =>
      cases h3 : arg.with_flags <;>
        simp [testing, testing_gemm_batched_ex, unit_check_pairs, norm_check_pairs,
          unit_check_pairs_append, norm_check_pairs_append, hloop, h3, ht]
    all_goals
      simp [testing, testing_rotg, testing_rotg_strided_batched, testing_syr_strided_batched,
        testing_tbsv, testing_dgmm_strided_batched, testing_geam_batched, testing_symm,
        testing_trmm, testing_axpy_ex, testing_axpy_batched_ex, testing_dot_batched_ex,
        testing_rot_ex, trmm_call, unit_check_pairs, norm_check_pairs,
        unit_check_pairs_append, norm_check_pairs_append, hloop, ht]

theorem setup_section_no_check (bld : Build) (r : Routine) (arg : Arguments) :
    unit_check_pairs ((testing bld r arg).entry ++ (testing bld r arg).setup) = [] ∧
    norm_check_pairs ((testing bld r arg).entry ++ (testing bld r arg).setup) = [] := by
  have hflat : ∀ n : Nat,
      unit_check_pairs ((List.range n).flatMap fun _ =>
        [Step.transfer_from "dA" "hA", Step.transfer_from "dB" "hB"]) = [] ∧
      norm_check_pairs ((List.range n).flatMap fun _ =>
        [Step.transfer_from "dA" "hA", Step.transfer_from "dB" "hB"]) = [] := by
    intro n
    apply check_pairs_of_no_check
    simp only [List.all_eq_true, List.mem_flatMap, List.mem_range]
    rintro s ⟨_, -, hs⟩
    simp at hs
    rcases hs with rfl | rfl <;> rfl
  cases r
  case gemm_batched_ex =>
    simp [testing, testing_gemm_batched_ex, unit_check_pairs, norm_check_pairs,
      unit_check_pairs_append, norm_check_pairs_append, hflat]
  case trmm =>
    cases hi : arg.inplace <;>
      simp [testing, testing_trmm, unit_check_pairs, norm_check_pairs, hi]
  case tbsv =>
    simp only [testing, testing_tbsv]
    split_ifs <;> simp [unit_check_pairs, norm_check_pairs]
  all_goals
    simp [testing, testing_rotg, testing_rotg_strided_batched, testing_syr_strided_batched,
      testing_dgmm_strided_batched, testing_geam_batched, testing_symm,
      testing_axpy_ex, testing_axpy_batched_ex, testing_dot_batched_ex,
      testing_rot_ex, unit_check_pairs, norm_check_pairs]

theorem check_section_units_then_norms (bld : Build) (r : Routine) (arg : Arguments)
    (hu : arg.unit_check = true) (hn : arg.norm_check = true) :
    after_unit_then_norm_checks (testing bld r arg).check = [] := by
  cases r
  case gemm_batched_ex =>
    cases h3 : arg.with_flags <;> cases h2 : bld.gfx11_low_precision <;>
      simp [testing, testing_gemm_batched_ex, hu, hn, h2, h3, after_unit_then_norm_checks,
        Step.is_unit_check, Step.is_norm_check, List.dropWhile_cons]
  case dot_batched_ex =>
    cases h1 : bld.Tr_is_half <;>
      simp [testing, testing_dot_batched_ex, hu, hn, h1, after_unit_then_norm_checks,
        Step.is_unit_check, Step.is_norm_check, List.dropWhile_cons]
  all_goals
    simp [testing, testing_rotg, testing_rotg_strided_batched, testing_syr_strided_batched,
      testing_tbsv, testing_dgmm_strided_batched, testing_geam_batched, testing_symm,
      testing_trmm, testing_axpy_ex, testing_axpy_batched_ex, testing_rot_ex, trmm_call, hu, hn,
      after_unit_then_norm_checks, Step.is_unit_check, Step.is_norm_check, List.dropWhile_cons]

theorem check_section_pairs (bld : Build) (r : Routine) (arg : Arguments)
    (hu : arg.unit_check = true) (hn : arg.norm_check = true) :
    norm_check_pairs (testing bld r arg).check = unit_check_pairs (testing bld r arg).check ∧
    (r ≠ .tbsv → unit_check_pairs (testing bld r arg).check ≠ []) := by
  cases r
  case gemm_batched_ex =>
    cases h3 : arg.with_flags <;> cases h2 : bld.gfx11_low_precision <;>
      simp [testing, testing_gemm_batched_ex, hu, hn, h2, h3, norm_check_pairs, unit_check_pairs]
  case dot_batched_ex =>
    cases h1 : bld.Tr_is_half <;>
      simp [testing, testing_dot_batched_ex, hu, hn, h1, norm_check_pairs, unit_check_pairs]
  all_goals
    simp [testing, testing_rotg, testing_rotg_strided_batched, testing_syr_strided_batched,
      testing_tbsv, testing_dgmm_strided_batched, testing_geam_batched, testing_symm,
      testing_trmm, testing_axpy_ex, testing_axpy_batched_ex, testing_rot_ex, trmm_call, hu, hn,
      norm_check_pairs, unit_check_pairs]

theorem unit_check_pairs_of_all_norm (l : List Step) (h : l.all Step.is_norm_check = true) :
    unit_check_pairs l = [] := by
  induction l with
  | nil => rfl
  | cons s rest ih =>
    simp only [List.all_cons, Bool.and_eq_true] at h
    have ih2 := ih h.2
    have h1 := h.1
    cases s <;>
      first
      | (simp only [unit_check_pairs]; exact ih2)
      | (simp [Step.is_norm_check] at h1)

theorem norm_check_pairs_of_all_unit (l : List Step) (h : l.all Step.is_unit_check = true) :
    norm_check_pairs l = [] := by
  induction l with
  | nil => rfl
  | cons s rest ih =>
    simp only [List.all_cons, Bool.and_eq_true] at h
    have ih2 := ih h.2
    have h1 := h.1
    cases s <;>
      first
      | (simp only [norm_check_pairs]; exact ih2)
      | (simp [Step.is_unit_check] at h1)

theorem split_of_after_unit_then_norm_checks (l : List Step)
    (h : after_unit_then_norm_checks l = []) :
    ∃ pre units norms, l = pre ++ units ++ norms ∧
      pre.all (fun s => !(s.is_unit_check || s.is_norm_check)) = true ∧
      units.all Step.is_unit_check = true ∧ norms.all Step.is_norm_check = true := by
  unfold after_unit_then_norm_checks at h
  have key : ∀ (p : Step → Bool) (l : List Step) (s : Step), s ∈ l.takeWhile p → p s = true :=
    fun p l s hs => List.mem_takeWhile_imp hs
  refine ⟨l.takeWhile (fun s => !(s.is_unit_check || s.is_norm_check)),
    (l.dropWhile (fun s => !(s.is_unit_check || s.is_norm_check))).takeWhile Step.is_unit_check,
    ((l.dropWhile (fun s => !(s.is_unit_check || s.is_norm_check))).dropWhile
      Step.is_unit_check).takeWhile Step.is_norm_check, ?_, ?_, ?_, ?_⟩
  · have h3 := List.takeWhile_append_dropWhile Step.is_norm_check
      ((l.dropWhile (fun s => !(s.is_unit_check || s.is_norm_check))).dropWhile
        Step.is_unit_check)
    rw [h, List.append_nil] at h3
    rw [List.append_assoc, h3, List.takeWhile_append_dropWhile,
      List.takeWhile_append_dropWhile]
  · rw [List.all_eq_true]
    intro s hs
    exact key (fun s => !(s.is_unit_check || s.is_norm_check)) l s hs
  · rw [List.all_eq_true]
    intro s hs
    exact List.mem_takeWhile_imp hs
  · rw [List.all_eq_true]
    intro s hs
    exact List.mem_takeWhile_imp hs

/-- C14: in every test function, on an argument set that passes the size check
with `unit_check` and `norm_check` both set, a run in which every call succeeds
executes the whole function; no unit (or near) check and no norm check occurs
outside the checking section, and the checking section consists of steps that
are not comparisons, followed by the unit (or near) checks, followed by the
norm checks and nothing else, so every unit check precedes every norm check;
the norm checks are given, in the same order, the `(gold, result)` buffer pairs
the unit checks read; except in `testing_tbsv`, which calls neither
`unit_check_general`, `near_check_general` nor `norm_check_general`, there is
at least one unit check. -/
theorem unit_checks_precede_norm_checks (bld : Build) (r : Routine) (arg : Arguments) (env : Env)
    (hq : (testing bld r arg).quick = none)
    (hu : arg.unit_check = true) (hn : arg.norm_check = true)
    (henv : env.all_succeed) :
    run env (testing bld r arg).steps
        = (testing bld r arg).entry
          ++ ((testing bld r arg).setup ++ (testing bld r arg).check ++ (testing bld r arg).timing) ∧
    unit_check_pairs ((testing bld r arg).entry ++ (testing bld r arg).setup) = [] ∧
    norm_check_pairs ((testing bld r arg).entry ++ (testing bld r arg).setup) = [] ∧
    unit_check_pairs (testing bld r arg).timing = [] ∧
    norm_check_pairs (testing bld r arg).timing = [] ∧
    (∃ pre units norms, (testing bld r arg).check = pre ++ units ++ norms ∧
      pre.all (fun s => !(s.is_unit_check || s.is_norm_check)) = true ∧
      units.all Step.is_unit_check = true ∧ norms.all Step.is_norm_check = true ∧
      norm_check_pairs norms = unit_check_pairs units ∧
      (r ≠ .tbsv → units ≠ [])) := by
  refine ⟨?_, (setup_section_no_check bld r arg).1, (setup_section_no_check bld r arg).2,
    (timing_section_no_check bld r arg).1, (timing_section_no_check bld r arg).2, ?_⟩
  · rw [run_of_all_succeed env henv, steps_of_quick_none _ hq]
  · obtain ⟨pre, units, norms, hsplit, hpre, hunits, hnorms⟩ :=
      split_of_after_unit_then_norm_checks _ (check_section_units_then_norms bld r arg hu hn)
    have hp := check_section_pairs bld r arg hu hn
    rw [hsplit] at hp
    simp only [unit_check_pairs_append, norm_check_pairs_append,
      (check_pairs_of_no_check pre hpre).1, (check_pairs_of_no_check pre hpre).2,
      unit_check_pairs_of_all_norm norms hnorms, norm_check_pairs_of_all_unit units hunits,
      List.nil_append, List.append_nil] at hp
    refine ⟨pre, units, norms, hsplit, hpre, hunits, hnorms, hp.1, ?_⟩
    intro hr hempty
    apply hp.2 hr
    rw [hempty]
    rfl

/-- C14, witness: `testing_gemm_batched_ex` on the sample arguments in the
all-success environment. -/
theorem unit_checks_precede_norm_checks_witness :
    ((testing sample_build .gemm_batched_ex sample_arguments).quick = none ∧
      sample_arguments.unit_check = true ∧ sample_arguments.norm_check = true ∧
      Env.success.all_succeed) ∧
    (∃ pre units norms,
      (testing sample_build .gemm_batched_ex sample_arguments).check = pre ++ units ++ norms ∧
      pre.all (fun s => !(s.is_unit_check || s.is_norm_check)) = true ∧
      units.all Step.is_unit_check = true ∧ norms.all Step.is_norm_check = true ∧
      norm_check_pairs norms = unit_check_pairs units ∧
      (Routine.gemm_batched_ex ≠ .tbsv → units ≠ [])) :=
  ⟨⟨by decide, rfl, rfl, success_all_succeed⟩,
    (unit_checks_precede_norm_checks sample_build .gemm_batched_ex sample_arguments Env.success
      (by decide) rfl rfl success_all_succeed).2.2.2.2.2⟩

/-! ## The output size of testing_trmm -/

theorem trmm_out_size_of_no_overflow (arg : Arguments)
    (h0 : 0 ≤ (if arg.inplace then arg.ldb else arg.ldc) * arg.N)
    (h1 : (if arg.inplace then arg.ldb else arg.ldc) * arg.N ≤ 2147483647) :
    host_vector_size "hOut_host" (testing_trmm arg).setup
      = some (((if arg.inplace then arg.ldb else arg.ldc) * arg.N).toNat) := by
  have hw : wrap32 ((if arg.inplace then arg.ldb else arg.ldc) * arg.N)
      = (if arg.inplace then arg.ldb else arg.ldc) * arg.N := by
    unfold wrap32
    omega
  simp only [testing_trmm, host_vector_size, hw]
  simp only [List.cons_append, host_vector_size, String.reduceEq, if_false, if_true,
    Option.some.injEq]
  exact size_t_of_nonneg _ h0 h1

/-- C19, at the failing input: with `inplace` set, `M = 1`, `N = 32768`,
`lda = 1`, `ldb = 65536`, the arguments pass the size check of `testing_trmm`;
`B_size`, the size of `hB` and `dB`, is `2 ^ 31`, while `out_size`, the size of
`hOut_host` and the element count of the copies from the device into
`hOut_host` and `hOut_device`, is `2 ^ 64 - 2 ^ 31`: the `int` product
`ldOut * N` wraps before it is converted to `size_t`. -/
theorem trmm_out_size_wraps :
    (testing_trmm trmm_overflow_arguments).quick = none ∧
    host_vector_size "hB" (testing_trmm trmm_overflow_arguments).setup = some 2147483648 ∧
    host_vector_size "hOut_host" (testing_trmm trmm_overflow_arguments).setup
      = some 18446744071562067968 ∧
    host_vector_size "hOut_device" (testing_trmm trmm_overflow_arguments).setup
      = some 18446744071562067968 ∧
    hipMemcpy_counts "hOut_host" (testing_trmm trmm_overflow_arguments).check
      = [18446744071562067968] ∧
    hipMemcpy_counts "hOut_device" (testing_trmm trmm_overflow_arguments).check
      = [18446744071562067968] ∧
    size_t_mul (size_t trmm_overflow_arguments.ldb) (size_t trmm_overflow_arguments.N)
      = 2147483648 := by
  decide

/-! ## The initialisation of A in testing_symm -/

/-- C17, at the failing input: with side left, `M = 2`, `N = 5` and
`lda = ldb = ldc = 2`, the arguments pass the size check of `testing_symm`
(`K = 2`, `A_size = 4`), and the initialisation of `hA` is passed `rows = 5`,
`K = 2` columns and leading dimension 2: the row count exceeds `lda`, and the
initialised index `4 + 1 * 2 = 6` is not below `A_size`. -/
theorem symm_init_rows_exceed_lda :
    (testing_symm symm_wide_arguments).quick = none ∧
    host_vector_size "hA" (testing_symm symm_wide_arguments).setup = some 4 ∧
    init_args "hA" (testing_symm symm_wide_arguments).setup = some (5, 2, 2) ∧
    ¬ ((5 : Int) ≤ symm_wide_arguments.lda) ∧
    (6 : Int) ∈ init_matrix_indices 5 2 2 ∧
    ¬ ((6 : Int) < 4) := by
  decide
/-! ## Per-batch offsets of testing_rotg_strided_batched -/

theorem size_t_eq_toNat (x : Int) (h0 : 0 ≤ x) (h1 : x < 18446744073709551616) :
    size_t x = x.toNat := by
  unfold size_t
  rw [Int.emod_eq_of_lt h0 h1]

theorem wrap64_eq_self (x : Int) (h0 : -9223372036854775808 ≤ x)
    (h1 : x < 9223372036854775808) : wrap64 x = x := by
  unfold wrap64
  omega

/-- C20, counterexample: with `batch_count = 2` and `stride_scale = 0` the stride
is 0, which is non-negative; the host buffers have size 0, so the offset 0 of
batch 0 is not a valid index, and batches 0 and 1 have the same offset. -/
theorem rotg_strided_batched_zero_stride :
    0 < ({ sample_arguments with stride_scale := 0 } : Arguments).batch_count ∧
    0 ≤ rotg_strided_batched_stride { sample_arguments with stride_scale := 0 } ∧
    (testing_rotg_strided_batched { sample_arguments with stride_scale := 0 }).quick = none ∧
    host_vector_size "ha"
        (testing_rotg_strided_batched { sample_arguments with stride_scale := 0 }).setup
      = some 0 ∧
    rotg_strided_batched_size { sample_arguments with stride_scale := 0 } = 0 ∧
    ¬ (rotg_strided_batched_offset { sample_arguments with stride_scale := 0 } 0
        < (rotg_strided_batched_size { sample_arguments with stride_scale := 0 } : Int)) ∧
    rotg_strided_batched_offset { sample_arguments with stride_scale := 0 } 0
      = rotg_strided_batched_offset { sample_arguments with stride_scale := 0 } 1 := by
  decide

/-- C20, amended: in `testing_rotg_strided_batched`, for every `batch_count > 0`
and every positive stride obtained by truncating `stride_scale` to an integer
(the product `stride * batch_count` being representable in `hipblasStride`),
the host buffers have `stride * batch_count` elements, each per-batch offset
`b * stride` with `0 <= b < batch_count` is a valid index into them, and the
offsets of two different batches are different. -/
theorem rotg_strided_batched_offsets_valid (arg : Arguments)
    (hb : 0 < arg.batch_count) (hbi : arg.batch_count ≤ 2147483647)
    (hs : 0 < rotg_strided_batched_stride arg)
    (hno : rotg_strided_batched_stride arg * arg.batch_count < 9223372036854775808) :
    (testing_rotg_strided_batched arg).quick = none ∧
    host_vector_size "ha" (testing_rotg_strided_batched arg).setup
      = some (rotg_strided_batched_size arg) ∧
    host_vector_size "hb" (testing_rotg_strided_batched arg).setup
      = some (rotg_strided_batched_size arg) ∧
    host_vector_size "hc" (testing_rotg_strided_batched arg).setup
      = some (rotg_strided_batched_size arg) ∧
    host_vector_size "hs" (testing_rotg_strided_batched arg).setup
      = some (rotg_strided_batched_size arg) ∧
    (rotg_strided_batched_size arg : Int) = rotg_strided_batched_stride arg * arg.batch_count ∧
    (∀ b : Int, 0 ≤ b → b < arg.batch_count →
      0 ≤ rotg_strided_batched_offset arg b ∧
      rotg_strided_batched_offset arg b < (rotg_strided_batched_size arg : Int)) ∧
    (∀ b b' : Int, 0 ≤ b → b < arg.batch_count → 0 ≤ b' → b' < arg.batch_count → b ≠ b' →
      rotg_strided_batched_offset arg b ≠ rotg_strided_batched_offset arg b') := by
  have hsb : rotg_strided_batched_stride arg ≤ rotg_strided_batched_stride arg * arg.batch_count :=
    le_mul_of_one_le_right hs.le (by omega)
  have hsize : (rotg_strided_batched_size arg : Int)
      = rotg_strided_batched_stride arg * arg.batch_count := by
    unfold rotg_strided_batched_size size_t_mul
    rw [size_t_eq_toNat _ hs.le (by omega), size_t_eq_toNat _ hb.le (by omega)]
    have hprod : 0 ≤ rotg_strided_batched_stride arg * arg.batch_count :=
      mul_nonneg hs.le hb.le
    have hcast : (((rotg_strided_batched_stride arg).toNat * arg.batch_count.toNat : Nat) : Int)
        = rotg_strided_batched_stride arg * arg.batch_count := by
      rw [Nat.cast_mul, Int.toNat_of_nonneg hs.le, Int.toNat_of_nonneg hb.le]
    rw [Int.natCast_mod, hcast]
    exact Int.emod_eq_of_lt hprod (by omega)
  have hoff : ∀ b : Int, 0 ≤ b → b < arg.batch_count →
      rotg_strided_batched_offset arg b = b * rotg_strided_batched_stride arg := by
    intro b h0 h1
    have h2 : 0 ≤ b * rotg_strided_batched_stride arg := mul_nonneg h0 hs.le
    have h3 : b * rotg_strided_batched_stride arg
        ≤ arg.batch_count * rotg_strided_batched_stride arg :=
      mul_le_mul_of_nonneg_right h1.le hs.le
    unfold rotg_strided_batched_offset
    exact wrap64_eq_self _ (by omega) (by rw [mul_comm arg.batch_count] at h3; omega)
  have hq : (testing_rotg_strided_batched arg).quick = none := by
    simp [testing_rotg_strided_batched]
    omega
  refine ⟨hq, ?_, ?_, ?_, ?_, hsize, ?_, ?_⟩
  · simp [testing_rotg_strided_batched, host_vector_size, rotg_strided_batched_size,
      rotg_strided_batched_stride]
  · simp [testing_rotg_strided_batched, host_vector_size, rotg_strided_batched_size,
      rotg_strided_batched_stride]
  · simp [testing_rotg_strided_batched, host_vector_size, rotg_strided_batched_size,
      rotg_strided_batched_stride]
  · simp [testing_rotg_strided_batched, host_vector_size, rotg_strided_batched_size,
      rotg_strided_batched_stride]
  · intro b h0 h1
    rw [hoff b h0 h1, hsize]
    refine ⟨mul_nonneg h0 hs.le, ?_⟩
    rw [mul_comm]
    exact mul_lt_mul_of_pos_left h1 hs
  · intro b b' h0 h1 h0' h1' hne
    rw [hoff b h0 h1, hoff b' h0' h1']
    intro heq
    exact hne (mul_right_cancel₀ hs.ne' heq)

/-- C20, witness: the sample arguments (`batch_count = 2`, `stride_scale = 1`). -/
theorem rotg_strided_batched_offsets_valid_witness :
    (0 < sample_arguments.batch_count ∧ sample_arguments.batch_count ≤ 2147483647 ∧
      0 < rotg_strided_batched_stride sample_arguments ∧
      rotg_strided_batched_stride sample_arguments * sample_arguments.batch_count
        < 9223372036854775808) ∧
    (∀ b : Int, 0 ≤ b → b < sample_arguments.batch_count →
      0 ≤ rotg_strided_batched_offset sample_arguments b ∧
      rotg_strided_batched_offset sample_arguments b
        < (rotg_strided_batched_size sample_arguments : Int)) :=
  ⟨⟨by decide, by decide, by decide, by decide⟩,
    (rotg_strided_batched_offsets_valid sample_arguments (by decide) (by decide) (by decide)
      (by decide)).2.2.2.2.2.2.1⟩
/-! ## The golden result of testing_dgmm_strided_batched -/

theorem dgmm_left_negative_incx_sizes :
    (testing_dgmm_strided_batched dgmm_left_negative_incx_arguments).quick = none ∧
    host_vector_size "hx" (testing_dgmm_strided_batched dgmm_left_negative_incx_arguments).setup
      = some 3 ∧
    init_args "hx" (testing_dgmm_strided_batched dgmm_left_negative_incx_arguments).setup
      = some (3, 1, 1) := by
  refine ⟨by decide, ?_, by decide⟩
  have h : to_hipblasStride ((size_t_mul (size_t 1) (size_t 3) : ℚ) * 1) = 3 := by
    have e : ((size_t_mul (size_t 1) (size_t 3) : Nat) : ℚ) * 1 = ((3 : Int) : ℚ) := by
      have e3 : size_t_mul (size_t 1) (size_t 3) = 3 := by decide
      rw [e3]
      norm_num
    rw [e]
    unfold to_hipblasStride
    rw [if_pos (by exact_mod_cast (by decide : (0 : Int) ≤ 3)), Int.floor_intCast]
    decide
  have e : host_vector_size "hx"
      (testing_dgmm_strided_batched dgmm_left_negative_incx_arguments).setup
      = some (size_t_mul (size_t (if to_hipblasStride
          ((size_t_mul (size_t 1) (size_t 3) : ℚ) * 1) = 0 then 1 else to_hipblasStride
          ((size_t_mul (size_t 1) (size_t 3) : ℚ) * 1))) (size_t 1)) := rfl
  rw [e, h]
  decide

theorem size_t_index_offset (S incx : Int) (t : Nat) (h0 : 0 ≤ S + t * incx)
    (h1 : S + t * incx < 9223372036854775808) :
    ptr_offset ((size_t S + size_t_mul t (size_t incx)) % 18446744073709551616)
      = S + t * incx := by
  have hm : (0 : Int) ≤ incx % 18446744073709551616 := Int.emod_nonneg _ (by decide)
  have hS2 : (0 : Int) ≤ S % 18446744073709551616 := Int.emod_nonneg _ (by decide)
  have hq : ∃ c : Int, (t : Int) * (incx % 18446744073709551616)
      = t * incx + 18446744073709551616 * c := by
    refine ⟨-(t * (incx / 18446744073709551616)), ?_⟩
    have := Int.emod_add_ediv incx 18446744073709551616
    have e : incx % 18446744073709551616 = incx - 18446744073709551616 * (incx / 18446744073709551616) := by
      omega
    rw [e]
    ring
  obtain ⟨c, hc⟩ := hq
  unfold ptr_offset size_t size_t_mul wrap64
  push_cast
  rw [Int.toNat_of_nonneg hm, Int.toNat_of_nonneg hS2, hc]
  omega

theorem dgmm_x_index_eq_blas_offset (side : hipblasSideMode_t) (M N incx : Int) (i1 i2 : Nat)
    (hM : 0 < M) (hN : 0 < N) (hMi : M ≤ 2147483647) (hNi : N ≤ 2147483647)
    (hincx : -2147483648 ≤ incx ∧ incx ≤ 2147483647)
    (h1 : (i1 : Int) < M) (h2 : (i2 : Int) < N)
    (hok : side = HIPBLAS_SIDE_RIGHT ∨ 0 ≤ incx ∨ M = N) :
    ptr_offset (dgmm_x_index side N incx i1 i2)
      = blas_vector_offset (if side = HIPBLAS_SIDE_RIGHT then N else M) incx
          (if side = HIPBLAS_SIDE_RIGHT then i2 else i1) := by
  have hw : wrap32 (N - 1) = N - 1 := by
    unfold wrap32
    omega
  have hb1 : |incx| ≤ 2147483648 := abs_le.mpr ⟨by omega, by omega⟩
  have h0 : 0 ≤ |incx| := abs_nonneg _
  have hprod : ∀ t : Int, 0 ≤ t → t ≤ 2147483647 → t * |incx| ≤ 2147483647 * 2147483648 := by
    intro t ht0 ht1
    exact mul_le_mul ht1 hb1 h0 (by omega)
  -- the index for loop variable `t` when `shift_x` was computed from a length `L`
  have key : ∀ (L : Int) (t : Nat), N = L ∨ 0 ≤ incx → 0 < L → L ≤ 2147483647 → (t : Int) < L →
      ptr_offset ((size_t (dgmm_shift_x N incx) + size_t_mul t (size_t incx))
          % 18446744073709551616)
        = blas_vector_offset L incx t := by
    intro L t hL hL0 hL1 ht
    unfold blas_vector_offset
    by_cases hneg : incx < 0
    · have habs : |incx| = -incx := abs_of_neg hneg
      have hNL : N = L := by omega
      subst hNL
      have h3 := hprod (N - 1) (by omega) (by omega)
      have h4 : 0 ≤ (N - 1) * |incx| := mul_nonneg (by omega) h0
      have hshift : dgmm_shift_x N incx = (N - 1) * |incx| := by
        unfold dgmm_shift_x
        rw [if_pos hneg, hw, habs, mul_comm]
        rw [habs] at h3 h4
        exact wrap64_eq_self _ (by omega) (by omega)
      have e : (N - 1) * |incx| + (t : Int) * incx = (N - 1 - t) * |incx| := by
        rw [habs]
        ring
      have h5 := hprod (N - 1 - t) (by omega) (by omega)
      have h6 : 0 ≤ (N - 1 - t) * |incx| := mul_nonneg (by omega) h0
      rw [if_neg (by omega), hshift, ← e]
      exact size_t_index_offset _ _ _ (by omega) (by omega)
    · have hpos : 0 ≤ incx := by omega
      have habs : |incx| = incx := abs_of_nonneg hpos
      have hshift : dgmm_shift_x N incx = 0 := by
        unfold dgmm_shift_x
        rw [if_neg hneg]
      have h5 := hprod t (by omega) (by omega)
      have h6 : 0 ≤ (t : Int) * |incx| := mul_nonneg (by omega) h0
      rw [habs] at h5 h6
      rw [if_pos hpos, hshift]
      have := size_t_index_offset 0 incx t (by omega) (by omega)
      rw [zero_add] at this
      exact this
  unfold dgmm_x_index
  by_cases hs : side = HIPBLAS_SIDE_RIGHT
  · subst hs
    simp only [if_true]
    exact key N i2 (Or.inl rfl) hN hNi h2
  · have hs2 : ¬ HIPBLAS_SIDE_RIGHT = side := fun h => hs h.symm
    simp only [if_neg hs, if_neg hs2]
    refine key M i1 ?_ hM hMi h1
    rcases hok with hr | hr | hr
    · exact absurd hr hs
    · exact Or.inr hr
    · exact Or.inl hr.symm

/-- C15, at the failing input: with side left, `M = 3`, `N = 2`, `lda = ldc = 3`
and `incx = -1` the arguments pass the size check and x is initialised as a
vector of `k = M = 3` elements with increment 1.  `shift_x` is `1`, computed from
`N - 1`, and the element of x read for `i1 = 0` is at offset `1`, where the
first logical element of a length-3 vector with `incx = -1` is at offset
`(3 - 1 - 0) * 1 = 2`.  With every element of A equal to 1 and the element of x
at offset `t` equal to `t`, the reference loop stores `1` in gold
`C[0 + 0 * ldc]`, and the product `A[0 + 0 * lda] * x(0)` is `2`. -/
theorem dgmm_reference_left_negative_incx :
    (testing_dgmm_strided_batched dgmm_left_negative_incx_arguments).quick = none ∧
    char2hipblas_side dgmm_left_negative_incx_arguments.side = HIPBLAS_SIDE_LEFT ∧
    init_args "hx" (testing_dgmm_strided_batched dgmm_left_negative_incx_arguments).setup
      = some (3, 1, 1) ∧
    dgmm_shift_x 2 (-1) = 1 ∧
    ptr_offset (dgmm_x_index HIPBLAS_SIDE_LEFT 2 (-1) 0 0) = 1 ∧
    blas_vector_offset 3 (-1) 0 = 2 ∧
    dgmm_reference HIPBLAS_SIDE_LEFT 3 2 3 (-1) 3 (fun _ => (1 : Int)) (fun t => t) (fun _ => 0) 0
      = 1 ∧
    (fun _ : Int => (1 : Int)) 0 * (fun t : Int => t) (blas_vector_offset 3 (-1) 0) = 2 := by
  decide

/-! ## Indices of the reference loop of testing_dgmm_strided_batched -/

/-- C16, at the failing input: with side left, `M = 3`, `N = 2`, `lda = ldc = 3`,
`incx = -1`, `stride_scale = 1` and one batch the arguments pass the size
check and the x buffer has `X_size = 3` elements.  For `i1 = 2 < M`,
`i2 = 0 < N` the index used to read x, `shift_x + i1 * incx` computed in
`size_t`, is `2 ^ 64 - 1`: it is above `|incx| * (k - 1) = 2` and not below
`X_size`, and the element it reaches is at offset `-1`, before the start of the
batch's segment of x. -/
theorem dgmm_x_index_out_of_segment :
    (testing_dgmm_strided_batched dgmm_left_negative_incx_arguments).quick = none ∧
    1 ≤ dgmm_left_negative_incx_arguments.stride_scale ∧
    char2hipblas_side dgmm_left_negative_incx_arguments.side = HIPBLAS_SIDE_LEFT ∧
    host_vector_size "hx" (testing_dgmm_strided_batched dgmm_left_negative_incx_arguments).setup
      = some 3 ∧
    dgmm_x_index HIPBLAS_SIDE_LEFT 2 (-1) 2 0 = 18446744073709551615 ∧
    ¬ ((dgmm_x_index HIPBLAS_SIDE_LEFT 2 (-1) 2 0 : Int) ≤ |(-1 : Int)| * (3 - 1)) ∧
    ¬ (dgmm_x_index HIPBLAS_SIDE_LEFT 2 (-1) 2 0 < 3) ∧
    ptr_offset (dgmm_x_index HIPBLAS_SIDE_LEFT 2 (-1) 2 0) = -1 := by
  refine ⟨by decide, by decide, by decide, dgmm_left_negative_incx_sizes.2.1, by decide,
    by decide, by decide, by decide⟩

/-! ## The in/out operand before the two vendor calls -/

theorem length_hipMemcpy_data {α : Type} (dst src : List α) (n : Nat) (hd : dst.length = n)
    (hs : src.length = n) : (hipMemcpy_data dst src n).length = n := by
  rw [hipMemcpy_data_whole dst src n hd hs, hs]

theorem syr_strided_batched_operands_restored {α : Type} (arg : Arguments) (env : DataEnv α)
    (hq : (testing_syr_strided_batched arg).quick = none)
    (hc : (arg.unit_check || arg.norm_check) = true) :
    operands_restored env (testing_syr_strided_batched arg) (inout_operands .syr_strided_batched arg)
      (result_buffers .syr_strided_batched) := by
  unfold operands_restored
  rw [steps_of_quick_none _ hq]
  cases hu : arg.unit_check
  · have hn : arg.norm_check = true := by simpa [hu] using hc
    simp only [testing_syr_strided_batched, hu, hn]
    refine ⟨_, _, _, _, _, _, _, _, _, rfl, rfl, rfl, rfl, rfl, ?_⟩
    simp [inout_operands, result_buffers, mem_set, exec_vendor, vendor_outputs, cblas_outputs,
      vendor_inputs, Arg.value_in, initial_memory, hipMemcpy_data_whole, length_hipMemcpy_data]
  · simp only [testing_syr_strided_batched, hu]
    refine ⟨_, _, _, _, _, _, _, _, _, rfl, rfl, rfl, rfl, rfl, ?_⟩
    simp [inout_operands, result_buffers, mem_set, exec_vendor, vendor_outputs, cblas_outputs,
      vendor_inputs, Arg.value_in, initial_memory, hipMemcpy_data_whole, length_hipMemcpy_data]

theorem symm_operands_restored {α : Type} (arg : Arguments) (env : DataEnv α)
    (hq : (testing_symm arg).quick = none)
    (hc : (arg.unit_check || arg.norm_check) = true) :
    operands_restored env (testing_symm arg) (inout_operands .symm arg)
      (result_buffers .symm) := by
  unfold operands_restored
  rw [steps_of_quick_none _ hq]
  cases hu : arg.unit_check
  · have hn : arg.norm_check = true := by simpa [hu] using hc
    simp only [testing_symm, hu, hn]
    refine ⟨_, _, _, _, _, _, _, _, _, rfl, rfl, rfl, rfl, rfl, ?_⟩
    simp [inout_operands, result_buffers, mem_set, exec_vendor, vendor_outputs, cblas_outputs,
      vendor_inputs, Arg.value_in, initial_memory, hipMemcpy_data_whole, length_hipMemcpy_data]
  · simp only [testing_symm, hu]
    refine ⟨_, _, _, _, _, _, _, _, _, rfl, rfl, rfl, rfl, rfl, ?_⟩
    simp [inout_operands, result_buffers, mem_set, exec_vendor, vendor_outputs, cblas_outputs,
      vendor_inputs, Arg.value_in, initial_memory, hipMemcpy_data_whole, length_hipMemcpy_data]

theorem trmm_operands_restored {α : Type} (arg : Arguments) (env : DataEnv α)
    (hq : (testing_trmm arg).quick = none)
    (hc : (arg.unit_check || arg.norm_check) = true) :
    operands_restored env (testing_trmm arg) (inout_operands .trmm arg)
      (result_buffers .trmm) := by
  unfold operands_restored
  rw [steps_of_quick_none _ hq]
  cases hi : arg.inplace
  · cases hu : arg.unit_check
    · have hn : arg.norm_check = true := by simpa [hu] using hc
      simp only [testing_trmm, trmm_call, hu, hn, hi]
      refine ⟨_, _, _, _, _, _, _, _, _, rfl, rfl, rfl, rfl, rfl, ?_⟩
      simp [hi, inout_operands, result_buffers, mem_set, exec_vendor, vendor_outputs, cblas_outputs,
        vendor_inputs, Arg.value_in, initial_memory, hipMemcpy_data_whole, length_hipMemcpy_data]
    · simp only [testing_trmm, trmm_call, hu, hi]
      refine ⟨_, _, _, _, _, _, _, _, _, rfl, rfl, rfl, rfl, rfl, ?_⟩
      simp [hi, inout_operands, result_buffers, mem_set, exec_vendor, vendor_outputs, cblas_outputs,
        vendor_inputs, Arg.value_in, initial_memory, hipMemcpy_data_whole, length_hipMemcpy_data]
  · cases hu : arg.unit_check
    · have hn : arg.norm_check = true := by simpa [hu] using hc
      simp only [testing_trmm, trmm_call, hu, hn, hi]
      refine ⟨_, _, _, _, _, _, _, _, _, rfl, rfl, rfl, rfl, rfl, ?_⟩
      simp [hi, inout_operands, result_buffers, mem_set, exec_vendor, vendor_outputs, cblas_outputs,
        vendor_inputs, Arg.value_in, initial_memory, hipMemcpy_data_whole, length_hipMemcpy_data]
    · simp only [testing_trmm, trmm_call, hu, hi]
      refine ⟨_, _, _, _, _, _, _, _, _, rfl, rfl, rfl, rfl, rfl, ?_⟩
      simp [hi, inout_operands, result_buffers, mem_set, exec_vendor, vendor_outputs, cblas_outputs,
        vendor_inputs, Arg.value_in, initial_memory, hipMemcpy_data_whole, length_hipMemcpy_data]

theorem rot_ex_operands_restored {α : Type} (arg : Arguments) (env : DataEnv α)
    (hq : (testing_rot_ex arg).quick = none)
    (hc : (arg.unit_check || arg.norm_check) = true) :
    operands_restored env (testing_rot_ex arg) (inout_operands .rot_ex arg)
      (result_buffers .rot_ex) := by
  unfold operands_restored
  rw [steps_of_quick_none _ hq]
  cases hu : arg.unit_check
  · have hn : arg.norm_check = true := by simpa [hu] using hc
    simp only [testing_rot_ex, hu, hn]
    refine ⟨_, _, _, _, _, _, _, _, _, rfl, rfl, rfl, rfl, rfl, ?_⟩
    simp [inout_operands, result_buffers, mem_set, exec_vendor, vendor_outputs, cblas_outputs,
      vendor_inputs, Arg.value_in, initial_memory, hipMemcpy_data_whole, length_hipMemcpy_data]
  · simp only [testing_rot_ex, hu]
    refine ⟨_, _, _, _, _, _, _, _, _, rfl, rfl, rfl, rfl, rfl, ?_⟩
    simp [inout_operands, result_buffers, mem_set, exec_vendor, vendor_outputs, cblas_outputs,
      vendor_inputs, Arg.value_in, initial_memory, hipMemcpy_data_whole, length_hipMemcpy_data]

/-- C18: in `testing_syr_strided_batched`, `testing_symm`, `testing_trmm` and
`testing_rot_ex`, on an argument set that passes the size check with
`unit_check` or `norm_check` set and a run in which every call succeeds, each
in/out operand on the device holds, immediately before the device-mode vendor
call, the data its host buffer held at the end of the set-up, element for
element; the host-mode call received the same data and the CPU reference starts
from the same data.  The two vendor calls are given the same argument values, so
with the vendor routine a function of the values of its arguments the host-mode
and device-mode result buffers hold the same data when they are compared. -/
theorem inout_operand_restored {α : Type} (bld : Build) (r : Routine) (arg : Arguments)
    (env : DataEnv α)
    (hr : r = .syr_strided_batched ∨ r = .symm ∨ r = .trmm ∨ r = .rot_ex)
    (hq : (testing bld r arg).quick = none)
    (hc : arg.unit_check = true ∨ arg.norm_check = true) :
    inout_operands r arg ≠ [] ∧ result_buffers r ≠ [] ∧
    operands_restored env (testing bld r arg) (inout_operands r arg) (result_buffers r) := by
  have hc2 : (arg.unit_check || arg.norm_check) = true := by
    rcases hc with h | h <;> simp [h]
  rcases hr with rfl | rfl | rfl | rfl
  · exact ⟨by simp [inout_operands], by simp [result_buffers],
      syr_strided_batched_operands_restored arg env hq hc2⟩
  · exact ⟨by simp [inout_operands], by simp [result_buffers],
      symm_operands_restored arg env hq hc2⟩
  · exact ⟨by simp [inout_operands], by simp [result_buffers],
      trmm_operands_restored arg env hq hc2⟩
  · exact ⟨by simp [inout_operands], by simp [result_buffers],
      rot_ex_operands_restored arg env hq hc2⟩

/-- C18, witness: `testing_trmm` on the sample arguments with the sample data
environment. -/
theorem inout_operand_restored_witness :
    ((Routine.trmm = .syr_strided_batched ∨ Routine.trmm = .symm ∨ Routine.trmm = .trmm
        ∨ Routine.trmm = .rot_ex) ∧
      (testing sample_build .trmm sample_arguments).quick = none ∧
      (sample_arguments.unit_check = true ∨ sample_arguments.norm_check = true)) ∧
    operands_restored sample_data_env (testing sample_build .trmm sample_arguments)
      (inout_operands .trmm sample_arguments) (result_buffers .trmm) :=
  ⟨⟨by decide, by decide, Or.inl rfl⟩,
    (inout_operand_restored sample_build .trmm sample_arguments sample_data_env (by decide)
      (by decide) (Or.inl rfl)).2.2⟩

/-! ## Operand dimensions and indices of testing_gemm_batched_ex -/

theorem size_t_mul_of_int (a b : Int) (ha : 0 ≤ a) (ha2 : a ≤ 2147483647) (hb : 0 ≤ b)
    (hb2 : b ≤ 2147483647) : ((size_t_mul (size_t a) (size_t b) : Nat) : Int) = a * b := by
  rw [size_t_of_nonneg a ha ha2, size_t_of_nonneg b hb hb2]
  unfold size_t_mul
  have h1 : 0 ≤ a * b := mul_nonneg ha hb
  have h2 : a * b ≤ 2147483647 * 2147483647 := mul_le_mul ha2 hb2 hb (by omega)
  rw [Int.natCast_mod, Nat.cast_mul, Int.toNat_of_nonneg ha, Int.toNat_of_nonneg hb]
  exact Int.emod_eq_of_lt h1 (by omega)

theorem column_major_index_in_range (rows cols ld i j : Int) (hld : rows ≤ ld) (hi0 : 0 ≤ i)
    (hi : i < rows) (hj0 : 0 ≤ j) (hj : j < cols) :
    0 ≤ i + j * ld ∧ i + j * ld < ld * cols := by
  have h0 : 0 ≤ ld := by omega
  have h1 : 0 ≤ j * ld := mul_nonneg hj0 h0
  have h2 : j * ld ≤ (cols - 1) * ld := mul_le_mul_of_nonneg_right (by omega) h0
  have h3 : (cols - 1) * ld = ld * cols - ld := by ring
  constructor <;> omega

/-- C21: in `testing_gemm_batched_ex`, for every argument set that passes the
size check (the sizes being `int` values), `(A_row, A_col)` is `(M, K)` when
`transA` is no-transpose and `(K, M)` otherwise, `(B_row, B_col)` is `(K, N)`
when `transB` is no-transpose and `(N, K)` otherwise, so `op(A)` is `M`-by-`K`
and `op(B)` is `K`-by-`N`; the device and host batch vectors of A, B and C are
declared with `lda * A_col`, `ldb * B_col` and `ldc * N` elements per batch,
and every column-major index `i + j * ld` with `0 <= i < rows`,
`0 <= j < cols` of a stored operand is non-negative and below that size. -/
theorem gemm_batched_ex_operand_indices (bld : Build) (arg : Arguments)
    (hq : (testing bld .gemm_batched_ex arg).quick = none)
    (hM : arg.M ≤ 2147483647) (hN : arg.N ≤ 2147483647) (hK : arg.K ≤ 2147483647)
    (hlda : arg.lda ≤ 2147483647) (hldb : arg.ldb ≤ 2147483647) (hldc : arg.ldc ≤ 2147483647) :
    ((gemm_batched_ex_A_row arg, gemm_batched_ex_A_col arg)
      = if char2hipblas_operation arg.transA = HIPBLAS_OP_N then (arg.M, arg.K)
        else (arg.K, arg.M)) ∧
    ((gemm_batched_ex_B_row arg, gemm_batched_ex_B_col arg)
      = if char2hipblas_operation arg.transB = HIPBLAS_OP_N then (arg.K, arg.N)
        else (arg.N, arg.K)) ∧
    op_dims (char2hipblas_operation arg.transA) (gemm_batched_ex_A_row arg)
      (gemm_batched_ex_A_col arg) = (arg.M, arg.K) ∧
    op_dims (char2hipblas_operation arg.transB) (gemm_batched_ex_B_row arg)
      (gemm_batched_ex_B_col arg) = (arg.K, arg.N) ∧
    (∀ name ∈ ["dA", "hA"], batch_vector_n name (testing bld .gemm_batched_ex arg).setup
      = some (arg.lda * gemm_batched_ex_A_col arg)) ∧
    (∀ name ∈ ["dB", "hB"], batch_vector_n name (testing bld .gemm_batched_ex arg).setup
      = some (arg.ldb * gemm_batched_ex_B_col arg)) ∧
    (∀ name ∈ ["dC", "hC_host", "hC_device", "hC_gold"],
      batch_vector_n name (testing bld .gemm_batched_ex arg).setup = some (arg.ldc * arg.N)) ∧
    (∀ i j : Int, 0 ≤ i → i < gemm_batched_ex_A_row arg → 0 ≤ j → j < gemm_batched_ex_A_col arg →
      0 ≤ i + j * arg.lda ∧ i + j * arg.lda < arg.lda * gemm_batched_ex_A_col arg) ∧
    (∀ i j : Int, 0 ≤ i → i < gemm_batched_ex_B_row arg → 0 ≤ j → j < gemm_batched_ex_B_col arg →
      0 ≤ i + j * arg.ldb ∧ i + j * arg.ldb < arg.ldb * gemm_batched_ex_B_col arg) ∧
    (∀ i j : Int, 0 ≤ i → i < arg.M → 0 ≤ j → j < arg.N →
      0 ≤ i + j * arg.ldc ∧ i + j * arg.ldc < arg.ldc * arg.N) := by
  have hv : gemm_batched_ex_invalid_size arg = false := by
    cases h : gemm_batched_ex_invalid_size arg
    · rfl
    · simp [testing, testing_gemm_batched_ex, h] at hq
  have hchk : 0 ≤ arg.M ∧ 0 ≤ arg.N ∧ 0 ≤ arg.K ∧ gemm_batched_ex_A_row arg ≤ arg.lda
      ∧ gemm_batched_ex_B_row arg ≤ arg.ldb ∧ arg.M ≤ arg.ldc := by
    simp only [gemm_batched_ex_invalid_size, Bool.or_eq_false_iff, decide_eq_false_iff_not,
      not_lt] at hv
    unfold gemm_batched_ex_A_row gemm_batched_ex_B_row
    obtain ⟨⟨⟨⟨⟨⟨h1, h2⟩, h3⟩, h4⟩, h5⟩, h6⟩, -⟩ := hv
    exact ⟨h1, h2, h3, h4, h5, h6⟩
  obtain ⟨h1, h2, h3, h4, h5, h6⟩ := hchk
  have hAr : 0 ≤ gemm_batched_ex_A_row arg := by
    unfold gemm_batched_ex_A_row
    split_ifs <;> assumption
  have hBr : 0 ≤ gemm_batched_ex_B_row arg := by
    unfold gemm_batched_ex_B_row
    split_ifs <;> assumption
  have hAc : 0 ≤ gemm_batched_ex_A_col arg ∧ gemm_batched_ex_A_col arg ≤ 2147483647 := by
    unfold gemm_batched_ex_A_col
    split_ifs <;> exact ⟨by assumption, by assumption⟩
  have hBc : 0 ≤ gemm_batched_ex_B_col arg ∧ gemm_batched_ex_B_col arg ≤ 2147483647 := by
    unfold gemm_batched_ex_B_col
    split_ifs <;> exact ⟨by assumption, by assumption⟩
  have sA := size_t_mul_of_int arg.lda (gemm_batched_ex_A_col arg) (by omega) hlda hAc.1 hAc.2
  have sB := size_t_mul_of_int arg.ldb (gemm_batched_ex_B_col arg) (by omega) hldb hBc.1 hBc.2
  have sC := size_t_mul_of_int arg.ldc arg.N (by omega) hldc h2 hN
  refine ⟨?_, ?_, ?_, ?_, ?_, ?_, ?_, ?_, ?_, ?_⟩
  · unfold gemm_batched_ex_A_row gemm_batched_ex_A_col
    split_ifs <;> rfl
  · unfold gemm_batched_ex_B_row gemm_batched_ex_B_col
    split_ifs <;> rfl
  · unfold op_dims gemm_batched_ex_A_row gemm_batched_ex_A_col
    split_ifs <;> rfl
  · unfold op_dims gemm_batched_ex_B_row gemm_batched_ex_B_col
    split_ifs <;> rfl
  · intro name hn
    simp only [List.mem_cons, List.mem_singleton, List.not_mem_nil, or_false] at hn
    rw [← sA]
    rcases hn with rfl | rfl <;>
      simp [testing, testing_gemm_batched_ex, batch_vector_n, gemm_batched_ex_A_col]
  · intro name hn
    simp only [List.mem_cons, List.mem_singleton, List.not_mem_nil, or_false] at hn
    rw [← sB]
    rcases hn with rfl | rfl <;>
      simp [testing, testing_gemm_batched_ex, batch_vector_n, gemm_batched_ex_B_col]
  · intro name hn
    simp only [List.mem_cons, List.mem_singleton, List.not_mem_nil, or_false] at hn
    rw [← sC]
    rcases hn with rfl | rfl | rfl | rfl <;>
      simp [testing, testing_gemm_batched_ex, batch_vector_n]
  · intro i j hi0 hi hj0 hj
    exact column_major_index_in_range _ _ _ i j h4 hi0 hi hj0 hj
  · intro i j hi0 hi hj0 hj
    exact column_major_index_in_range _ _ _ i j h5 hi0 hi hj0 hj
  · intro i j hi0 hi hj0 hj
    exact column_major_index_in_range _ _ _ i j h6 hi0 hi hj0 hj

/-- C21, witness: `testing_gemm_batched_ex` on the sample arguments. -/
theorem gemm_batched_ex_operand_indices_witness :
    ((testing sample_build .gemm_batched_ex sample_arguments).quick = none ∧
      sample_arguments.M ≤ 2147483647 ∧ sample_arguments.N ≤ 2147483647 ∧
      sample_arguments.K ≤ 2147483647 ∧ sample_arguments.lda ≤ 2147483647 ∧
      sample_arguments.ldb ≤ 2147483647 ∧ sample_arguments.ldc ≤ 2147483647) ∧
    op_dims (char2hipblas_operation sample_arguments.transA)
      (gemm_batched_ex_A_row sample_arguments) (gemm_batched_ex_A_col sample_arguments)
      = (sample_arguments.M, sample_arguments.K) ∧
    (∀ name ∈ ["dA", "hA"],
      batch_vector_n name (testing sample_build .gemm_batched_ex sample_arguments).setup
        = some (sample_arguments.lda * gemm_batched_ex_A_col sample_arguments)) :=
  ⟨⟨by decide, by decide, by decide, by decide, by decide, by decide, by decide⟩,
    (gemm_batched_ex_operand_indices sample_build sample_arguments (by decide) (by decide)
      (by decide) (by decide) (by decide) (by decide) (by decide)).2.2.1,
    (gemm_batched_ex_operand_indices sample_build sample_arguments (by decide) (by decide)
      (by decide) (by decide) (by decide) (by decide) (by decide)).2.2.2.2.1⟩
/-! ## The start timestamp of the timing loop -/

theorem timing_loop_before_start (c : Int) (m : Nat) (call : Step) (h : (m : Int) ≤ c) :
    ((List.range m).flatMap fun iter =>
      (if (iter : Int) = c then [Step.get_time_us_sync false] else []) ++ [call])
      = List.replicate m call := by
  induction m with
  | zero => rfl
  | succ m ih =>
    have hm : ¬ ((m : Int) = c) := by
      push_cast at h
      omega
    rw [List.range_succ, List.flatMap_append, ih (by push_cast at h ⊢; omega),
      List.replicate_succ' m call]
    simp [hm]

theorem timing_loop_after_start (c k : Nat) (call : Step) :
    ((List.range (c + 1 + k)).flatMap fun iter =>
      (if (iter : Int) = (c : Int) then [Step.get_time_us_sync false] else []) ++ [call])
      = List.replicate c call ++ Step.get_time_us_sync false :: List.replicate (k + 1) call := by
  induction k with
  | zero =>
    rw [Nat.add_zero, List.range_succ, List.flatMap_append,
      timing_loop_before_start (c : Int) c call le_rfl]
    simp
  | succ k ih =>
    rw [show c + 1 + (k + 1) = (c + 1 + k) + 1 from rfl, List.range_succ, List.flatMap_append, ih,
      List.replicate_succ' (k + 1) call]
    have hm2 : ¬ (c + 1 + k = c) := by omega
    simp [hm2]

theorem timing_section_shape (arg : Arguments) (pre : List Step) (call : Step)
    (errs : List String)
    (hpre : pre.all (fun s => !s.is_vendor && !s.is_timestamp) = true)
    (hcall : call.is_vendor = true)
    (hc : 0 ≤ arg.cold_iters) (hi : 1 ≤ arg.iters)
    (hhi : arg.cold_iters + arg.iters ≤ 2147483647) :
    ∃ pre0 call0 errs0,
      pre ++ timing_loop arg.cold_iters (timing_runs arg) call
          ++ [Step.get_time_us_sync true, Step.log_args errs]
        = pre0
          ++ (List.replicate arg.cold_iters.toNat call0
            ++ Step.get_time_us_sync false :: List.replicate arg.iters.toNat call0)
          ++ [Step.get_time_us_sync true, Step.log_args errs0] ∧
      pre0.all (fun s => !s.is_vendor && !s.is_timestamp) = true ∧
      call0.is_vendor = true := by
  refine ⟨pre, call, errs, ?_, hpre, hcall⟩
  have hw : timing_runs arg = arg.cold_iters + arg.iters := by
    unfold timing_runs wrap32
    omega
  obtain ⟨c, hcn⟩ := Int.eq_ofNat_of_zero_le hc
  obtain ⟨k, hk⟩ := Int.eq_ofNat_of_zero_le (show 0 ≤ arg.iters - 1 by omega)
  have hin : arg.iters = ((k + 1 : Nat) : Int) := by
    push_cast
    omega
  have hruns : (timing_runs arg).toNat = c + 1 + k := by
    rw [hw, hcn, hin]
    omega
  unfold timing_loop
  rw [hruns, hcn, hin, timing_loop_after_start c k call]
  rfl

/-- C22, counterexample: with `cold_iters = 2` and `iters = 0`, both
non-negative, the timing section of `testing_symm` makes its 2 vendor calls and
takes the end timestamp, from which `gpu_time_used` is subtracted, but the start
timestamp is never taken: `iter == cold_iters` does not hold for any
`iter < runs = 2`. -/
theorem timing_section_no_start_timestamp :
    (testing sample_build .symm { sample_arguments with iters := 0 }).quick = none ∧
    ({ sample_arguments with iters := 0 } : Arguments).timing = true ∧
    0 ≤ ({ sample_arguments with iters := 0 } : Arguments).cold_iters ∧
    0 ≤ ({ sample_arguments with iters := 0 } : Arguments).iters ∧
    vendor_calls (testing sample_build .symm { sample_arguments with iters := 0 }).timing = 2 ∧
    (testing sample_build .symm { sample_arguments with iters := 0 }).timing.count
      (Step.get_time_us_sync false) = 0 ∧
    (testing sample_build .symm { sample_arguments with iters := 0 }).timing.count
      (Step.get_time_us_sync true) = 1 := by
  refine ⟨by decide, by decide, by decide, by decide, by decide, by decide, by decide⟩

/-- C22, amended: in the timing section of every test function, for every
`cold_iters >= 0` and `iters >= 1` whose sum is representable in `int`, the
section consists of steps that neither call the vendor routine nor read the
clock, then exactly `cold_iters` vendor calls, then the start timestamp, then
exactly `iters` vendor calls, then the end timestamp from which the start is
subtracted, then the logging of the result line: the start timestamp is taken
exactly once and the elapsed time spans exactly the last `iters` vendor
calls. -/
theorem timing_section_start_timestamp (bld : Build) (r : Routine) (arg : Arguments)
    (ht : arg.timing = true) (hc : 0 ≤ arg.cold_iters) (hi : 1 ≤ arg.iters)
    (hhi : arg.cold_iters + arg.iters ≤ 2147483647) :
    ∃ pre call errs,
      (testing bld r arg).timing
        = pre
          ++ (List.replicate arg.cold_iters.toNat call
            ++ Step.get_time_us_sync false :: List.replicate arg.iters.toNat call)
          ++ [Step.get_time_us_sync true, Step.log_args errs] ∧
      pre.all (fun s => !s.is_vendor && !s.is_timestamp) = true ∧
      call.is_vendor = true := by
  cases r <;>
    simp only [testing, testing_rotg, testing_rotg_strided_batched, testing_syr_strided_batched,
      testing_tbsv, testing_dgmm_strided_batched, testing_geam_batched, testing_symm,
      testing_trmm, testing_axpy_ex, testing_axpy_batched_ex, testing_dot_batched_ex,
      testing_gemm_batched_ex, testing_rot_ex, trmm_call, ht, if_true] <;>
    exact timing_section_shape arg _ _ _ (by simp [Step.is_vendor, Step.is_timestamp])
      (by first | rfl | (cases arg.with_flags <;> rfl)) hc hi hhi

/-- C22, witness: `testing_tbsv` on the sample arguments (2 cold and 10
measured iterations). -/
theorem timing_section_start_timestamp_witness :
    (sample_arguments.timing = true ∧ 0 ≤ sample_arguments.cold_iters ∧
      1 ≤ sample_arguments.iters ∧
      sample_arguments.cold_iters + sample_arguments.iters ≤ 2147483647) ∧
    ∃ pre call errs,
      (testing sample_build .tbsv sample_arguments).timing
        = pre
          ++ (List.replicate sample_arguments.cold_iters.toNat call
            ++ Step.get_time_us_sync false :: List.replicate sample_arguments.iters.toNat call)
          ++ [Step.get_time_us_sync true, Step.log_args errs] ∧
      pre.all (fun s => !s.is_vendor && !s.is_timestamp) = true ∧
      call.is_vendor = true :=
  ⟨⟨by decide, by decide, by decide, by decide⟩,
    timing_section_start_timestamp sample_build .tbsv sample_arguments (by decide) (by decide)
      (by decide) (by decide)⟩
/-! ## Error values passed to log_args -/

theorem assigned_errors_append (a b : List Step) :
    assigned_errors (a ++ b) = assigned_errors a ++ assigned_errors b := by
  induction a with
  | nil => rfl
  | cons s rest ih =>
    cases s <;> simp [assigned_errors, ih]
    case norm_check err acc gold result => cases acc <;> simp

theorem logged_errors_append (a b : List Step) :
    logged_errors (a ++ b) = logged_errors a ++ logged_errors b := by
  induction a with
  | nil => rfl
  | cons s rest ih => cases s <;> simp [logged_errors, ih]

theorem logged_errors_timing_loop (cold_iters runs : Int) (fn : String) (f : Bool)
    (args : List Arg) (e : Expect) :
    logged_errors (timing_loop cold_iters runs (.vendor fn f args e)) = [] := by
  unfold timing_loop
  generalize runs.toNat = n
  induction n with
  | zero => rfl
  | succ n ih =>
    rw [List.range_succ, List.flatMap_append, logged_errors_append, ih]
    by_cases h : (n : Int) = cold_iters <;> simp [h, logged_errors]

theorem logged_errors_transfers (n : Nat) :
    logged_errors ((List.range n).flatMap fun _ =>
      [Step.transfer_from "dA" "hA", Step.transfer_from "dB" "hB"]) = [] := by
  induction n with
  | zero => rfl
  | succ n ih =>
    rw [List.range_succ, List.flatMap_append, logged_errors_append, ih]
    rfl

theorem logged_errors_before_timing (bld : Build) (r : Routine) (arg : Arguments) :
    logged_errors ((testing bld r arg).entry ++ (testing bld r arg).setup) = [] ∧
    logged_errors (testing bld r arg).check = [] := by
  cases r
  case gemm_batched_ex =>
    cases h3 : arg.with_flags <;>
      simp [testing, testing_gemm_batched_ex, logged_errors, logged_errors_append,
        logged_errors_transfers, apply_ite logged_errors, h3]
  all_goals
    simp [testing, testing_rotg, testing_rotg_strided_batched, testing_syr_strided_batched,
      testing_tbsv, testing_dgmm_strided_batched, testing_geam_batched, testing_symm,
      testing_trmm, testing_axpy_ex, testing_axpy_batched_ex, testing_dot_batched_ex,
      testing_rot_ex, trmm_call, logged_errors, logged_errors_append,
      apply_ite logged_errors]

theorem logged_errors_assigned_in_check (bld : Build) (r : Routine) (arg : Arguments)
    (ht : arg.timing = true)
    (hn : arg.norm_check = true ∨ (r = .tbsv ∧ arg.unit_check = true)) :
    logged_errors (testing bld r arg).timing ≠ [] ∧
    ∀ e ∈ logged_errors (testing bld r arg).timing,
      e ∈ assigned_errors (testing bld r arg).check := by
  have hloop := logged_errors_timing_loop
  cases r
  case tbsv =>
    have huv : (arg.unit_check || arg.norm_check) = true := by
      rcases hn with h | ⟨-, h⟩ <;> simp [h]
    simp [testing, testing_tbsv, ht, huv, logged_errors, assigned_errors, logged_errors_append,
      assigned_errors_append, hloop]
  case gemm_batched_ex =>
    have hn2 : arg.norm_check = true := by
      rcases hn with h | ⟨h, -⟩
      · exact h
      · cases h
    cases h3 : arg.with_flags <;>
      simp [testing, testing_gemm_batched_ex, ht, hn2, h3, logged_errors, assigned_errors,
        logged_errors_append, assigned_errors_append, hloop, apply_ite assigned_errors]
  all_goals
    have hn2 : arg.norm_check = true := by
      rcases hn with h | ⟨h, -⟩
      · exact h
      · cases h
    simp [testing, testing_rotg, testing_rotg_strided_batched, testing_syr_strided_batched,
      testing_dgmm_strided_batched, testing_geam_batched, testing_symm,
      testing_trmm, testing_axpy_ex, testing_axpy_batched_ex, testing_dot_batched_ex,
      testing_rot_ex, trmm_call, ht, hn2, logged_errors, assigned_errors,
      logged_errors_append, assigned_errors_append, hloop, apply_ite assigned_errors]

/-- C23, counterexample: `testing_symm` on the sample arguments with
`norm_check` off (`timing` and `unit_check` on), in the all-success
environment: the run passes `hipblas_error_host` and `hipblas_error_device` to
`log_args`, and no step of the run assigns either of them. -/
theorem logged_errors_unassigned_without_norm_check :
    (testing sample_build .symm { sample_arguments with norm_check := false }).quick = none ∧
    ({ sample_arguments with norm_check := false } : Arguments).timing = true ∧
    logged_errors
        (run Env.success
          (testing sample_build .symm { sample_arguments with norm_check := false }).steps)
      = ["hipblas_error_host", "hipblas_error_device"] ∧
    assigned_errors
        (run Env.success
          (testing sample_build .symm { sample_arguments with norm_check := false }).steps)
      = [] := by
  refine ⟨by decide, by decide, by decide, by decide⟩

/-- C23, amended: in every test function, whenever `timing` and `norm_check` are
set (for `testing_tbsv`: `timing` and `unit_check` or `norm_check`), the size
check passes and every call succeeds, the run executes the set-up, the
comparison section and the timing section in this order; `log_args` is called
in the timing section only, and each error value passed to it is assigned by a
step of the comparison section. -/
theorem logged_errors_assigned (bld : Build) (r : Routine) (arg : Arguments) (env : Env)
    (hq : (testing bld r arg).quick = none)
    (ht : arg.timing = true)
    (hn : arg.norm_check = true ∨ (r = .tbsv ∧ arg.unit_check = true))
    (henv : env.all_succeed) :
    run env (testing bld r arg).steps
      = (testing bld r arg).entry
        ++ ((testing bld r arg).setup ++ (testing bld r arg).check ++ (testing bld r arg).timing) ∧
    logged_errors ((testing bld r arg).entry ++ (testing bld r arg).setup) = [] ∧
    logged_errors (testing bld r arg).check = [] ∧
    logged_errors (testing bld r arg).timing ≠ [] ∧
    ∀ e ∈ logged_errors (testing bld r arg).timing,
      e ∈ assigned_errors (testing bld r arg).check := by
  refine ⟨?_, (logged_errors_before_timing bld r arg).1, (logged_errors_before_timing bld r arg).2,
    (logged_errors_assigned_in_check bld r arg ht hn).1,
    (logged_errors_assigned_in_check bld r arg ht hn).2⟩
  rw [run_of_all_succeed env henv, steps_of_quick_none _ hq]

/-- C23, witness: `testing_symm` on the sample arguments in the all-success
environment. -/
theorem logged_errors_assigned_witness :
    ((testing sample_build .symm sample_arguments).quick = none ∧
      sample_arguments.timing = true ∧
      (sample_arguments.norm_check = true
        ∨ (Routine.symm = .tbsv ∧ sample_arguments.unit_check = true)) ∧
      Env.success.all_succeed) ∧
    (logged_errors (testing sample_build .symm sample_arguments).timing ≠ [] ∧
      ∀ e ∈ logged_errors (testing sample_build .symm sample_arguments).timing,
        e ∈ assigned_errors (testing sample_build .symm sample_arguments).check) :=
  ⟨⟨by decide, rfl, Or.inl rfl, success_all_succeed⟩,
    (logged_errors_assigned sample_build .symm sample_arguments Env.success (by decide) rfl
      (Or.inl rfl) success_all_succeed).2.2.2⟩
/-! ## Return on a failed size check -/

/-- C24: in `testing_geam_batched`, `testing_symm`, `testing_trmm` and
`testing_gemm_batched_ex` the condition the specification gives for a failed
size check is exactly the condition under which the function takes its early
return, and then the function executes nothing: no buffer is allocated, no
vendor call is made and no comparison is made, whatever the environment. -/
theorem size_check_failure_returns (bld : Build) (r : Routine) (arg : Arguments) (env : Env)
    (hr : r = .geam_batched ∨ r = .symm ∨ r = .trmm ∨ r = .gemm_batched_ex) :
    (spec_size_check_fails r arg = true ↔ (testing bld r arg).quick = some []) ∧
    (spec_size_check_fails r arg = false ↔ (testing bld r arg).quick = none) ∧
    (spec_size_check_fails r arg = true →
      run env (testing bld r arg).steps = [] ∧
      (run env (testing bld r arg).steps).countP Step.is_alloc = 0 ∧
      vendor_calls (run env (testing bld r arg).steps) = 0 ∧
      (run env (testing bld r arg).steps).countP Step.is_comparison = 0) := by
  have key : (spec_size_check_fails r arg = true → (testing bld r arg).quick = some []) ∧
      (spec_size_check_fails r arg = false → (testing bld r arg).quick = none) ∧
      (testing bld r arg).entry = [] := by
    rcases hr with rfl | rfl | rfl | rfl
    · simp only [spec_size_check_fails, testing, testing_geam_batched, geam_batched_invalid_size]
      refine ⟨fun h => ?_, fun h => ?_, trivial⟩
      · rw [if_pos]
        simp only [decide_eq_true_eq, Bool.or_eq_true] at h ⊢
        omega
      · rw [if_neg]
        simp only [decide_eq_false_iff_not, decide_eq_true_eq, Bool.or_eq_true] at h ⊢
        omega
    · simp only [spec_size_check_fails, testing, testing_symm, symm_invalid_size]
      refine ⟨fun h => ?_, fun h => ?_, trivial⟩
      · rw [if_pos]
        simp only [decide_eq_true_eq, Bool.or_eq_true] at h ⊢
        omega
      · rw [if_neg]
        simp only [decide_eq_false_iff_not, decide_eq_true_eq, Bool.or_eq_true] at h ⊢
        omega
    · simp only [spec_size_check_fails, testing, testing_trmm, trmm_invalid_size]
      refine ⟨fun h => ?_, fun h => ?_, trivial⟩
      · rw [if_pos]
        simp only [decide_eq_true_eq, Bool.or_eq_true] at h ⊢
        omega
      · rw [if_neg]
        simp only [decide_eq_false_iff_not, decide_eq_true_eq, Bool.or_eq_true] at h ⊢
        omega
    · simp only [spec_size_check_fails, testing, testing_gemm_batched_ex,
        gemm_batched_ex_invalid_size]
      refine ⟨fun h => ?_, fun h => ?_, trivial⟩
      · rw [if_pos]
        simp only [decide_eq_true_eq, Bool.or_eq_true] at h ⊢
        omega
      · rw [if_neg]
        simp only [decide_eq_false_iff_not, decide_eq_true_eq, Bool.or_eq_true] at h ⊢
        omega
  obtain ⟨k1, k2, k3⟩ := key
  have hrun : spec_size_check_fails r arg = true → run env (testing bld r arg).steps = [] := by
    intro h
    rw [steps_of_quick_some _ _ (k1 h), k3]
    rfl
  refine ⟨⟨k1, fun h => ?_⟩, ⟨k2, fun h => ?_⟩, fun h => ?_⟩
  · cases hs : spec_size_check_fails r arg
    · rw [k2 hs] at h
      cases h
    · rfl
  · cases hs : spec_size_check_fails r arg
    · rfl
    · rw [k1 hs] at h
      cases h
  · rw [hrun h]
    exact ⟨rfl, rfl, rfl, rfl⟩

/-- C24, witness: `testing_symm` with `M = -1`. -/
theorem size_check_failure_returns_witness :
    (Routine.symm = .geam_batched ∨ Routine.symm = .symm ∨ Routine.symm = .trmm
      ∨ Routine.symm = .gemm_batched_ex) ∧
    spec_size_check_fails .symm { sample_arguments with M := -1 } = true ∧
    run Env.success (testing sample_build .symm { sample_arguments with M := -1 }).steps = [] :=
  ⟨by decide, by decide,
    ((size_check_failure_returns sample_build .symm { sample_arguments with M := -1 } Env.success
      (by decide)).2.2 (by decide)).1⟩
/-! ## hipblasTrmmModel and the vendor call of testing_trmm -/

theorem trmm_vendor_sizes_determined (a b : Arguments) (h : trmm_model_agree a b = true)
    (hldc : a.ldc = b.ldc) (hinplace : a.inplace = b.inplace) :
    trmm_calls_size_args (testing_trmm a).check = trmm_calls_size_args (testing_trmm b).check ∧
    trmm_calls_output_operands (testing_trmm a).check
      = trmm_calls_output_operands (testing_trmm b).check := by
  simp only [trmm_model_agree, Bool.and_eq_true, decide_eq_true_eq, and_assoc] at h
  obtain ⟨-, hside, huplo, htransA, hdiag, hM, hN, -, hlda, hldb, hf, -, hu, hn, -⟩ := h
  simp only [testing_trmm, trmm_call, ← hside, ← huplo, ← htransA, ← hdiag, ← hM, ← hN, ← hlda,
    ← hldb, ← hf, ← hu, ← hn, ← hldc, ← hinplace]
  constructor <;> first | rfl | trivial

/-- C25, at the failing input: the sample arguments (`M = N = 2`,
`lda = ldb = ldc = 3`, not in place) and the same arguments with `ldc = 4` agree
on every parameter named in `hipblasTrmmModel` and on the api and check flags,
and both pass the size check; the vendor calls of the first are passed the
output leading dimension 3 and those of the second 4.  The sample arguments and
the same arguments with `inplace` set agree in the same way; the first write to
`dC` and the second to `dB`. -/
theorem trmm_model_omits_ldc_and_inplace :
    trmm_model_agree sample_arguments { sample_arguments with ldc := 4 } = true ∧
    (testing_trmm sample_arguments).quick = none ∧
    (testing_trmm { sample_arguments with ldc := 4 }).quick = none ∧
    trmm_calls_size_args (testing_trmm sample_arguments).check
      = [(HIPBLAS_SIDE_LEFT, 2, 2, 3, 3, 3), (HIPBLAS_SIDE_LEFT, 2, 2, 3, 3, 3)] ∧
    trmm_calls_size_args (testing_trmm { sample_arguments with ldc := 4 }).check
      = [(HIPBLAS_SIDE_LEFT, 2, 2, 3, 3, 4), (HIPBLAS_SIDE_LEFT, 2, 2, 3, 3, 4)] ∧
    trmm_model_agree sample_arguments { sample_arguments with inplace := true } = true ∧
    (testing_trmm { sample_arguments with inplace := true }).quick = none ∧
    trmm_calls_output_operands (testing_trmm sample_arguments).check
      = [.device "dC", .device "dC"] ∧
    trmm_calls_output_operands (testing_trmm { sample_arguments with inplace := true }).check
      = [.device "dB", .device "dB"] := by
  refine ⟨by decide, by decide, by decide, by decide, by decide, by decide, by decide, by decide,
    by decide⟩

end HipblasClients
